import Mathlib

/-!
# Verification of the rendiff media-processing service core

Shallow embedding of the operation validator (`api/utils/validators.py`),
the command builder and progress parser (`worker/utils/ffmpeg.py`), the
local storage path resolution (`storage/local.py`), the worker error
handling (`worker/tasks.py`) and the submit handler (`api/routers/convert.py`).

Python values (JSON-like operation parameters) are modelled by `Val`:
Python `int` as `ℤ`, `float` as `ℚ` (all arithmetic performed by the
embedded code is exact decimal arithmetic, so `ℚ` is a faithful model),
`None`, `bool`, `str`, `list` and `dict` (as association lists, which in
Python have unique keys and preserve insertion order).  Failure
(`raise ValueError` / `SecurityError` / `FFmpegCommandError`) is modelled by
`Except String`.
-/

namespace Rendiff

/-- A Python/JSON value as it appears in operation dictionaries. -/
inductive Val where
  | vNone : Val
  | vBool : Bool → Val
  | vInt : ℤ → Val
  | vRat : ℚ → Val
  | vStr : String → Val
  | vList : List Val → Val
  | vDict : List (String × Val) → Val

open Val

/-- Association-list dictionary, mirroring a Python dict (keys unique,
insertion order preserved). -/
abbrev Dict := List (String × Val)

/-- `d[k]` lookup: first binding wins (Python dicts have unique keys). -/
def dget : Dict → String → Option Val
  | [], _ => none
  | (k, v) :: rest, key => if k = key then some v else dget rest key

/-- One optional dict entry: models `if cond: validated[k] = v`. -/
def optE (k : String) (o : Option Val) : Dict :=
  match o with
  | none => []
  | some v => [(k, v)]

/-- Build a dict from optional bindings in order (models the sequence of
`validated[k] = v` assignments of a validator). -/
def dmk : List (String × Option Val) → Dict
  | [] => []
  | (k, o) :: r => optE k o ++ dmk r

@[simp] theorem dget_nil (k : String) : dget [] k = none := rfl

@[simp] theorem dget_cons (k key : String) (v : Val) (rest : Dict) :
    dget ((k, v) :: rest) key = if k = key then some v else dget rest key := rfl

theorem dget_optE_self (k : String) (o : Option Val) (rest : Dict)
    (h : dget rest k = none) : dget (optE k o ++ rest) k = o := by
  cases o <;> simp [optE, dget, h]

theorem dget_optE_ne (k key : String) (o : Option Val) (rest : Dict)
    (h : k ≠ key) : dget (optE k o ++ rest) key = dget rest key := by
  cases o <;> simp [optE, dget, h]

@[simp] theorem dmk_nil : dmk [] = [] := rfl

theorem dget_dmk_none {l : List (String × Option Val)} {key : String}
    (h : ∀ p ∈ l, p.1 ≠ key) : dget (dmk l) key = none := by
  induction l with
  | nil => rfl
  | cons p r ih =>
      obtain ⟨k, o⟩ := p
      rw [dmk, dget_optE_ne _ _ _ _ (h (k, o) (by simp))]
      exact ih (fun q hq => h q (by simp [hq]))

/-- Look up a key at its (unique) position in a `dmk` construction. -/
theorem dget_dmk_at (pre post : List (String × Option Val)) {k : String} {o : Option Val}
    (hpre : ∀ p ∈ pre, p.1 ≠ k) (hpost : ∀ p ∈ post, p.1 ≠ k) :
    dget (dmk (pre ++ (k, o) :: post)) k = o := by
  induction pre with
  | nil =>
      rw [List.nil_append, dmk, dget_optE_self _ _ _ (dget_dmk_none hpost)]
  | cons p r ih =>
      obtain ⟨k', o'⟩ := p
      rw [List.cons_append, dmk, dget_optE_ne _ _ _ _ (hpre (k', o') (by simp))]
      exact ih (fun q hq => hpre q (by simp [hq]))

/-- Python truthiness (`bool(x)` in a condition). -/
def truthy : Val → Bool
  | vNone => false
  | vBool b => b
  | vInt n => n ≠ 0
  | vRat q => q ≠ 0
  | vStr s => s ≠ ""
  | vList l => !l.isEmpty
  | vDict d => !d.isEmpty

/-- Numeric view: Python treats `bool` as a subtype of `int`, so
`isinstance(x, (int, float))` accepts bools, ints and floats. -/
def asNum : Val → Option ℚ
  | vBool b => some (if b then 1 else 0)
  | vInt n => some (n : ℚ)
  | vRat q => some q
  | _ => none

/-- `isinstance(x, (int, float))` (true for bools as well, as in Python). -/
def isNumV (v : Val) : Bool := (asNum v).isSome

/-- `isinstance(x, int)` (true for bools as well, as in Python). -/
def isIntV : Val → Bool
  | vBool _ => true
  | vInt _ => true
  | _ => false

/-- `isinstance(x, str)`. -/
def isStrV : Val → Bool
  | vStr _ => true
  | _ => false

/-- Python `==` between a value and an int/float constant
(numeric cross-type equality, e.g. `True == 1`, `44100.0 == 44100`). -/
def numEq (v : Val) (q : ℚ) : Bool :=
  match asNum v with
  | some x => x = q
  | none => false

/-- Python `==` between a value and a string constant. -/
def strEq (v : Val) (s : String) : Bool :=
  match v with
  | vStr t => t = s
  | _ => false

/-- Membership of a value in a list of string constants (Python `x in {...}`). -/
def memStr (v : Val) (l : List String) : Bool :=
  match v with
  | vStr s => l.contains s
  | _ => false

/-- Membership of a value in a list of numeric constants (Python `x in [...]`). -/
def memNum (v : Val) (l : List ℚ) : Bool := l.any (fun q => numEq v q)

/-! ### Numeric and string coercions -/

/-- Digits of a decimal string, as a natural number (assumes all digits). -/
def natOfDigits (s : String) : ℕ :=
  s.data.foldl (fun a c => a * 10 + (c.toNat - 48)) 0

/-- Is the string a nonempty run of ASCII digits? -/
def isDigitStr (s : String) : Bool :=
  s.length > 0 && s.data.all Char.isDigit

/-- Truncation of a rational toward zero, as Python's `int(float)`. -/
def ratTrunc (q : ℚ) : ℤ := q.num.tdiv q.den

/-- Python `int(x)`: identity on ints/bools, truncation on floats,
decimal parse on strings; error otherwise. -/
def pyInt : Val → Except String ℤ
  | vBool b => .ok (if b then 1 else 0)
  | vInt n => .ok n
  | vRat q => .ok (ratTrunc q)
  | vStr s =>
      if isDigitStr s then .ok (natOfDigits s)
      else if s.startsWith "-" && isDigitStr (s.drop 1) then
        .ok (-(natOfDigits (s.drop 1) : ℤ))
      else .error "invalid literal for int"
  | _ => .error "int() argument must be a string or a number"

/-- Parse a decimal float literal `[-]ddd[.ddd]` (the fragment of Python
float syntax the embedded code can meet; exact, as a rational). -/
def parseDecimal (s : String) : Option ℚ :=
  let sgn : ℚ := if s.startsWith "-" then -1 else 1
  let body := if s.startsWith "-" then s.drop 1 else s
  match body.splitOn "." with
  | [d] => if isDigitStr d then some (sgn * natOfDigits d) else none
  | [d, f] =>
      if isDigitStr d && isDigitStr f then
        some (sgn * ((natOfDigits d : ℚ) + (natOfDigits f : ℚ) / ((10 : ℚ) ^ f.length)))
      else none
  | _ => none

/-- Python `float(x)`. -/
def pyFloat : Val → Except String ℚ
  | vBool b => .ok (if b then 1 else 0)
  | vInt n => .ok (n : ℚ)
  | vRat q => .ok q
  | vStr s =>
      match parseDecimal s with
      | some q => .ok q
      | none => .error "could not convert string to float"
  | _ => .error "float() argument must be a string or a number"

/-- Decimal digit characters of `n` (with enough fuel). -/
def natDecAux : ℕ → ℕ → List Char
  | 0, _ => []
  | fuel + 1, n =>
      if n < 10 then [Char.ofNat (48 + n)]
      else natDecAux fuel (n / 10) ++ [Char.ofNat (48 + n % 10)]

/-- Decimal rendering of a natural number. -/
def natDec (n : ℕ) : String := String.mk (natDecAux (n + 1) n)

/-- Decimal rendering of an integer. -/
def intDec (n : ℤ) : String :=
  if n < 0 then "-" ++ natDec n.natAbs else natDec n.natAbs

/-- Render a rational the way Python renders the corresponding float when the
rational is an exact decimal: `q = m / 10^k` in lowest terms prints as the
shortest decimal, integers print with a trailing `.0`.  Non-decimal rationals
(never produced by the embedded code paths we reason about) get a `/`-form. -/
def ratDec (q : ℚ) : String :=
  if q.den = 1 then intDec q.num ++ ".0"
  else
    match (List.range 64).find? (fun k => (10 : ℕ) ^ k % q.den = 0) with
    | some k =>
        let scaled : ℤ := q.num * (((10 : ℕ) ^ k / q.den : ℕ) : ℤ)
        let sgn := if scaled < 0 then "-" else ""
        let m := scaled.natAbs
        let intPart := m / 10 ^ k
        let fracPart := m % 10 ^ k
        let fracStr := natDec fracPart
        let padded := String.mk (List.replicate (k - fracStr.length) '0') ++ fracStr
        let trimmed := String.mk (padded.data.reverse.dropWhile (· = '0')).reverse
        sgn ++ natDec intPart ++ "." ++ (if trimmed = "" then "0" else trimmed)
    | none => intDec q.num ++ "/" ++ natDec q.den

/-- Python `str(x)` for the value shapes the embedded code renders. -/
def pyStr : Val → String
  | vNone => "None"
  | vBool b => if b then "True" else "False"
  | vInt n => intDec n
  | vRat q => ratDec q
  | vStr s => s
  | vList _ => "[...]"
  | vDict _ => "{...}"

/-- ASCII lower-casing of one character. -/
def asciiLower (c : Char) : Char :=
  if 65 ≤ c.toNat ∧ c.toNat ≤ 90 then Char.ofNat (c.toNat + 32) else c

/-- ASCII lower-casing of a string (`str.lower()` on the ASCII inputs the
embedded code handles). -/
def strLower (s : String) : String := String.mk (s.data.map asciiLower)

/-- Python `x.lower()` (only valid on strings; anything else raises). -/
def pyLower : Val → Except String String
  | vStr s => .ok (strLower s)
  | _ => .error "object has no attribute lower"

/-- Python `x or y` (truthiness-based). -/
def pyOr (x y : Option Val) : Option Val :=
  match x with
  | some v => if truthy v then some v else y
  | none => y

/-! ### `parse_time_string` (validators.py)

Regex `^(\d{1,2}:)?(\d{1,2}:)?\d{1,2}(\.\d{1,3})?$`, then split on `:` and
convert each part with `float`, with a final 0..86400 range check. -/

/-- A 1-2 digit group. -/
def isD12 (s : String) : Bool := (s.length = 1 || s.length = 2) && isDigitStr s

/-- The final regex group: 1-2 digits with an optional `.`+1-3 digit fraction;
returns its exact value. -/
def parseLastPart (s : String) : Option ℚ :=
  match s.splitOn "." with
  | [d] => if isD12 d then some (natOfDigits d) else none
  | [d, f] =>
      if isD12 d && (decide (1 ≤ f.length) && decide (f.length ≤ 3)) && isDigitStr f then
        some ((natOfDigits d : ℚ) + (natOfDigits f : ℚ) / ((10 : ℚ) ^ f.length))
      else none
  | _ => none

/-- The regex match + split + per-part conversion of `parse_time_string`. -/
def timeParts (s : String) : Option ℚ :=
  match s.splitOn ":" with
  | [a] => parseLastPart a
  | [a, b] =>
      if isD12 a then (parseLastPart b).map (fun q => (natOfDigits a : ℚ) * 60 + q)
      else none
  | [a, b, c] =>
      if isD12 a && isD12 b then
        (parseLastPart c).map
          (fun q => (natOfDigits a : ℚ) * 3600 + (natOfDigits b : ℚ) * 60 + q)
      else none
  | _ => none

/-- `parse_time_string` from validators.py. -/
def parse_time_string (s : String) : Except String ℚ :=
  match timeParts s with
  | none => .error "Invalid time format"
  | some q =>
      if q < 0 ∨ q > 86400 then .error "Time out of reasonable range"
      else .ok q

theorem parse_time_string_bounds {s : String} {q : ℚ}
    (h : parse_time_string s = .ok q) : 0 ≤ q ∧ q ≤ 86400 := by
  unfold parse_time_string at h
  split at h
  · cases h
  · split at h
    · cases h
    · rename_i hq
      cases h
      push_neg at hq
      exact ⟨hq.1, hq.2⟩

/-! Generic `Except` plumbing. -/

theorem ebind_ok {α β : Type} {x : Except String α} {f : α → Except String β} {b : β} :
    (x >>= f) = .ok b ↔ ∃ a, x = .ok a ∧ f a = .ok b := by
  cases x <;> simp [Bind.bind, Except.bind]

theorem emap_ok {α β : Type} {x : Except String α} {f : α → β} {b : β} :
    (x.map f) = .ok b ↔ ∃ a, x = .ok a ∧ f a = b := by
  cases x <;> simp [Except.map]

/-! ### `validate_trim_operation` (validators.py) -/

/-- The `start` field block of `validate_trim_operation`. -/
def trimStartF : Option Val → Except String (Option Val)
  | none => .ok none
  | some v =>
      match asNum v with
      | some q =>
          if q < 0 ∨ q > 86400 then .error "Start time out of valid range (0-86400 seconds)"
          else .ok (some (vRat q))
      | none =>
          match v with
          | vStr s =>
              if s.length > 20 then .error "Start time string too long"
              else (parse_time_string s).map (fun q => some (vRat q))
          | _ => .error "Invalid start time format - must be number or time string"

/-- The `duration` branch of `validate_trim_operation` (key present). -/
def trimDurF (v : Val) : Except String Val :=
  match asNum v with
  | some q =>
      if q ≤ 0 ∨ q > 86400 then .error "Duration out of valid range (0-86400 seconds)"
      else .ok (vRat q)
  | none =>
      match v with
      | vStr s =>
          if s.length > 20 then .error "Duration string too long"
          else
            (parse_time_string s) >>= fun q =>
              if q ≤ 0 then .error "Duration must be positive" else .ok (vRat q)
      | _ => .error "Invalid duration format - must be number or time string"

/-- The `end` branch of `validate_trim_operation` (key present). -/
def trimEndF (v : Val) : Except String Val :=
  match asNum v with
  | some q =>
      if q < 0 ∨ q > 86400 then .error "End time out of valid range (0-86400 seconds)"
      else .ok (vRat q)
  | none =>
      match v with
      | vStr s =>
          if s.length > 20 then .error "End time string too long"
          else (parse_time_string s).map vRat
      | _ => .error "Invalid end time format - must be number or time string"

/-- The `duration` / `end` dispatch of `validate_trim_operation`
(`if "duration" in op: ... elif "end" in op: ...`). -/
def trimDurEnd (dur en : Option Val) : Except String (Option Val × Option Val) :=
  match dur with
  | some dv => (trimDurF dv).map (fun d => ((some d : Option Val), (none : Option Val)))
  | none =>
      match en with
      | some ev => (trimEndF ev).map (fun e => ((none : Option Val), (some e : Option Val)))
      | none => .ok (none, none)

/-- `validate_trim_operation` from validators.py. -/
def validate_trim_operation (op : Dict) : Except String Dict :=
  trimStartF (dget op "start") >>= fun s =>
  trimDurEnd (dget op "duration") (dget op "end") >>= fun de =>
  if s.isSome && de.1.isNone && de.2.isNone then
    .error "Trim operation requires either duration or end time when start is specified"
  else
    .ok (("type", vStr "trim") :: dmk [("start", s), ("duration", de.1), ("end", de.2)])

/-! Canonical-shape and fixpoint lemmas for the trim field blocks. -/

theorem trimStartF_canon {x : Option Val} {o : Option Val}
    (h : trimStartF x = .ok o) :
    o = none ∨ ∃ q : ℚ, o = some (vRat q) ∧ 0 ≤ q ∧ q ≤ 86400 := by
  unfold trimStartF at h
  split at h
  · cases h; exact Or.inl rfl
  · split at h
    · split at h
      · cases h
      · rename_i hb
        cases h
        push_neg at hb
        exact Or.inr ⟨_, rfl, hb.1, hb.2⟩
    · split at h
      · split at h
        · cases h
        · obtain ⟨q, hq, hval⟩ := emap_ok.mp h
          cases hval
          obtain ⟨h1, h2⟩ := parse_time_string_bounds hq
          exact Or.inr ⟨q, rfl, h1, h2⟩
      · cases h

theorem trimStartF_fix {x o : Option Val} (h : trimStartF x = .ok o) :
    trimStartF o = .ok o := by
  rcases trimStartF_canon h with rfl | ⟨q, rfl, h1, h2⟩
  · rfl
  · simp only [trimStartF, asNum]
    rw [if_neg (by push_neg; exact ⟨h1, h2⟩)]

theorem trimDurF_canon {v : Val} {w : Val} (h : trimDurF v = .ok w) :
    ∃ q : ℚ, w = vRat q ∧ 0 < q ∧ q ≤ 86400 := by
  unfold trimDurF at h
  split at h
  · split at h
    · cases h
    · rename_i hb
      cases h
      push_neg at hb
      exact ⟨_, rfl, hb.1, hb.2⟩
  · split at h
    · split at h
      · cases h
      · obtain ⟨q, hq, h2⟩ := ebind_ok.mp h
        obtain ⟨hb1, hb2⟩ := parse_time_string_bounds hq
        split at h2
        · cases h2
        · rename_i hz
          cases h2
          exact ⟨q, rfl, by linarith, hb2⟩
    · cases h

theorem trimDurF_fix {v w : Val} (h : trimDurF v = .ok w) :
    trimDurF w = .ok w := by
  obtain ⟨q, rfl, h1, h2⟩ := trimDurF_canon h
  simp only [trimDurF, asNum]
  rw [if_neg (by push_neg; exact ⟨h1, h2⟩)]

theorem trimEndF_canon {v : Val} {w : Val} (h : trimEndF v = .ok w) :
    ∃ q : ℚ, w = vRat q ∧ 0 ≤ q ∧ q ≤ 86400 := by
  unfold trimEndF at h
  split at h
  · split at h
    · cases h
    · rename_i hb
      cases h
      push_neg at hb
      exact ⟨_, rfl, hb.1, hb.2⟩
  · split at h
    · split at h
      · cases h
      · obtain ⟨q, hq, hval⟩ := emap_ok.mp h
        cases hval
        obtain ⟨hb1, hb2⟩ := parse_time_string_bounds hq
        exact ⟨q, rfl, hb1, hb2⟩
    · cases h

theorem trimEndF_fix {v w : Val} (h : trimEndF v = .ok w) :
    trimEndF w = .ok w := by
  obtain ⟨q, rfl, h1, h2⟩ := trimEndF_canon h
  simp only [trimEndF, asNum]
  rw [if_neg (by push_neg; exact ⟨h1, h2⟩)]

/-- Re-running the duration/end dispatch on its own output is stable. -/
theorem trimDurEnd_fix {dur en : Option Val} {de : Option Val × Option Val}
    (h : trimDurEnd dur en = .ok de) : trimDurEnd de.1 de.2 = .ok de := by
  unfold trimDurEnd at h
  cases dur with
  | some dv =>
      obtain ⟨d, hd, hpair⟩ := emap_ok.mp h
      cases hpair
      unfold trimDurEnd
      simp only
      rw [emap_ok]
      exact ⟨d, trimDurF_fix hd, rfl⟩
  | none =>
      cases en with
      | some ev =>
          obtain ⟨e, he, hpair⟩ := emap_ok.mp h
          cases hpair
          unfold trimDurEnd
          simp only
          rw [emap_ok]
          exact ⟨e, trimEndF_fix he, rfl⟩
      | none =>
          cases h
          rfl

/-- Idempotence of the trim validator. -/
theorem validate_trim_fix {op : Dict} {w : Dict}
    (h : validate_trim_operation op = .ok w) :
    validate_trim_operation w = .ok w := by
  unfold validate_trim_operation at h
  obtain ⟨s, hs, h⟩ := ebind_ok.mp h
  obtain ⟨de, hde, h⟩ := ebind_ok.mp h
  by_cases hc : s.isSome && de.1.isNone && de.2.isNone
  · rw [if_pos hc] at h; cases h
  · rw [if_neg hc] at h
    cases h
    have hgs : dget (("type", vStr "trim") ::
        dmk [("start", s), ("duration", de.1), ("end", de.2)]) "start" = s := by
      rw [dget_cons, if_neg (by decide)]
      exact dget_dmk_at ([]) ([("duration", de.1), ("end", de.2)])
        (by simp) (by simp)
    have hgd : dget (("type", vStr "trim") ::
        dmk [("start", s), ("duration", de.1), ("end", de.2)]) "duration" = de.1 := by
      rw [dget_cons, if_neg (by decide)]
      exact dget_dmk_at ([("start", s)]) ([("end", de.2)])
        (by simp) (by simp)
    have hge : dget (("type", vStr "trim") ::
        dmk [("start", s), ("duration", de.1), ("end", de.2)]) "end" = de.2 := by
      rw [dget_cons, if_neg (by decide)]
      exact dget_dmk_at ([("start", s), ("duration", de.1)]) ([])
        (by simp) (by simp)
    unfold validate_trim_operation
    rw [hgs, hgd, hge, ebind_ok]
    refine ⟨s, trimStartF_fix hs, ?_⟩
    rw [ebind_ok]
    exact ⟨de, trimDurEnd_fix hde, by rw [if_neg hc]⟩

/-! ### `validate_watermark_operation` (validators.py) -/

/-- `validate_watermark_operation` from validators.py: requires `image`,
fills defaults for `position`, `opacity`, `scale` (the latter two through
`float(...)`). -/
def validate_watermark_operation (op : Dict) : Except String Dict :=
  match dget op "image" with
  | none => .error "Watermark operation requires image field"
  | some img =>
      pyFloat ((dget op "opacity").getD (vRat (8/10))) >>= fun opac =>
      pyFloat ((dget op "scale").getD (vRat (1/10))) >>= fun sc =>
      .ok (("type", vStr "watermark") :: dmk
        [("image", some img),
         ("position", some ((dget op "position").getD (vStr "bottom-right"))),
         ("opacity", some (vRat opac)),
         ("scale", some (vRat sc))])

theorem validate_watermark_fix {op w : Dict}
    (h : validate_watermark_operation op = .ok w) :
    validate_watermark_operation w = .ok w := by
  unfold validate_watermark_operation at h
  split at h
  · cases h
  · rename_i img himg
    obtain ⟨opac, hopac, h⟩ := ebind_ok.mp h
    obtain ⟨sc, hsc, h⟩ := ebind_ok.mp h
    cases h
    unfold validate_watermark_operation
    rw [show dget (("type", vStr "watermark") :: dmk
        [("image", some img),
         ("position", some ((dget op "position").getD (vStr "bottom-right"))),
         ("opacity", some (vRat opac)), ("scale", some (vRat sc))]) "image" = some img by
      rw [dget_cons, if_neg (by decide)]
      exact dget_dmk_at ([]) _ (by simp) (by simp)]
    rw [show dget (("type", vStr "watermark") :: dmk
        [("image", some img),
         ("position", some ((dget op "position").getD (vStr "bottom-right"))),
         ("opacity", some (vRat opac)), ("scale", some (vRat sc))]) "opacity"
        = some (vRat opac) by
      rw [dget_cons, if_neg (by decide)]
      exact dget_dmk_at ([("image", some img),
        ("position", some ((dget op "position").getD (vStr "bottom-right")))]) _
        (by simp) (by simp)]
    rw [show dget (("type", vStr "watermark") :: dmk
        [("image", some img),
         ("position", some ((dget op "position").getD (vStr "bottom-right"))),
         ("opacity", some (vRat opac)), ("scale", some (vRat sc))]) "scale"
        = some (vRat sc) by
      rw [dget_cons, if_neg (by decide)]
      exact dget_dmk_at ([("image", some img),
        ("position", some ((dget op "position").getD (vStr "bottom-right"))),
        ("opacity", some (vRat opac))]) _ (by simp) (by simp)]
    rw [show dget (("type", vStr "watermark") :: dmk
        [("image", some img),
         ("position", some ((dget op "position").getD (vStr "bottom-right"))),
         ("opacity", some (vRat opac)), ("scale", some (vRat sc))]) "position"
        = some ((dget op "position").getD (vStr "bottom-right")) by
      rw [dget_cons, if_neg (by decide)]
      exact dget_dmk_at ([("image", some img)]) _ (by simp) (by simp)]
    simp only [Option.getD_some]
    rw [ebind_ok]
    exact ⟨opac, rfl, by rw [ebind_ok]; exact ⟨sc, rfl, rfl⟩⟩

/-! ### `validate_filter_operation` (validators.py) -/

/-- The `allowed_filters` whitelist of `validate_filter_operation`. -/
def allowedFilters : List String :=
  ["denoise", "deinterlace", "stabilize", "sharpen", "blur",
   "brightness", "contrast", "saturation", "hue", "eq", "gamma",
   "fade_in", "fade_out", "speed"]

/-- `if k in validated: v = validated[k]; if not isinstance(v,(int,float))
or v < lo or v > hi: raise`. -/
def chkNumRange (x : Option Val) (lo hi : ℚ) (msg : String) : Except String Unit :=
  match x with
  | none => .ok ()
  | some v =>
      match asNum v with
      | some q => if q < lo ∨ q > hi then .error msg else .ok ()
      | none => .error msg

/-- `validate_filter_operation` from validators.py: either a named filter
(with raw `params`) or direct filter parameters copied from the allowed set,
followed by range checks on brightness/contrast/saturation/speed. -/
def validate_filter_operation (op : Dict) : Except String Dict :=
  (match dget op "name" with
   | some nm =>
       if memStr nm allowedFilters then
         .ok (("type", vStr "filter") :: dmk
           [("name", some nm), ("params", some ((dget op "params").getD (vDict [])))])
       else .error "Unknown filter"
   | none =>
       .ok (("type", vStr "filter") ::
         op.filter (fun p => p.1 ≠ "type" && allowedFilters.contains p.1))) >>= fun validated =>
  chkNumRange (dget validated "brightness") (-1) 1 "Brightness must be between -1 and 1" >>= fun _ =>
  chkNumRange (dget validated "contrast") 0 4 "Contrast must be between 0 and 4" >>= fun _ =>
  chkNumRange (dget validated "saturation") 0 3 "Saturation must be between 0 and 3" >>= fun _ =>
  chkNumRange (dget validated "speed") (1/4) 4 "Speed must be between 0.25 and 4" >>= fun _ =>
  .ok validated

theorem dget_keys_none {l : Dict} {key : String}
    (h : ∀ p ∈ l, p.1 ≠ key) : dget l key = none := by
  induction l with
  | nil => rfl
  | cons p r ih =>
      obtain ⟨k, v⟩ := p
      rw [dget_cons, if_neg (h (k, v) (by simp))]
      exact ih (fun q hq => h q (by simp [hq]))

theorem validate_filter_fix {op w : Dict}
    (h : validate_filter_operation op = .ok w) :
    validate_filter_operation w = .ok w := by
  unfold validate_filter_operation at h
  obtain ⟨validated, hv, h⟩ := ebind_ok.mp h
  obtain ⟨u1, h1, h⟩ := ebind_ok.mp h
  obtain ⟨u2, h2, h⟩ := ebind_ok.mp h
  obtain ⟨u3, h3, h⟩ := ebind_ok.mp h
  obtain ⟨u4, h4, h⟩ := ebind_ok.mp h
  cases h
  -- re-running the head construction on `w` gives `w` back
  have hcore :
      (match dget w "name" with
       | some nm =>
           if memStr nm allowedFilters then
             Except.ok (("type", vStr "filter") :: dmk
               [("name", some nm),
                ("params", some ((dget w "params").getD (vDict [])))])
           else Except.error "Unknown filter"
       | none =>
           Except.ok (("type", vStr "filter") ::
             w.filter (fun p => p.1 ≠ "type" && allowedFilters.contains p.1))) =
        Except.ok w := by
    split at hv
    · rename_i nm hnm
      split at hv
      · rename_i hmem
        cases hv
        rw [show dget (("type", vStr "filter") :: dmk
            [("name", some nm), ("params", some ((dget op "params").getD (vDict [])))]) "name"
            = some nm by
          rw [dget_cons, if_neg (by decide)]
          exact dget_dmk_at ([]) _ (by simp) (by simp)]
        rw [show dget (("type", vStr "filter") :: dmk
            [("name", some nm), ("params", some ((dget op "params").getD (vDict [])))]) "params"
            = some ((dget op "params").getD (vDict [])) by
          rw [dget_cons, if_neg (by decide)]
          exact dget_dmk_at ([("name", some nm)]) _ (by simp) (by simp)]
        simp only [hmem, if_true, Option.getD_some]
      · cases hv
    · cases hv
      have hname : dget (("type", vStr "filter") ::
          op.filter (fun p => p.1 ≠ "type" && allowedFilters.contains p.1)) "name" = none := by
        rw [dget_cons, if_neg (by decide)]
        refine dget_keys_none (fun p hp => ?_)
        have := List.of_mem_filter hp
        intro hk
        rw [hk] at this
        simp [allowedFilters] at this
      rw [hname]
      have hfilt : List.filter (fun p => p.1 ≠ "type" && allowedFilters.contains p.1)
          (List.filter (fun p => p.1 ≠ "type" && allowedFilters.contains p.1) op) =
          List.filter (fun p => p.1 ≠ "type" && allowedFilters.contains p.1) op :=
        List.filter_eq_self.mpr (fun p hp => (List.mem_filter.mp hp).2)
      rw [List.filter_cons]
      simp only [decide_eq_true_eq]
      rw [if_neg (by simp), hfilt]
  unfold validate_filter_operation
  rw [ebind_ok]
  refine ⟨w, hcore, ?_⟩
  rw [ebind_ok]
  refine ⟨u1, h1, ?_⟩
  rw [ebind_ok]
  refine ⟨u2, h2, ?_⟩
  rw [ebind_ok]
  refine ⟨u3, h3, ?_⟩
  rw [ebind_ok]
  exact ⟨u4, h4, rfl⟩

/-! ### `validate_stream_operation` (validators.py) -/

/-- `validate_stream_operation` from validators.py (also handles the
`streaming` alias; the canonical type is `stream`). -/
def validate_stream_operation (op : Dict) : Except String Dict :=
  pyLower ((dget op "format").getD (vStr "hls")) >>= fun fmt =>
  if ¬ (fmt = "hls" ∨ fmt = "dash") then .error "Unknown streaming format"
  else
    pyInt ((dget op "segment_duration").getD (vInt 6)) >>= fun sd =>
    .ok (("type", vStr "stream") :: dmk
      [("format", some (vStr fmt)),
       ("variants", some ((dget op "variants").getD (vList []))),
       ("segment_duration", some (vInt sd))])

theorem validate_stream_fix {op w : Dict}
    (h : validate_stream_operation op = .ok w) :
    validate_stream_operation w = .ok w := by
  unfold validate_stream_operation at h
  obtain ⟨fmt, hfmt, h⟩ := ebind_ok.mp h
  split at h
  · cases h
  · rename_i hfok
    obtain ⟨sd, hsd, h⟩ := ebind_ok.mp h
    cases h
    unfold validate_stream_operation
    rw [show dget (("type", vStr "stream") :: dmk
        [("format", some (vStr fmt)),
         ("variants", some ((dget op "variants").getD (vList []))),
         ("segment_duration", some (vInt sd))]) "format" = some (vStr fmt) by
      rw [dget_cons, if_neg (by decide)]
      exact dget_dmk_at ([]) _ (by simp) (by simp)]
    rw [show dget (("type", vStr "stream") :: dmk
        [("format", some (vStr fmt)),
         ("variants", some ((dget op "variants").getD (vList []))),
         ("segment_duration", some (vInt sd))]) "variants"
        = some ((dget op "variants").getD (vList [])) by
      rw [dget_cons, if_neg (by decide)]
      exact dget_dmk_at ([("format", some (vStr fmt))]) _ (by simp) (by simp)]
    rw [show dget (("type", vStr "stream") :: dmk
        [("format", some (vStr fmt)),
         ("variants", some ((dget op "variants").getD (vList []))),
         ("segment_duration", some (vInt sd))]) "segment_duration" = some (vInt sd) by
      rw [dget_cons, if_neg (by decide)]
      exact dget_dmk_at ([("format", some (vStr fmt)),
        ("variants", some ((dget op "variants").getD (vList [])))]) _ (by simp) (by simp)]
    simp only [Option.getD_some]
    have hlow : strLower fmt = fmt := by
      rcases not_not.mp hfok with h' | h' <;> (subst h'; decide)
    rw [ebind_ok]
    refine ⟨fmt, by simp [pyLower, hlow], ?_⟩
    rw [if_neg hfok]
    rw [ebind_ok]
    exact ⟨sd, rfl, rfl⟩

/-! ### `validate_scale_operation` (validators.py) -/

/-- The width/height field of `validate_scale_operation`: values other than
`"auto"` / `-1` must be even numbers in the given range and are truncated
to `int`; `"auto"`-like values are copied unchanged. -/
def scaleDim (x : Option Val) (lo hi : ℤ) (nm : String) : Except String (Option Val) :=
  match x with
  | none => .ok none
  | some v =>
      if ¬ (strEq v "auto" = true ∨ numEq v (-1) = true) then
        match asNum v with
        | none => .error (nm ++ " must be a number or auto")
        | some q =>
            if ratTrunc q < lo ∨ ratTrunc q > hi then .error (nm ++ " out of valid range")
            else if ratTrunc q % 2 ≠ 0 then .error (nm ++ " must be even number")
            else .ok (some (vInt (ratTrunc q)))
      else .ok (some v)

/-- The `algorithm` field of `validate_scale_operation`. -/
def scaleAlg (x : Option Val) : Except String (Option Val) :=
  match x with
  | none => .ok none
  | some v =>
      if memStr v ["lanczos", "bicubic", "bilinear", "neighbor", "area", "fast_bilinear"] then
        .ok (some v)
      else .error "Invalid scaling algorithm"

/-- `validate_scale_operation` from validators.py. -/
def validate_scale_operation (op : Dict) : Except String Dict :=
  scaleDim (dget op "width") 32 7680 "Width" >>= fun w =>
  scaleDim (dget op "height") 32 4320 "Height" >>= fun hh =>
  scaleAlg (dget op "algorithm") >>= fun alg =>
  .ok (("type", vStr "scale") :: dmk [("width", w), ("height", hh), ("algorithm", alg)])

theorem scaleDim_fix {x o : Option Val} {lo hi : ℤ} {nm : String}
    (h : scaleDim x lo hi nm = .ok o) : scaleDim o lo hi nm = .ok o := by
  unfold scaleDim at h
  split at h
  · cases h; rfl
  · rename_i v
    split at h
    · rename_i hg
      split at h
      · cases h
      · rename_i q hq
        split at h
        · cases h
        · rename_i hr
          split at h
          · cases h
          · rename_i he
            cases h
            push_neg at hr
            rw [not_not] at he
            have hne : ¬ (strEq (vInt (ratTrunc q)) "auto" = true
                ∨ numEq (vInt (ratTrunc q)) (-1) = true) := by
              push_neg
              refine ⟨by simp [strEq], ?_⟩
              simp only [numEq, asNum]
              intro hc
              simp only [decide_eq_true_eq] at hc
              have hm1 : ratTrunc q = -1 := by exact_mod_cast hc
              rw [hm1] at he
              omega
            simp only [scaleDim]
            rw [if_pos hne]
            simp only [asNum]
            rw [show ratTrunc ((ratTrunc q : ℤ) : ℚ) = ratTrunc q from by simp [ratTrunc]]
            rw [if_neg (by push_neg; exact hr), if_neg (not_not_intro he)]
    · rename_i hg
      cases h
      simp only [scaleDim]
      rw [if_neg hg]

theorem scaleAlg_fix {x o : Option Val} (h : scaleAlg x = .ok o) :
    scaleAlg o = .ok o := by
  unfold scaleAlg at h
  split at h
  · cases h; rfl
  · split at h
    · rename_i hmem
      cases h
      simp only [scaleAlg]
      rw [if_pos hmem]
    · cases h

theorem validate_scale_fix {op w : Dict}
    (h : validate_scale_operation op = .ok w) :
    validate_scale_operation w = .ok w := by
  unfold validate_scale_operation at h
  obtain ⟨wd, hwd, h⟩ := ebind_ok.mp h
  obtain ⟨ht, hht, h⟩ := ebind_ok.mp h
  obtain ⟨alg, halg, h⟩ := ebind_ok.mp h
  cases h
  unfold validate_scale_operation
  rw [show dget (("type", vStr "scale") :: dmk
      [("width", wd), ("height", ht), ("algorithm", alg)]) "width" = wd by
    rw [dget_cons, if_neg (by decide)]
    exact dget_dmk_at ([]) _ (by simp) (by simp)]
  rw [show dget (("type", vStr "scale") :: dmk
      [("width", wd), ("height", ht), ("algorithm", alg)]) "height" = ht by
    rw [dget_cons, if_neg (by decide)]
    exact dget_dmk_at ([("width", wd)]) _ (by simp) (by simp)]
  rw [show dget (("type", vStr "scale") :: dmk
      [("width", wd), ("height", ht), ("algorithm", alg)]) "algorithm" = alg by
    rw [dget_cons, if_neg (by decide)]
    exact dget_dmk_at ([("width", wd), ("height", ht)]) _ (by simp) (by simp)]
  rw [ebind_ok]
  refine ⟨wd, scaleDim_fix hwd, ?_⟩
  rw [ebind_ok]
  refine ⟨ht, scaleDim_fix hht, ?_⟩
  rw [ebind_ok]
  exact ⟨alg, scaleAlg_fix halg, rfl⟩

/-! ### `validate_crop_operation` (validators.py) -/

/-- The crop expression regex `^[a-zA-Z0-9\+\-\*\/\(\)\.]+$`. -/
def cropExprOk (s : String) : Bool :=
  s.length > 0 && s.data.all (fun c =>
    c.isAlpha || c.isDigit || c = '+' || c = '-' || c = '*' || c = '/' ||
    c = '(' || c = ')' || c = '.')

/-- One field of `validate_crop_operation`: strings must match the expression
regex and are copied; numbers must be nonnegative, `x`/`y` are truncated to
`int`, `width`/`height` copied unchanged. -/
def cropField (isXY : Bool) (x : Option Val) (nm : String) : Except String (Option Val) :=
  match x with
  | none => .ok none
  | some v =>
      match v with
      | vStr s =>
          if cropExprOk s then .ok (some (vStr s))
          else .error (nm ++ " expression invalid")
      | _ =>
          match asNum v with
          | some q =>
              if q < 0 then .error (nm ++ " must be non-negative")
              else .ok (some (if isXY then vInt (ratTrunc q) else v))
          | none => .error (nm ++ " must be a number or expression")

/-- `validate_crop_operation` from validators.py. -/
def validate_crop_operation (op : Dict) : Except String Dict :=
  cropField false (dget op "width") "width" >>= fun wd =>
  cropField false (dget op "height") "height" >>= fun ht =>
  cropField true (dget op "x") "x" >>= fun xx =>
  cropField true (dget op "y") "y" >>= fun yy =>
  .ok (("type", vStr "crop") :: dmk [("width", wd), ("height", ht), ("x", xx), ("y", yy)])

theorem ratTrunc_intCast (n : ℤ) : ratTrunc ((n : ℤ) : ℚ) = n := by
  simp [ratTrunc]

theorem ratTrunc_nonneg {q : ℚ} (h : 0 ≤ q) : 0 ≤ ratTrunc q := by
  unfold ratTrunc
  have hden : (0 : ℤ) ≤ (q.den : ℤ) := by positivity
  exact Int.tdiv_nonneg (Rat.num_nonneg.mpr h) hden

theorem cropField_canon {b : Bool} {x o : Option Val} {nm : String}
    (h : cropField b x nm = .ok o) :
    o = none ∨
    (∃ s, o = some (vStr s) ∧ cropExprOk s = true) ∨
    (∃ v q, o = some v ∧ asNum v = some q ∧ 0 ≤ q ∧ (∀ s, v ≠ vStr s) ∧
      (b = true → ∃ n : ℤ, 0 ≤ n ∧ v = vInt n)) := by
  unfold cropField at h
  split at h
  · cases h; exact Or.inl rfl
  · rename_i v
    split at h
    · rename_i s
      split at h
      · rename_i hok
        cases h
        exact Or.inr (Or.inl ⟨s, rfl, hok⟩)
      · cases h
    · rename_i hnotstr
      split at h
      · rename_i q hq
        split at h
        · cases h
        · rename_i hge
          push_neg at hge
          cases h
          cases b with
          | true =>
              refine Or.inr (Or.inr ⟨vInt (ratTrunc q), (ratTrunc q : ℚ), by simp,
                rfl, by exact_mod_cast ratTrunc_nonneg hge, ?_, ?_⟩)
              · intro s hc
                cases hc
              · intro _
                exact ⟨ratTrunc q, ratTrunc_nonneg hge, rfl⟩
          | false =>
              refine Or.inr (Or.inr ⟨v, q, by simp, hq, hge, ?_, ?_⟩)
              · intro s hc
                subst hc
                exact hnotstr s rfl
              · intro hc
                cases hc
      · cases h

theorem cropField_fix {b : Bool} {x o : Option Val} {nm : String}
    (h : cropField b x nm = .ok o) : cropField b o nm = .ok o := by
  rcases cropField_canon h with rfl | ⟨s, rfl, hok⟩ | ⟨v, q, rfl, hq, hge, hns, hxy⟩
  · rfl
  · simp only [cropField]
    rw [if_pos hok]
  · cases b with
    | true =>
        obtain ⟨n, hn, rfl⟩ := hxy rfl
        simp only [cropField, asNum]
        rw [if_neg (by push_neg; exact_mod_cast hn)]
        rw [ratTrunc_intCast]
        simp
    | false =>
        match v, hq with
        | vBool b', hq =>
            simp only [cropField, asNum] at hq ⊢
            cases hq
            rw [if_neg (by push_neg; exact hge)]
            simp
        | vInt n, hq =>
            simp only [cropField, asNum] at hq ⊢
            cases hq
            rw [if_neg (by push_neg; exact hge)]
            simp
        | vRat q', hq =>
            simp only [cropField, asNum] at hq ⊢
            cases hq
            rw [if_neg (by push_neg; exact hge)]
            simp

theorem validate_crop_fix {op w : Dict}
    (h : validate_crop_operation op = .ok w) :
    validate_crop_operation w = .ok w := by
  unfold validate_crop_operation at h
  obtain ⟨wd, hwd, h⟩ := ebind_ok.mp h
  obtain ⟨ht, hht, h⟩ := ebind_ok.mp h
  obtain ⟨xx, hxx, h⟩ := ebind_ok.mp h
  obtain ⟨yy, hyy, h⟩ := ebind_ok.mp h
  cases h
  unfold validate_crop_operation
  rw [show dget (("type", vStr "crop") :: dmk
      [("width", wd), ("height", ht), ("x", xx), ("y", yy)]) "width" = wd by
    rw [dget_cons, if_neg (by decide)]
    exact dget_dmk_at ([]) _ (by simp) (by simp)]
  rw [show dget (("type", vStr "crop") :: dmk
      [("width", wd), ("height", ht), ("x", xx), ("y", yy)]) "height" = ht by
    rw [dget_cons, if_neg (by decide)]
    exact dget_dmk_at ([("width", wd)]) _ (by simp) (by simp)]
  rw [show dget (("type", vStr "crop") :: dmk
      [("width", wd), ("height", ht), ("x", xx), ("y", yy)]) "x" = xx by
    rw [dget_cons, if_neg (by decide)]
    exact dget_dmk_at ([("width", wd), ("height", ht)]) _ (by simp) (by simp)]
  rw [show dget (("type", vStr "crop") :: dmk
      [("width", wd), ("height", ht), ("x", xx), ("y", yy)]) "y" = yy by
    rw [dget_cons, if_neg (by decide)]
    exact dget_dmk_at ([("width", wd), ("height", ht), ("x", xx)]) _ (by simp) (by simp)]
  rw [ebind_ok]
  refine ⟨wd, cropField_fix hwd, ?_⟩
  rw [ebind_ok]
  refine ⟨ht, cropField_fix hht, ?_⟩
  rw [ebind_ok]
  refine ⟨xx, cropField_fix hxx, ?_⟩
  rw [ebind_ok]
  exact ⟨yy, cropField_fix hyy, rfl⟩

/-! ### `validate_rotate_operation` (validators.py) -/

/-- `angle % 360`, then `if angle > 180: angle -= 360` — integer case
(Python `%` on a positive modulus agrees with the euclidean `%`). -/
def rotNormZ (n : ℤ) : ℤ :=
  if n % 360 > 180 then n % 360 - 360 else n % 360

/-- The float case of the same normalization (`%` is floor-based in Python). -/
def rotNormQ (q : ℚ) : ℚ :=
  if q - 360 * (⌊q / 360⌋ : ℤ) > 180 then q - 360 * (⌊q / 360⌋ : ℤ) - 360
  else q - 360 * (⌊q / 360⌋ : ℤ)

/-- The `angle` field of `validate_rotate_operation`. -/
def rotAngle : Val → Except String Val
  | vBool b => .ok (vInt (rotNormZ (if b then 1 else 0)))
  | vInt n => .ok (vInt (rotNormZ n))
  | vRat q => .ok (vRat (rotNormQ q))
  | _ => .error "Angle must be a number"

/-- `validate_rotate_operation` from validators.py. -/
def validate_rotate_operation (op : Dict) : Except String Dict :=
  (match dget op "angle" with
   | none => .ok none
   | some v => (rotAngle v).map some) >>= fun a =>
  .ok (("type", vStr "rotate") :: dmk [("angle", a)])

theorem rotNormZ_fix (n : ℤ) : rotNormZ (rotNormZ n) = rotNormZ n := by
  unfold rotNormZ
  split <;> split <;> omega

theorem rotNormQ_mem (q : ℚ) : -180 < rotNormQ q ∧ rotNormQ q ≤ 180 := by
  unfold rotNormQ
  have h0 : 0 ≤ q - 360 * (⌊q / 360⌋ : ℤ) := by
    have := Int.fract_nonneg (q / 360)
    have hq : q - 360 * (⌊q / 360⌋ : ℤ) = 360 * Int.fract (q / 360) := by
      rw [Int.fract]
      ring
    rw [hq]
    positivity
  have h1 : q - 360 * (⌊q / 360⌋ : ℤ) < 360 := by
    have := Int.fract_lt_one (q / 360)
    have hq : q - 360 * (⌊q / 360⌋ : ℤ) = 360 * Int.fract (q / 360) := by
      rw [Int.fract]
      ring
    rw [hq]
    linarith
  split
  · constructor <;> linarith
  · rename_i hle
    push_neg at hle
    constructor <;> linarith

theorem rotNormQ_fix (q : ℚ) : rotNormQ (rotNormQ q) = rotNormQ q := by
  obtain ⟨hlo, hhi⟩ := rotNormQ_mem q
  set r := rotNormQ q with hr
  by_cases h : 0 ≤ r
  · have hfl : ⌊r / 360⌋ = 0 := by
      rw [Int.floor_eq_zero_iff]
      constructor
      · positivity
      · rw [div_lt_one (by norm_num)]
        linarith
    unfold rotNormQ
    rw [hfl]
    push_cast
    rw [if_neg (by push_neg; linarith)]
    ring
  · push_neg at h
    have hfl : ⌊r / 360⌋ = -1 := by
      rw [Int.floor_eq_iff]
      constructor
      · push_cast
        rw [le_div_iff₀ (by norm_num : (0:ℚ) < 360)]
        linarith
      · push_cast
        rw [div_lt_iff₀ (by norm_num : (0:ℚ) < 360)]
        linarith
    unfold rotNormQ
    rw [hfl]
    push_cast
    rw [if_pos (by linarith)]
    ring

theorem rotAngle_fix {v w : Val} (h : rotAngle v = .ok w) : rotAngle w = .ok w := by
  unfold rotAngle at h
  split at h <;> try cases h
  · simp [rotAngle, rotNormZ_fix]
  · simp [rotAngle, rotNormZ_fix]
  · simp [rotAngle, rotNormQ_fix]

theorem validate_rotate_fix {op w : Dict}
    (h : validate_rotate_operation op = .ok w) :
    validate_rotate_operation w = .ok w := by
  unfold validate_rotate_operation at h
  obtain ⟨a, ha, h⟩ := ebind_ok.mp h
  cases h
  unfold validate_rotate_operation
  rw [show dget (("type", vStr "rotate") :: dmk [("angle", a)]) "angle" = a by
    rw [dget_cons, if_neg (by decide)]
    exact dget_dmk_at ([]) _ (by simp) (by simp)]
  rw [ebind_ok]
  refine ⟨a, ?_, rfl⟩
  split at ha
  · cases ha; rfl
  · obtain ⟨av, hav, hsome⟩ := emap_ok.mp ha
    cases hsome
    simp only
    rw [emap_ok]
    exact ⟨av, rotAngle_fix hav, rfl⟩

/-! ### `validate_flip_operation` (validators.py) -/

/-- `validate_flip_operation` from validators.py. -/
def validate_flip_operation (op : Dict) : Except String Dict :=
  if ¬ memStr ((dget op "direction").getD (vStr "horizontal"))
      ["horizontal", "vertical", "both"] then
    .error "Invalid flip direction"
  else
    .ok (("type", vStr "flip") :: dmk
      [("direction", some ((dget op "direction").getD (vStr "horizontal")))])

theorem validate_flip_fix {op w : Dict}
    (h : validate_flip_operation op = .ok w) :
    validate_flip_operation w = .ok w := by
  unfold validate_flip_operation at h
  split at h
  · cases h
  · rename_i hmem
    cases h
    unfold validate_flip_operation
    rw [show dget (("type", vStr "flip") :: dmk
        [("direction", some ((dget op "direction").getD (vStr "horizontal")))]) "direction"
        = some ((dget op "direction").getD (vStr "horizontal")) by
      rw [dget_cons, if_neg (by decide)]
      exact dget_dmk_at ([]) _ (by simp) (by simp)]
    simp only [Option.getD_some]
    rw [if_neg hmem]

/-! ### `validate_audio_operation` (validators.py) -/

/-- Does the reversed character list end the `dB` volume pattern
`^-?\d+(\.\d+)?dB$` (checked on the part before the `dB` suffix)? -/
def dbNumOk (t : String) : Bool :=
  let u := if t.startsWith "-" then t.drop 1 else t
  match u.splitOn "." with
  | [d] => isDigitStr d
  | [d, f] => isDigitStr d && isDigitStr f
  | _ => false

/-- The `dB` volume string regex `^-?\d+(\.\d+)?dB$`. -/
def dbRegexOk (s : String) : Bool :=
  match s.data.reverse with
  | 'B' :: 'd' :: rest => dbNumOk (String.mk rest.reverse)
  | _ => false

/-- The `volume` field of `validate_audio_operation`: numbers must lie in
[0, 10] and are copied; strings must match the dB pattern; any other type is
silently ignored (the source has no `else` branch). -/
def audioVolume : Option Val → Except String (Option Val)
  | none => .ok none
  | some v =>
      match asNum v with
      | some q =>
          if q < 0 ∨ q > 10 then .error "Volume must be between 0 and 10"
          else .ok (some v)
      | none =>
          match v with
          | vStr s =>
              if dbRegexOk s then .ok (some (vStr s))
              else .error "Volume string must be in dB format"
          | _ => .ok none

/-- The `normalize` / `normalize_type` block of `validate_audio_operation`. -/
def audioNormalize (nrm nt : Option Val) : Except String (Option Val × Option Val) :=
  match nrm with
  | none => .ok (none, none)
  | some v =>
      match nt with
      | none => .ok (some (vBool (truthy v)), none)
      | some tv =>
          if memStr tv ["loudnorm", "dynaudnorm"] then
            .ok (some (vBool (truthy v)), some tv)
          else .error "Invalid normalize type"

/-- A membership-checked copied field (`sample_rate`, `channels`). -/
def audioMemField (x : Option Val) (l : List ℚ) (msg : String) :
    Except String (Option Val) :=
  match x with
  | none => .ok none
  | some v => if memNum v l then .ok (some v) else .error msg

/-- `validate_audio_operation` from validators.py. -/
def validate_audio_operation (op : Dict) : Except String Dict :=
  audioVolume (dget op "volume") >>= fun vol =>
  audioNormalize (dget op "normalize") (dget op "normalize_type") >>= fun nn =>
  audioMemField (dget op "sample_rate")
    [8000, 11025, 16000, 22050, 32000, 44100, 48000, 96000]
    "Invalid sample rate" >>= fun sr =>
  audioMemField (dget op "channels") [1, 2, 6, 8]
    "Channels must be 1, 2, 6, or 8" >>= fun ch =>
  .ok (("type", vStr "audio") :: dmk
    [("volume", vol), ("normalize", nn.1), ("normalize_type", nn.2),
     ("sample_rate", sr), ("channels", ch)])

theorem audioVolume_fix {x o : Option Val} (h : audioVolume x = .ok o) :
    audioVolume o = .ok o := by
  unfold audioVolume at h
  split at h
  · cases h; rfl
  · rename_i v
    split at h
    · rename_i q hq
      split at h
      · cases h
      · rename_i hr
        cases h
        simp only [audioVolume, hq]
        rw [if_neg hr]
    · split at h
      · rename_i s
        split at h
        · rename_i hdb
          cases h
          simp only [audioVolume, asNum]
          rw [if_pos hdb]
        · cases h
      · cases h; rfl

theorem audioNormalize_fix {nrm nt : Option Val} {p : Option Val × Option Val}
    (h : audioNormalize nrm nt = .ok p) : audioNormalize p.1 p.2 = .ok p := by
  unfold audioNormalize at h
  split at h
  · cases h; rfl
  · rename_i v
    split at h
    · cases h
      simp [audioNormalize, truthy]
    · rename_i tv
      split at h
      · rename_i hmem
        cases h
        simp only [audioNormalize, truthy]
        rw [if_pos hmem]
      · cases h

theorem audioMemField_fix {x o : Option Val} {l : List ℚ} {msg : String}
    (h : audioMemField x l msg = .ok o) : audioMemField o l msg = .ok o := by
  unfold audioMemField at h
  split at h
  · cases h; rfl
  · split at h
    · rename_i hmem
      cases h
      simp only [audioMemField]
      rw [if_pos hmem]
    · cases h

theorem validate_audio_fix {op w : Dict}
    (h : validate_audio_operation op = .ok w) :
    validate_audio_operation w = .ok w := by
  unfold validate_audio_operation at h
  obtain ⟨vol, hvol, h⟩ := ebind_ok.mp h
  obtain ⟨nn, hnn, h⟩ := ebind_ok.mp h
  obtain ⟨sr, hsr, h⟩ := ebind_ok.mp h
  obtain ⟨ch, hch, h⟩ := ebind_ok.mp h
  cases h
  unfold validate_audio_operation
  rw [show dget (("type", vStr "audio") :: dmk
      [("volume", vol), ("normalize", nn.1), ("normalize_type", nn.2),
       ("sample_rate", sr), ("channels", ch)]) "volume" = vol by
    rw [dget_cons, if_neg (by decide)]
    exact dget_dmk_at ([]) _ (by simp) (by simp)]
  rw [show dget (("type", vStr "audio") :: dmk
      [("volume", vol), ("normalize", nn.1), ("normalize_type", nn.2),
       ("sample_rate", sr), ("channels", ch)]) "normalize" = nn.1 by
    rw [dget_cons, if_neg (by decide)]
    exact dget_dmk_at ([("volume", vol)]) _ (by simp) (by simp)]
  rw [show dget (("type", vStr "audio") :: dmk
      [("volume", vol), ("normalize", nn.1), ("normalize_type", nn.2),
       ("sample_rate", sr), ("channels", ch)]) "normalize_type" = nn.2 by
    rw [dget_cons, if_neg (by decide)]
    exact dget_dmk_at ([("volume", vol), ("normalize", nn.1)]) _ (by simp) (by simp)]
  rw [show dget (("type", vStr "audio") :: dmk
      [("volume", vol), ("normalize", nn.1), ("normalize_type", nn.2),
       ("sample_rate", sr), ("channels", ch)]) "sample_rate" = sr by
    rw [dget_cons, if_neg (by decide)]
    exact dget_dmk_at ([("volume", vol), ("normalize", nn.1),
      ("normalize_type", nn.2)]) _ (by simp) (by simp)]
  rw [show dget (("type", vStr "audio") :: dmk
      [("volume", vol), ("normalize", nn.1), ("normalize_type", nn.2),
       ("sample_rate", sr), ("channels", ch)]) "channels" = ch by
    rw [dget_cons, if_neg (by decide)]
    exact dget_dmk_at ([("volume", vol), ("normalize", nn.1),
      ("normalize_type", nn.2), ("sample_rate", sr)]) _ (by simp) (by simp)]
  rw [ebind_ok]
  refine ⟨vol, audioVolume_fix hvol, ?_⟩
  rw [ebind_ok]
  refine ⟨nn, audioNormalize_fix hnn, ?_⟩
  rw [ebind_ok]
  refine ⟨sr, audioMemField_fix hsr, ?_⟩
  rw [ebind_ok]
  exact ⟨ch, audioMemField_fix hch, rfl⟩

/-! ### `validate_subtitle_operation` (validators.py) -/

/-- `Path(p).suffix`: the extension of the basename including the leading
dot; empty when there is no dot or the basename starts with its only dot. -/
def pathSuffix (p : String) : String :=
  let base := (p.splitOn "/").getLastD ""
  let cs := base.data
  let revTail := cs.reverse.takeWhile (fun c => c ≠ '.')
  if revTail.length = cs.length then ""
  else if cs.length = revTail.length + 1 then ""
  else "." ++ String.mk revTail.reverse

/-- `validate_subtitle_operation` from validators.py (Python's `Path(...)`
raises on non-string input). -/
def validate_subtitle_operation (op : Dict) : Except String Dict :=
  match dget op "path" with
  | none => .error "Subtitle operation requires path field"
  | some pv =>
      match pv with
      | vStr p =>
          if (strLower (pathSuffix p)) ∈ [".srt", ".ass", ".ssa", ".vtt", ".sub"] then
            .ok (("type", vStr "subtitle") :: dmk
              [("path", some (vStr p)), ("style", dget op "style")])
          else .error "Invalid subtitle format"
      | _ => .error "argument should be a str or an os.PathLike object"

theorem validate_subtitle_fix {op w : Dict}
    (h : validate_subtitle_operation op = .ok w) :
    validate_subtitle_operation w = .ok w := by
  unfold validate_subtitle_operation at h
  split at h
  · cases h
  · rename_i pv hpv
    split at h
    · rename_i p
      split at h
      · rename_i hext
        cases h
        unfold validate_subtitle_operation
        rw [show dget (("type", vStr "subtitle") :: dmk
            [("path", some (vStr p)), ("style", dget op "style")]) "path" = some (vStr p) by
          rw [dget_cons, if_neg (by decide)]
          exact dget_dmk_at ([]) _ (by simp) (by simp)]
        rw [show dget (("type", vStr "subtitle") :: dmk
            [("path", some (vStr p)), ("style", dget op "style")]) "style"
            = dget op "style" by
          rw [dget_cons, if_neg (by decide)]
          exact dget_dmk_at ([("path", some (vStr p))]) _ (by simp) (by simp)]
        simp only
        rw [if_pos hext]
      · cases h
    · cases h

/-! ### `validate_thumbnail_operation` (validators.py) -/

/-- The `time` field of `validate_thumbnail_operation`. -/
def thumbTime : Option Val → Except String (Option Val)
  | none => .ok none
  | some v =>
      match asNum v with
      | some q =>
          if q < 0 ∨ q > 86400 then .error "Time out of valid range (0-86400 seconds)"
          else .ok (some (vRat q))
      | none =>
          match v with
          | vStr s => (parse_time_string s).map (fun q => some (vRat q))
          | _ => .error "Time must be a number or time string"

/-- Integer value of a strict-`int` Python value (bools count as 0/1). -/
def intOfB : Val → ℤ
  | vBool b => if b then 1 else 0
  | vInt n => n
  | _ => 0

/-- A strict-int bounded field that is copied unchanged
(`count`, `width`, `height`, `quality`, `cols`, `rows`, `sample_frames`). -/
def chkIntCopy (x : Option Val) (lo hi : ℤ) (msg : String) : Except String (Option Val) :=
  match x with
  | none => .ok none
  | some v =>
      if ¬ isIntV v then .error msg
      else if intOfB v < lo ∨ intOfB v > hi then .error msg
      else .ok (some v)

/-- The `interval` field of `validate_thumbnail_operation`. -/
def thumbInterval : Option Val → Except String (Option Val)
  | none => .ok none
  | some v =>
      match asNum v with
      | some q =>
          if q ≤ 0 then .error "Interval must be a positive number"
          else .ok (some (vRat q))
      | none => .error "Interval must be a positive number"

/-- `int(op[k])` on an optional field (`tile_width` / `tile_height`). -/
def optPyInt : Option Val → Except String (Option Val)
  | none => .ok none
  | some v => (pyInt v).map (fun n => some (vInt n))

/-- `validate_thumbnail_operation` from validators.py. -/
def validate_thumbnail_operation (op : Dict) : Except String Dict :=
  if ¬ memStr ((dget op "mode").getD (vStr "single"))
      ["single", "multiple", "best", "sprite"] then
    .error "Invalid thumbnail mode"
  else
    thumbTime (dget op "time") >>= fun tm =>
    chkIntCopy (dget op "count") 1 1000 "Count must be an integer between 1 and 1000" >>= fun cnt =>
    thumbInterval (dget op "interval") >>= fun itv =>
    chkIntCopy (dget op "width") 16 7680 "Width must be an integer between 16 and 7680" >>= fun wd =>
    chkIntCopy (dget op "height") 16 4320 "Height must be an integer between 16 and 4320" >>= fun ht =>
    chkIntCopy (dget op "quality") 2 31 "Quality must be an integer between 2 and 31" >>= fun ql =>
    (if strEq ((dget op "mode").getD (vStr "single")) "sprite" then
       chkIntCopy (dget op "cols") 1 20 "Cols must be an integer between 1 and 20" >>= fun cols =>
       chkIntCopy (dget op "rows") 1 20 "Rows must be an integer between 1 and 20" >>= fun rows =>
       optPyInt (dget op "tile_width") >>= fun tw =>
       optPyInt (dget op "tile_height") >>= fun th =>
       .ok (cols, rows, tw, th)
     else .ok (none, none, none, none)) >>= fun sp =>
    (if strEq ((dget op "mode").getD (vStr "single")) "best" then
       chkIntCopy (dget op "sample_frames") 10 1000
         "Sample frames must be an integer between 10 and 1000"
     else .ok none) >>= fun sf =>
    .ok (("type", vStr "thumbnail") :: dmk
      [("mode", some ((dget op "mode").getD (vStr "single"))), ("time", tm), ("count", cnt),
       ("interval", itv), ("width", wd), ("height", ht), ("quality", ql),
       ("cols", sp.1), ("rows", sp.2.1), ("tile_width", sp.2.2.1), ("tile_height", sp.2.2.2),
       ("sample_frames", sf)])

theorem thumbTime_fix {x o : Option Val} (h : thumbTime x = .ok o) :
    thumbTime o = .ok o := by
  unfold thumbTime at h
  split at h
  · cases h; rfl
  · split at h
    · rename_i q hq
      split at h
      · cases h
      · rename_i hb
        cases h
        simp only [thumbTime, asNum]
        rw [if_neg hb]
    · split at h
      · obtain ⟨q, hq, hval⟩ := emap_ok.mp h
        cases hval
        obtain ⟨h1, h2⟩ := parse_time_string_bounds hq
        simp only [thumbTime, asNum]
        rw [if_neg (by push_neg; exact ⟨h1, h2⟩)]
      · cases h

theorem chkIntCopy_fix {x o : Option Val} {lo hi : ℤ} {msg : String}
    (h : chkIntCopy x lo hi msg = .ok o) : chkIntCopy o lo hi msg = .ok o := by
  unfold chkIntCopy at h
  split at h
  · cases h; rfl
  · split at h
    · cases h
    · split at h
      · cases h
      · rename_i hint hrange
        cases h
        simp only [chkIntCopy]
        rw [if_neg hint, if_neg hrange]

theorem thumbInterval_fix {x o : Option Val} (h : thumbInterval x = .ok o) :
    thumbInterval o = .ok o := by
  unfold thumbInterval at h
  split at h
  · cases h; rfl
  · split at h
    · rename_i q hq
      split at h
      · cases h
      · rename_i hb
        cases h
        simp only [thumbInterval, asNum]
        rw [if_neg hb]
    · cases h

theorem optPyInt_fix {x o : Option Val} (h : optPyInt x = .ok o) :
    optPyInt o = .ok o := by
  unfold optPyInt at h
  split at h
  · cases h; rfl
  · obtain ⟨n, hn, hval⟩ := emap_ok.mp h
    cases hval
    rfl

theorem validate_thumbnail_fix {op w : Dict}
    (h : validate_thumbnail_operation op = .ok w) :
    validate_thumbnail_operation w = .ok w := by
  unfold validate_thumbnail_operation at h
  split at h
  · cases h
  · rename_i hmode
    obtain ⟨tm, htm, h⟩ := ebind_ok.mp h
    obtain ⟨cnt, hcnt, h⟩ := ebind_ok.mp h
    obtain ⟨itv, hitv, h⟩ := ebind_ok.mp h
    obtain ⟨wd, hwd, h⟩ := ebind_ok.mp h
    obtain ⟨ht, hht, h⟩ := ebind_ok.mp h
    obtain ⟨ql, hql, h⟩ := ebind_ok.mp h
    obtain ⟨sp, hsp, h⟩ := ebind_ok.mp h
    obtain ⟨sf, hsf, h⟩ := ebind_ok.mp h
    cases h
    have hm : dget (("type", vStr "thumbnail") :: dmk
        [("mode", some ((dget op "mode").getD (vStr "single"))), ("time", tm), ("count", cnt),
         ("interval", itv), ("width", wd), ("height", ht), ("quality", ql),
         ("cols", sp.1), ("rows", sp.2.1), ("tile_width", sp.2.2.1), ("tile_height", sp.2.2.2),
         ("sample_frames", sf)]) "mode" = some ((dget op "mode").getD (vStr "single")) := by
      rw [dget_cons, if_neg (by decide)]
      exact dget_dmk_at ([]) _ (by simp) (by simp)
    unfold validate_thumbnail_operation
    rw [hm]
    simp only [Option.getD_some]
    rw [if_neg hmode]
    rw [show dget (("type", vStr "thumbnail") :: dmk
        [("mode", some ((dget op "mode").getD (vStr "single"))), ("time", tm), ("count", cnt),
         ("interval", itv), ("width", wd), ("height", ht), ("quality", ql),
         ("cols", sp.1), ("rows", sp.2.1), ("tile_width", sp.2.2.1), ("tile_height", sp.2.2.2),
         ("sample_frames", sf)]) "time" = tm by
      rw [dget_cons, if_neg (by decide)]
      exact dget_dmk_at ([("mode", some ((dget op "mode").getD (vStr "single")))]) _
        (by simp) (by simp)]
    rw [show dget (("type", vStr "thumbnail") :: dmk
        [("mode", some ((dget op "mode").getD (vStr "single"))), ("time", tm), ("count", cnt),
         ("interval", itv), ("width", wd), ("height", ht), ("quality", ql),
         ("cols", sp.1), ("rows", sp.2.1), ("tile_width", sp.2.2.1), ("tile_height", sp.2.2.2),
         ("sample_frames", sf)]) "count" = cnt by
      rw [dget_cons, if_neg (by decide)]
      exact dget_dmk_at ([("mode", some ((dget op "mode").getD (vStr "single"))),
        ("time", tm)]) _ (by simp) (by simp)]
    rw [show dget (("type", vStr "thumbnail") :: dmk
        [("mode", some ((dget op "mode").getD (vStr "single"))), ("time", tm), ("count", cnt),
         ("interval", itv), ("width", wd), ("height", ht), ("quality", ql),
         ("cols", sp.1), ("rows", sp.2.1), ("tile_width", sp.2.2.1), ("tile_height", sp.2.2.2),
         ("sample_frames", sf)]) "interval" = itv by
      rw [dget_cons, if_neg (by decide)]
      exact dget_dmk_at ([("mode", some ((dget op "mode").getD (vStr "single"))),
        ("time", tm), ("count", cnt)]) _ (by simp) (by simp)]
    rw [show dget (("type", vStr "thumbnail") :: dmk
        [("mode", some ((dget op "mode").getD (vStr "single"))), ("time", tm), ("count", cnt),
         ("interval", itv), ("width", wd), ("height", ht), ("quality", ql),
         ("cols", sp.1), ("rows", sp.2.1), ("tile_width", sp.2.2.1), ("tile_height", sp.2.2.2),
         ("sample_frames", sf)]) "width" = wd by
      rw [dget_cons, if_neg (by decide)]
      exact dget_dmk_at ([("mode", some ((dget op "mode").getD (vStr "single"))),
        ("time", tm), ("count", cnt), ("interval", itv)]) _ (by simp) (by simp)]
    rw [show dget (("type", vStr "thumbnail") :: dmk
        [("mode", some ((dget op "mode").getD (vStr "single"))), ("time", tm), ("count", cnt),
         ("interval", itv), ("width", wd), ("height", ht), ("quality", ql),
         ("cols", sp.1), ("rows", sp.2.1), ("tile_width", sp.2.2.1), ("tile_height", sp.2.2.2),
         ("sample_frames", sf)]) "height" = ht by
      rw [dget_cons, if_neg (by decide)]
      exact dget_dmk_at ([("mode", some ((dget op "mode").getD (vStr "single"))),
        ("time", tm), ("count", cnt), ("interval", itv), ("width", wd)]) _ (by simp) (by simp)]
    rw [show dget (("type", vStr "thumbnail") :: dmk
        [("mode", some ((dget op "mode").getD (vStr "single"))), ("time", tm), ("count", cnt),
         ("interval", itv), ("width", wd), ("height", ht), ("quality", ql),
         ("cols", sp.1), ("rows", sp.2.1), ("tile_width", sp.2.2.1), ("tile_height", sp.2.2.2),
         ("sample_frames", sf)]) "quality" = ql by
      rw [dget_cons, if_neg (by decide)]
      exact dget_dmk_at ([("mode", some ((dget op "mode").getD (vStr "single"))),
        ("time", tm), ("count", cnt), ("interval", itv), ("width", wd), ("height", ht)]) _
        (by simp) (by simp)]
    rw [show dget (("type", vStr "thumbnail") :: dmk
        [("mode", some ((dget op "mode").getD (vStr "single"))), ("time", tm), ("count", cnt),
         ("interval", itv), ("width", wd), ("height", ht), ("quality", ql),
         ("cols", sp.1), ("rows", sp.2.1), ("tile_width", sp.2.2.1), ("tile_height", sp.2.2.2),
         ("sample_frames", sf)]) "cols" = sp.1 by
      rw [dget_cons, if_neg (by decide)]
      exact dget_dmk_at ([("mode", some ((dget op "mode").getD (vStr "single"))),
        ("time", tm), ("count", cnt), ("interval", itv), ("width", wd), ("height", ht),
        ("quality", ql)]) _ (by simp) (by simp)]
    rw [show dget (("type", vStr "thumbnail") :: dmk
        [("mode", some ((dget op "mode").getD (vStr "single"))), ("time", tm), ("count", cnt),
         ("interval", itv), ("width", wd), ("height", ht), ("quality", ql),
         ("cols", sp.1), ("rows", sp.2.1), ("tile_width", sp.2.2.1), ("tile_height", sp.2.2.2),
         ("sample_frames", sf)]) "rows" = sp.2.1 by
      rw [dget_cons, if_neg (by decide)]
      exact dget_dmk_at ([("mode", some ((dget op "mode").getD (vStr "single"))),
        ("time", tm), ("count", cnt), ("interval", itv), ("width", wd), ("height", ht),
        ("quality", ql), ("cols", sp.1)]) _ (by simp) (by simp)]
    rw [show dget (("type", vStr "thumbnail") :: dmk
        [("mode", some ((dget op "mode").getD (vStr "single"))), ("time", tm), ("count", cnt),
         ("interval", itv), ("width", wd), ("height", ht), ("quality", ql),
         ("cols", sp.1), ("rows", sp.2.1), ("tile_width", sp.2.2.1), ("tile_height", sp.2.2.2),
         ("sample_frames", sf)]) "tile_width" = sp.2.2.1 by
      rw [dget_cons, if_neg (by decide)]
      exact dget_dmk_at ([("mode", some ((dget op "mode").getD (vStr "single"))),
        ("time", tm), ("count", cnt), ("interval", itv), ("width", wd), ("height", ht),
        ("quality", ql), ("cols", sp.1), ("rows", sp.2.1)]) _ (by simp) (by simp)]
    rw [show dget (("type", vStr "thumbnail") :: dmk
        [("mode", some ((dget op "mode").getD (vStr "single"))), ("time", tm), ("count", cnt),
         ("interval", itv), ("width", wd), ("height", ht), ("quality", ql),
         ("cols", sp.1), ("rows", sp.2.1), ("tile_width", sp.2.2.1), ("tile_height", sp.2.2.2),
         ("sample_frames", sf)]) "tile_height" = sp.2.2.2 by
      rw [dget_cons, if_neg (by decide)]
      exact dget_dmk_at ([("mode", some ((dget op "mode").getD (vStr "single"))),
        ("time", tm), ("count", cnt), ("interval", itv), ("width", wd), ("height", ht),
        ("quality", ql), ("cols", sp.1), ("rows", sp.2.1), ("tile_width", sp.2.2.1)]) _
        (by simp) (by simp)]
    rw [show dget (("type", vStr "thumbnail") :: dmk
        [("mode", some ((dget op "mode").getD (vStr "single"))), ("time", tm), ("count", cnt),
         ("interval", itv), ("width", wd), ("height", ht), ("quality", ql),
         ("cols", sp.1), ("rows", sp.2.1), ("tile_width", sp.2.2.1), ("tile_height", sp.2.2.2),
         ("sample_frames", sf)]) "sample_frames" = sf by
      rw [dget_cons, if_neg (by decide)]
      exact dget_dmk_at ([("mode", some ((dget op "mode").getD (vStr "single"))),
        ("time", tm), ("count", cnt), ("interval", itv), ("width", wd), ("height", ht),
        ("quality", ql), ("cols", sp.1), ("rows", sp.2.1), ("tile_width", sp.2.2.1),
        ("tile_height", sp.2.2.2)]) _ (by simp) (by simp)]
    rw [ebind_ok]
    refine ⟨tm, thumbTime_fix htm, ?_⟩
    rw [ebind_ok]
    refine ⟨cnt, chkIntCopy_fix hcnt, ?_⟩
    rw [ebind_ok]
    refine ⟨itv, thumbInterval_fix hitv, ?_⟩
    rw [ebind_ok]
    refine ⟨wd, chkIntCopy_fix hwd, ?_⟩
    rw [ebind_ok]
    refine ⟨ht, chkIntCopy_fix hht, ?_⟩
    rw [ebind_ok]
    refine ⟨ql, chkIntCopy_fix hql, ?_⟩
    rw [ebind_ok]
    refine ⟨sp, ?_, ?_⟩
    · split at hsp
      · rename_i hspr
        obtain ⟨cols, hcols, hsp⟩ := ebind_ok.mp hsp
        obtain ⟨rows, hrows, hsp⟩ := ebind_ok.mp hsp
        obtain ⟨tw, htw, hsp⟩ := ebind_ok.mp hsp
        obtain ⟨th, hth, hsp⟩ := ebind_ok.mp hsp
        cases hsp
        rw [if_pos hspr]
        rw [ebind_ok]
        refine ⟨cols, chkIntCopy_fix hcols, ?_⟩
        rw [ebind_ok]
        refine ⟨rows, chkIntCopy_fix hrows, ?_⟩
        rw [ebind_ok]
        refine ⟨tw, optPyInt_fix htw, ?_⟩
        rw [ebind_ok]
        exact ⟨th, optPyInt_fix hth, rfl⟩
      · rename_i hspr
        cases hsp
        rw [if_neg hspr]
    · rw [ebind_ok]
      refine ⟨sf, ?_, rfl⟩
      split at hsf
      · rename_i hbest
        rw [if_pos hbest]
        exact chkIntCopy_fix hsf
      · rename_i hbest
        cases hsf
        rw [if_neg hbest]

/-! ### `validate_concat_operation` (validators.py) -/

/-- `validate_concat_operation` from validators.py. -/
def validate_concat_operation (op : Dict) : Except String Dict :=
  match dget op "inputs" with
  | none => .error "Concat operation requires inputs field with list of files"
  | some iv =>
      match iv with
      | vList l =>
          if l.length < 2 then .error "Concat requires at least 2 input files"
          else if l.length > 100 then .error "Too many inputs for concat (max 100)"
          else if ¬ memStr ((dget op "mode").getD (vStr "demuxer")) ["demuxer", "filter"] then
            .error "Concat mode must be demuxer or filter"
          else .ok (("type", vStr "concat") :: dmk
            [("inputs", some (vList l)),
             ("mode", some ((dget op "mode").getD (vStr "demuxer")))])
      | _ => .error "Concat requires at least 2 input files"

theorem validate_concat_fix {op w : Dict}
    (h : validate_concat_operation op = .ok w) :
    validate_concat_operation w = .ok w := by
  unfold validate_concat_operation at h
  split at h
  · cases h
  · rename_i iv hiv
    split at h
    · rename_i l
      split at h
      · cases h
      · split at h
        · cases h
        · split at h
          · cases h
          · rename_i h2 h100 hmode
            cases h
            unfold validate_concat_operation
            rw [show dget (("type", vStr "concat") :: dmk
                [("inputs", some (vList l)),
                 ("mode", some ((dget op "mode").getD (vStr "demuxer")))]) "inputs"
                = some (vList l) by
              rw [dget_cons, if_neg (by decide)]
              exact dget_dmk_at ([]) _ (by simp) (by simp)]
            rw [show dget (("type", vStr "concat") :: dmk
                [("inputs", some (vList l)),
                 ("mode", some ((dget op "mode").getD (vStr "demuxer")))]) "mode"
                = some ((dget op "mode").getD (vStr "demuxer")) by
              rw [dget_cons, if_neg (by decide)]
              exact dget_dmk_at ([("inputs", some (vList l))]) _ (by simp) (by simp)]
            simp only [Option.getD_some]
            rw [if_neg h2, if_neg h100, if_neg hmode]
    · cases h

/-! ### Decimal round-trip facts (needed for canonical bitrate strings) -/

theorem digitChar_isDigit {d : ℕ} (h : d < 10) : (Char.ofNat (48 + d)).isDigit = true := by
  interval_cases d <;> decide

theorem digitChar_toNat {d : ℕ} (h : d < 10) : (Char.ofNat (48 + d)).toNat = 48 + d := by
  interval_cases d <;> decide

theorem natDecAux_spec (fuel : ℕ) :
    ∀ n, n < 10 ^ (fuel + 1) →
      natDecAux (fuel + 1) n ≠ [] ∧
      (∀ c ∈ natDecAux (fuel + 1) n, c.isDigit = true) ∧
      (natDecAux (fuel + 1) n).foldl (fun a c => a * 10 + (c.toNat - 48)) 0 = n := by
  induction fuel with
  | zero =>
      intro n hn
      have h10 : n < 10 := by simpa using hn
      refine ⟨by simp [natDecAux, h10], ?_, ?_⟩
      · intro c hc
        simp [natDecAux, h10] at hc
        subst hc
        exact digitChar_isDigit h10
      · simp [natDecAux, h10, List.foldl, digitChar_toNat h10]
  | succ fuel ih =>
      intro n hn
      by_cases h10 : n < 10
      · refine ⟨by simp [natDecAux, h10], ?_, ?_⟩
        · intro c hc
          simp [natDecAux, h10] at hc
          subst hc
          exact digitChar_isDigit h10
        · simp [natDecAux, h10, List.foldl, digitChar_toNat h10]
      · have hdiv : n / 10 < 10 ^ (fuel + 1) := by
          rw [Nat.div_lt_iff_lt_mul (by norm_num : 0 < 10)]
          calc n < 10 ^ (fuel + 1 + 1) := hn
          _ = 10 ^ (fuel + 1) * 10 := by ring
        obtain ⟨hne, hdig, hval⟩ := ih (n / 10) hdiv
        have hmod : n % 10 < 10 := Nat.mod_lt n (by norm_num)
        refine ⟨?_, ?_, ?_⟩
        · simp [natDecAux, h10]
        · intro c hc
          simp only [natDecAux, if_neg h10, List.mem_append, List.mem_singleton] at hc
          rcases hc with hc | hc
          · exact hdig c hc
          · subst hc
            exact digitChar_isDigit hmod
        · have hrw : natDecAux (fuel + 1 + 1) n
              = natDecAux (fuel + 1) (n / 10) ++ [Char.ofNat (48 + n % 10)] := by
            conv_lhs => rw [natDecAux]
            rw [if_neg h10]
          rw [hrw, List.foldl_append, hval]
          simp only [List.foldl, digitChar_toNat hmod]
          omega

theorem natDec_roundtrip (n : ℕ) :
    isDigitStr (natDec n) = true ∧ natOfDigits (natDec n) = n := by
  have hlt : n < 10 ^ (n + 1) := by
    calc n < n + 1 := Nat.lt_succ_self n
    _ ≤ 10 ^ (n + 1) := Nat.le_of_lt (Nat.lt_pow_self (by norm_num) (n + 1))
  obtain ⟨hne, hdig, hval⟩ := natDecAux_spec n n hlt
  constructor
  · unfold isDigitStr natDec
    simp only [String.length, String.data]
    rw [Bool.and_eq_true]
    constructor
    · simp [List.length_pos, hne]
    · rw [List.all_eq_true]
      intro c hc
      exact hdig c hc
  · unfold natOfDigits natDec
    exact hval

theorem natDec_all_digits (n : ℕ) : (natDec n).data.all Char.isDigit = true := by
  rw [List.all_eq_true]
  intro c hc
  have h := (natDec_roundtrip n).1
  unfold isDigitStr at h
  rw [Bool.and_eq_true, List.all_eq_true] at h
  exact h.2 c hc

/-! ### `validate_bitrate` (validators.py) -/

/-- The bitrate regex `^\d+[kKmM]?$`: the digits value and the optional
suffix character. -/
def bitrateMatch (s : String) : Option (ℕ × Option Char) :=
  match s.data.reverse with
  | [] => none
  | c :: rest =>
      if c = 'k' ∨ c = 'K' ∨ c = 'm' ∨ c = 'M' then
        if rest ≠ [] ∧ rest.all Char.isDigit then
          some (natOfDigits (String.mk rest.reverse), some c)
        else none
      else
        if (c :: rest).all Char.isDigit then some (natOfDigits s, none) else none

/-- The suffix scaling of `validate_bitrate` (`k` = 1000, `m` = 1000000) with
its overflow guards. -/
def bitrateScaled (n : ℕ) (suf : Option Char) : Except String ℕ :=
  match suf with
  | some c =>
      if c = 'k' ∨ c = 'K' then
        if n > 2147483 then .error "Bitrate value causes overflow"
        else .ok (n * 1000)
      else
        if n > 2147 then .error "Bitrate value causes overflow"
        else .ok (n * 1000000)
  | none =>
      if n > 2147483647 then .error "Bitrate value causes overflow"
      else .ok n

/-- `validate_bitrate` from validators.py: strings are validated against the
regex, scaled, checked against 100 kbps..50 Mbps, and returned unchanged;
numbers are truncated to int, range-checked, and returned as their decimal
string. -/
def validate_bitrate (v : Val) : Except String Val :=
  match v with
  | vStr s =>
      match bitrateMatch s with
      | none => .error "Invalid bitrate format"
      | some (n, suf) =>
          bitrateScaled n suf >>= fun value =>
          if value < 100000 ∨ value > 50000000 then
            .error "Bitrate out of reasonable range (100k-50M)"
          else .ok (vStr s)
  | _ =>
      match asNum v with
      | some q =>
          if ratTrunc q < 100000 ∨ ratTrunc q > 50000000 then
            .error "Bitrate out of reasonable range (100000-50000000)"
          else .ok (vStr (intDec (ratTrunc q)))
      | none => .error "Bitrate must be string or number"

/-- The parsed bits-per-second value of a bitrate string. -/
def bitrateValue (n : ℕ) (suf : Option Char) : ℕ :=
  match suf with
  | some c => if c = 'k' ∨ c = 'K' then n * 1000 else n * 1000000
  | none => n

theorem bitrateScaled_ok {n : ℕ} {suf : Option Char} {value : ℕ}
    (h : bitrateScaled n suf = .ok value) : bitrateValue n suf = value := by
  cases suf with
  | none =>
      simp only [bitrateScaled] at h
      split at h
      · cases h
      · cases h
        rfl
  | some c =>
      simp only [bitrateScaled] at h
      split at h
      · rename_i hk
        split at h
        · cases h
        · cases h
          simp [bitrateValue, if_pos hk]
      · rename_i hk
        split at h
        · cases h
        · cases h
          simp [bitrateValue, if_neg hk]

theorem validate_bitrate_canon {v w : Val} (h : validate_bitrate v = .ok w) :
    (∃ s n suf, v = vStr s ∧ w = vStr s ∧ bitrateMatch s = some (n, suf) ∧
      100000 ≤ bitrateValue n suf ∧ bitrateValue n suf ≤ 50000000) ∨
    (∃ m : ℤ, 100000 ≤ m ∧ m ≤ 50000000 ∧ w = vStr (intDec m)) := by
  unfold validate_bitrate at h
  split at h
  · rename_i s
    split at h
    · cases h
    · rename_i n suf hm
      obtain ⟨value, hval, h⟩ := ebind_ok.mp h
      split at h
      · cases h
      · rename_i hrange
        cases h
        push_neg at hrange
        have hbv := bitrateScaled_ok hval
        exact Or.inl ⟨s, n, suf, rfl, rfl, hm,
          by rw [hbv]; exact hrange.1, by rw [hbv]; exact hrange.2⟩
  · split at h
    · rename_i q hq
      split at h
      · cases h
      · rename_i hrange
        cases h
        push_neg at hrange
        exact Or.inr ⟨ratTrunc q, hrange.1, hrange.2, rfl⟩
    · cases h

theorem isDigit_not_suffix {c : Char} (h : c.isDigit = true) :
    ¬ (c = 'k' ∨ c = 'K' ∨ c = 'm' ∨ c = 'M') := by
  intro hc
  rcases hc with rfl | rfl | rfl | rfl <;> simp [Char.isDigit] at h

/-- `bitrateMatch` on a pure digit string. -/
theorem bitrateMatch_digits {s : String} (hne : s.data ≠ [])
    (hdig : s.data.all Char.isDigit = true) :
    bitrateMatch s = some (natOfDigits s, none) := by
  unfold bitrateMatch
  rcases hrev : s.data.reverse with _ | ⟨c, rest⟩
  · exact absurd (by simpa using congrArg List.reverse hrev) hne
  · have hcmem : c ∈ s.data := by
      have : c ∈ s.data.reverse := by rw [hrev]; exact List.mem_cons_self _ _
      exact List.mem_reverse.mp this
    have hcdig : c.isDigit = true := by
      rw [List.all_eq_true] at hdig
      exact hdig c hcmem
    simp only [hrev]
    rw [if_neg (isDigit_not_suffix hcdig), if_pos]
    rw [List.all_eq_true]
    intro x hx
    rw [List.all_eq_true] at hdig
    refine hdig x ?_
    have : x ∈ s.data.reverse := by rw [hrev]; exact hx
    exact List.mem_reverse.mp this

theorem validate_bitrate_fix {v w : Val} (h : validate_bitrate v = .ok w) :
    validate_bitrate w = .ok w := by
  rcases validate_bitrate_canon h with ⟨s, n, suf, rfl, rfl, _, _, _⟩ | ⟨m, hlo, hhi, rfl⟩
  · exact h
  · have hm0 : (0 : ℤ) ≤ m := by linarith
    have habs : (m.natAbs : ℤ) = m := Int.natAbs_of_nonneg hm0
    have hid : intDec m = natDec m.natAbs := by
      unfold intDec
      rw [if_neg (by omega)]
    have hround := natDec_roundtrip m.natAbs
    have hne : (natDec m.natAbs).data ≠ [] := by
      have hd := hround.1
      unfold isDigitStr at hd
      rw [Bool.and_eq_true] at hd
      have hlen := hd.1
      simp only [decide_eq_true_eq] at hlen
      intro hc
      rw [String.length, hc] at hlen
      simp at hlen
    simp only [validate_bitrate, hid,
      bitrateMatch_digits hne (natDec_all_digits m.natAbs), hround.2]
    rw [ebind_ok]
    refine ⟨m.natAbs, ?_, ?_⟩
    · simp only [bitrateScaled]
      rw [if_neg (by omega)]
    · rw [if_neg (by push_neg; constructor <;> omega)]

/-! ### `validate_transcode_operation` (validators.py): field handlers -/

/-- `ALLOWED_VIDEO_CODECS` from `validate_transcode_operation`. -/
def allowedVideoCodecs : List String :=
  ["h264", "h265", "hevc", "vp8", "vp9", "av1",
   "libx264", "libx265", "libvpx", "libvpx-vp9", "libaom-av1", "libsvtav1",
   "prores", "prores_ks", "dnxhd", "dnxhr", "copy"]

/-- `ALLOWED_AUDIO_CODECS`. -/
def allowedAudioCodecs : List String :=
  ["aac", "mp3", "opus", "vorbis", "ac3", "eac3",
   "libfdk_aac", "libopus", "libvorbis", "libmp3lame",
   "flac", "pcm_s16le", "pcm_s24le", "pcm_s32le", "pcm_f32le", "copy"]

/-- `ALLOWED_PRESETS`. -/
def allowedPresets : List String :=
  ["ultrafast", "superfast", "veryfast", "faster", "fast", "medium",
   "slow", "slower", "veryslow", "placebo"]

/-- `ALLOWED_PROFILES`. -/
def allowedProfiles : List String :=
  ["baseline", "main", "high", "high10", "high422", "high444"]

/-- `ALLOWED_PIXEL_FORMATS` (validator variant). -/
def allowedPixelFormats : List String :=
  ["yuv420p", "yuv422p", "yuv444p", "yuv420p10le", "yuv422p10le", "yuv444p10le",
   "rgb24", "rgba", "nv12", "p010le"]

/-- `ALLOWED_HW_ACCEL`. -/
def allowedHwAccel : List String :=
  ["auto", "none", "nvenc", "qsv", "vaapi", "videotoolbox", "amf"]

/-- `ALLOWED_TUNES`. -/
def allowedTunes : List String :=
  ["film", "animation", "grain", "stillimage", "fastdecode", "zerolatency",
   "psnr", "ssim"]

/-- `ALLOWED_LEVELS`. -/
def allowedLevels : List String :=
  ["1", "1.1", "1.2", "1.3", "2", "2.1", "2.2", "3", "3.1", "3.2",
   "4", "4.1", "4.2", "5", "5.1", "5.2", "6", "6.1", "6.2"]

/-- An optional field that must be a string in a whitelist and is copied
(`video_codec`, `audio_codec`, `preset`, `profile`, `tune`). -/
def strMemField (x : Option Val) (allowed : List String) (msgT msgB : String) :
    Except String (Option Val) :=
  match x with
  | none => .ok none
  | some v =>
      if ¬ isStrV v then .error msgT
      else if memStr v allowed then .ok (some v) else .error msgB

/-- An aliased field read with `op.get(k1) or op.get(k2)` and checked by
whitelist membership (`pixel_format`/`pix_fmt`,
`hardware_acceleration`/`hw_accel`). -/
def aliasMemField (x1 x2 : Option Val) (allowed : List String) (msg : String) :
    Except String (Option Val) :=
  if x1.isSome ∨ x2.isSome then
    match pyOr x1 x2 with
    | some v => if memStr v allowed then .ok (some v) else .error msg
    | none => .error msg
  else .ok none

/-- An optional bitrate field validated by `validate_bitrate`. -/
def optBitrate : Option Val → Except String (Option Val)
  | none => .ok none
  | some v => (validate_bitrate v).map some

/-- `validate_resolution` from validators.py. -/
def validate_resolution (wid hgt : Option Val) : Except String (Option ℤ × Option ℤ) :=
  (match wid with
   | none => .ok none
   | some v =>
       match asNum v with
       | none => .error "Width must be a number"
       | some q =>
           if ratTrunc q < 32 ∨ ratTrunc q > 7680 then .error "Width out of valid range (32-7680)"
           else if ratTrunc q % 2 ≠ 0 then .error "Width must be even number"
           else .ok (some (ratTrunc q))) >>= fun w =>
  (match hgt with
   | none => .ok none
   | some v =>
       match asNum v with
       | none => .error "Height must be a number"
       | some q =>
           if ratTrunc q < 32 ∨ ratTrunc q > 4320 then .error "Height out of valid range (32-4320)"
           else if ratTrunc q % 2 ≠ 0 then .error "Height must be even number"
           else .ok (some (ratTrunc q))) >>= fun hh =>
  (match w, hh with
   | some wv, some hv =>
       if wv * hv > 7680 * 4320 then .error "Resolution exceeds maximum pixel count"
       else .ok (some wv, some hv)
   | _, _ => .ok (w, hh))

/-- A present dict value of `None` reads as Python `None` through `.get`. -/
def denone : Option Val → Option Val
  | some vNone => none
  | x => x

/-- The width/height block of `validate_transcode_operation`
(`if "width" in op or "height" in op: ... validate_resolution ...`). -/
def tcResolution (x1 x2 : Option Val) : Except String (Option Val × Option Val) :=
  if x1.isSome ∨ x2.isSome then
    (validate_resolution (denone x1) (denone x2)).map
      (fun p => (p.1.map vInt, p.2.map vInt))
  else .ok (none, none)

/-- The `fps` field. -/
def tcFps : Option Val → Except String (Option Val)
  | none => .ok none
  | some v =>
      match asNum v with
      | some q =>
          if q ≤ 0 ∨ q > 120 then .error "FPS out of valid range (1-120)"
          else .ok (some (vRat q))
      | none => .error "FPS must be a number"

/-- The `crf` field. -/
def tcCrf : Option Val → Except String (Option Val)
  | none => .ok none
  | some v =>
      match asNum v with
      | some q =>
          if q < 0 ∨ q > 51 then .error "CRF out of valid range (0-51)"
          else .ok (some (vInt (ratTrunc q)))
      | none => .error "CRF must be a number"

/-- An aliased strict-int bounded field (`gop_size`/`keyint`,
`b_frames`/`bframes`, `ref_frames`/`refs`). -/
def aliasIntRange (x1 x2 : Option Val) (lo hi : ℤ) (msgR msgT : String) :
    Except String (Option Val) :=
  if x1.isSome ∨ x2.isSome then
    match pyOr x1 x2 with
    | some v =>
        if isIntV v then
          if intOfB v < lo ∨ intOfB v > hi then .error msgR else .ok (some v)
        else .error msgT
    | none => .error msgT
  else .ok none

/-- The `two_pass` field (`bool(op["two_pass"])`). -/
def tcTwoPass : Option Val → Except String (Option Val)
  | none => .ok none
  | some v => .ok (some (vBool (truthy v)))

/-- The `level` field (`str(op["level"])`, whitelist-checked). -/
def tcLevel : Option Val → Except String (Option Val)
  | none => .ok none
  | some v =>
      if (pyStr v) ∈ allowedLevels then .ok (some (vStr (pyStr v)))
      else .error "Invalid level"

/-- The `encoder` field. -/
def tcEncoder : Option Val → Except String (Option Val)
  | none => .ok none
  | some v =>
      if memStr v ["default", "svt", "aom", "rav1e"] then .ok (some v)
      else .error "Invalid encoder"

/-- A direct strict-int bounded copied field (`rc_lookahead`, `sc_threshold`). -/
def intRangeCopy (x : Option Val) (lo hi : ℤ) (msgR msgT : String) :
    Except String (Option Val) :=
  match x with
  | none => .ok none
  | some v =>
      if isIntV v then
        if intOfB v < lo ∨ intOfB v > hi then .error msgR else .ok (some v)
      else .error msgT

theorem strMemField_fix {x o : Option Val} {l : List String} {m1 m2 : String}
    (h : strMemField x l m1 m2 = .ok o) : strMemField o l m1 m2 = .ok o := by
  unfold strMemField at h
  split at h
  · cases h; rfl
  · split at h
    · cases h
    · split at h
      · rename_i hstr hmem
        cases h
        simp only [strMemField]
        rw [if_neg hstr, if_pos hmem]
      · cases h

theorem memStr_shape {v : Val} {l : List String} (h : memStr v l = true) :
    ∃ s, v = vStr s ∧ s ∈ l := by
  unfold memStr at h
  split at h
  · rename_i s
    exact ⟨s, rfl, by simpa using h⟩
  · cases h

theorem aliasMemField_fix {x1 x2 o : Option Val} {l : List String} {msg : String}
    (hno : l.contains "" = false)
    (h : aliasMemField x1 x2 l msg = .ok o) : aliasMemField o none l msg = .ok o := by
  unfold aliasMemField at h
  split at h
  · split at h
    · split at h
      · rename_i v hv hmem
        cases h
        obtain ⟨s, rfl, hs⟩ := memStr_shape hmem
        have hse : s ≠ "" := by
          intro hc
          subst hc
          simp at hno
          exact hno hs
        unfold aliasMemField
        rw [if_pos (by simp)]
        have hpy : pyOr (some (vStr s)) none = some (vStr s) := by
          simp [pyOr, truthy, hse]
        rw [hpy]
        simp only
        rw [if_pos hmem]
      · cases h
    · cases h
  · cases h
    simp [aliasMemField]

theorem optBitrate_fix {x o : Option Val} (h : optBitrate x = .ok o) :
    optBitrate o = .ok o := by
  unfold optBitrate at h
  split at h
  · cases h; rfl
  · obtain ⟨wv, hwv, hval⟩ := emap_ok.mp h
    cases hval
    simp only [optBitrate]
    rw [emap_ok]
    exact ⟨wv, validate_bitrate_fix hwv, rfl⟩

theorem validate_resolution_canon {x1 x2 : Option Val} {p : Option ℤ × Option ℤ}
    (h : validate_resolution x1 x2 = .ok p) :
    (p.1 = none ∨ ∃ n, p.1 = some n ∧ 32 ≤ n ∧ n ≤ 7680 ∧ n % 2 = 0) ∧
    (p.2 = none ∨ ∃ n, p.2 = some n ∧ 32 ≤ n ∧ n ≤ 4320 ∧ n % 2 = 0) ∧
    (∀ wv hv, p.1 = some wv → p.2 = some hv → wv * hv ≤ 7680 * 4320) := by
  unfold validate_resolution at h
  obtain ⟨w, hw, h⟩ := ebind_ok.mp h
  obtain ⟨hh, hhh, h⟩ := ebind_ok.mp h
  have hwc : w = none ∨ ∃ n, w = some n ∧ 32 ≤ n ∧ n ≤ 7680 ∧ n % 2 = 0 := by
    split at hw
    · cases hw; exact Or.inl rfl
    · split at hw
      · cases hw
      · rename_i q hq
        split at hw
        · cases hw
        · split at hw
          · cases hw
          · rename_i hr he
            cases hw
            push_neg at hr
            exact Or.inr ⟨ratTrunc q, rfl, hr.1, hr.2, not_not.mp he⟩
  have hhc : hh = none ∨ ∃ n, hh = some n ∧ 32 ≤ n ∧ n ≤ 4320 ∧ n % 2 = 0 := by
    split at hhh
    · cases hhh; exact Or.inl rfl
    · split at hhh
      · cases hhh
      · rename_i q hq
        split at hhh
        · cases hhh
        · split at hhh
          · cases hhh
          · rename_i hr he
            cases hhh
            push_neg at hr
            exact Or.inr ⟨ratTrunc q, rfl, hr.1, hr.2, not_not.mp he⟩
  split at h
  · rename_i wv hv
    split at h
    · cases h
    · rename_i hpix
      cases h
      push_neg at hpix
      refine ⟨hwc, hhc, ?_⟩
      intro wv' hv' hw' hh'
      cases hw'
      cases hh'
      exact hpix
  · rename_i hnotboth
    cases h
    refine ⟨hwc, hhc, ?_⟩
    intro wv hv hw' hh'
    exact (hnotboth wv hv hw' hh').elim

theorem denone_map (o : Option ℤ) : denone (Option.map vInt o) = Option.map vInt o := by
  cases o <;> rfl

theorem validate_resolution_ints {w h : Option ℤ}
    (hwc : w = none ∨ ∃ n, w = some n ∧ 32 ≤ n ∧ n ≤ 7680 ∧ n % 2 = 0)
    (hhc : h = none ∨ ∃ n, h = some n ∧ 32 ≤ n ∧ n ≤ 4320 ∧ n % 2 = 0)
    (hpix : ∀ wv hv, w = some wv → h = some hv → wv * hv ≤ 7680 * 4320) :
    validate_resolution (w.map vInt) (h.map vInt) = .ok (w, h) := by
  have hws : (match (w.map vInt) with
     | none => Except.ok none
     | some v =>
         match asNum v with
         | none => Except.error "Width must be a number"
         | some q =>
             if ratTrunc q < 32 ∨ ratTrunc q > 7680 then Except.error "Width out of valid range (32-7680)"
             else if ratTrunc q % 2 ≠ 0 then Except.error "Width must be even number"
             else Except.ok (some (ratTrunc q))) = Except.ok w := by
    rcases hwc with rfl | ⟨n, rfl, h1, h2, h3⟩
    · rfl
    · simp only [show Option.map vInt (some n) = some (vInt n) from rfl, asNum,
        ratTrunc_intCast]
      rw [if_neg (by push_neg; exact ⟨h1, h2⟩), if_neg (by simpa using h3)]
  have hhs : (match (h.map vInt) with
     | none => Except.ok none
     | some v =>
         match asNum v with
         | none => Except.error "Height must be a number"
         | some q =>
             if ratTrunc q < 32 ∨ ratTrunc q > 4320 then Except.error "Height out of valid range (32-4320)"
             else if ratTrunc q % 2 ≠ 0 then Except.error "Height must be even number"
             else Except.ok (some (ratTrunc q))) = Except.ok h := by
    rcases hhc with rfl | ⟨n, rfl, h1, h2, h3⟩
    · rfl
    · simp only [show Option.map vInt (some n) = some (vInt n) from rfl, asNum,
        ratTrunc_intCast]
      rw [if_neg (by push_neg; exact ⟨h1, h2⟩), if_neg (by simpa using h3)]
  unfold validate_resolution
  rw [ebind_ok]
  refine ⟨w, hws, ?_⟩
  rw [ebind_ok]
  refine ⟨h, hhs, ?_⟩
  rcases hwc with rfl | ⟨n, rfl, _, _, _⟩
  · rcases hhc with rfl | ⟨m, rfl, _, _, _⟩ <;> rfl
  · rcases hhc with rfl | ⟨m, rfl, _, _, _⟩
    · rfl
    · simp only
      rw [if_neg (by push_neg; exact hpix n m rfl rfl)]

theorem tcResolution_fix {x1 x2 : Option Val} {p : Option Val × Option Val}
    (h : tcResolution x1 x2 = .ok p) : tcResolution p.1 p.2 = .ok p := by
  unfold tcResolution at h
  split at h
  · obtain ⟨q, hq, rfl⟩ := emap_ok.mp h
    obtain ⟨hwc, hhc, hpix⟩ := validate_resolution_canon hq
    show tcResolution (Option.map vInt q.1) (Option.map vInt q.2)
        = .ok (Option.map vInt q.1, Option.map vInt q.2)
    by_cases hq1 : q.1 = none ∧ q.2 = none
    · rw [hq1.1, hq1.2]
      simp [tcResolution]
    · have hpres : (Option.map vInt q.1).isSome = true ∨ (Option.map vInt q.2).isSome = true := by
        rcases hx : q.1 with _ | a
        · rcases hy : q.2 with _ | b
          · exact absurd ⟨hx, hy⟩ hq1
          · right; rfl
        · left; rfl
      unfold tcResolution
      rw [if_pos hpres, denone_map, denone_map]
      rw [emap_ok]
      exact ⟨q, validate_resolution_ints hwc hhc hpix, rfl⟩
  · cases h
    simp [tcResolution]

theorem tcFps_fix {x o : Option Val} (h : tcFps x = .ok o) : tcFps o = .ok o := by
  unfold tcFps at h
  split at h
  · cases h; rfl
  · split at h
    · rename_i q hq
      split at h
      · cases h
      · rename_i hb
        cases h
        simp only [tcFps, asNum]
        rw [if_neg hb]
    · cases h

theorem ratTrunc_eq_floor {q : ℚ} (h : 0 ≤ q) : ratTrunc q = ⌊q⌋ := by
  rw [ratTrunc, Int.tdiv_eq_ediv (Rat.num_nonneg.mpr h) (by positivity)]
  exact Rat.floor_def.symm

theorem tcCrf_fix {x o : Option Val} (h : tcCrf x = .ok o) : tcCrf o = .ok o := by
  unfold tcCrf at h
  split at h
  · cases h; rfl
  · split at h
    · rename_i q hq
      split at h
      · cases h
      · rename_i hb
        cases h
        push_neg at hb
        have h0 : (0 : ℤ) ≤ ratTrunc q := ratTrunc_nonneg hb.1
        have h51 : ratTrunc q ≤ 51 := by
          rw [ratTrunc_eq_floor hb.1]
          calc ⌊q⌋ ≤ ⌊(51 : ℚ)⌋ := Int.floor_le_floor hb.2
          _ = 51 := by norm_num
        simp only [tcCrf, asNum, ratTrunc_intCast]
        have hcast : ¬((↑(ratTrunc q) : ℚ) < 0 ∨ (↑(ratTrunc q) : ℚ) > 51) := by
          push_neg
          exact ⟨by exact_mod_cast h0, by exact_mod_cast h51⟩
        rw [if_neg hcast]
    · cases h

theorem aliasIntRange_canon {x1 x2 o : Option Val} {lo hi : ℤ} {mR mT : String}
    (h : aliasIntRange x1 x2 lo hi mR mT = .ok o) :
    o = none ∨ ∃ v, o = some v ∧ isIntV v = true ∧ lo ≤ intOfB v ∧ intOfB v ≤ hi := by
  unfold aliasIntRange at h
  split at h
  · split at h
    · split at h
      · split at h
        · cases h
        · rename_i hint hr
          cases h
          push_neg at hr
          exact Or.inr ⟨_, rfl, hint, hr.1, hr.2⟩
      · cases h
    · cases h
  · cases h
    exact Or.inl rfl

theorem aliasIntRange_fix {x1 x2 o : Option Val} {lo hi : ℤ} {mR mT : String}
    (h : aliasIntRange x1 x2 lo hi mR mT = .ok o)
    (htr : ∀ v, o = some v → truthy v = true) :
    aliasIntRange o none lo hi mR mT = .ok o := by
  rcases aliasIntRange_canon h with rfl | ⟨v, rfl, hint, hlo, hhi⟩
  · simp [aliasIntRange]
  · unfold aliasIntRange
    rw [if_pos (by simp)]
    have hpy : pyOr (some v) none = some v := by
      simp [pyOr, htr v rfl]
    rw [hpy]
    simp only
    rw [if_pos hint, if_neg (by push_neg; exact ⟨hlo, hhi⟩)]

theorem aliasIntRange_truthy_of_pos {x1 x2 : Option Val} {v : Val} {lo hi : ℤ}
    {mR mT : String} (hlo : 1 ≤ lo)
    (h : aliasIntRange x1 x2 lo hi mR mT = .ok (some v)) : truthy v = true := by
  rcases aliasIntRange_canon h with hc | ⟨v', hv', hint, hl, hh⟩
  · exact Option.noConfusion hc
  · obtain rfl : v = v' := by injection hv'
    cases v with
    | vBool b =>
        cases b with
        | false =>
            have h0 : intOfB (vBool false) = 0 := rfl
            rw [h0] at hl
            omega
        | true => rfl
    | vInt n =>
        simp only [intOfB] at hl
        simp only [truthy, ne_eq, decide_not, Bool.not_eq_eq_eq_not, Bool.not_true,
          decide_eq_false_iff_not]
        omega
    | vNone => exact Bool.noConfusion hint
    | vRat q => exact Bool.noConfusion hint
    | vStr s => exact Bool.noConfusion hint
    | vList l => exact Bool.noConfusion hint
    | vDict d => exact Bool.noConfusion hint

theorem tcTwoPass_fix {x o : Option Val} (h : tcTwoPass x = .ok o) :
    tcTwoPass o = .ok o := by
  unfold tcTwoPass at h
  split at h
  · cases h; rfl
  · cases h
    simp [tcTwoPass, truthy]

theorem tcLevel_fix {x o : Option Val} (h : tcLevel x = .ok o) : tcLevel o = .ok o := by
  unfold tcLevel at h
  split at h
  · cases h; rfl
  · split at h
    · rename_i hmem
      cases h
      have hps : ∀ s, pyStr (vStr s) = s := fun _ => rfl
      simp only [tcLevel, hps]
      rw [if_pos hmem]
    · cases h

theorem tcEncoder_fix {x o : Option Val} (h : tcEncoder x = .ok o) :
    tcEncoder o = .ok o := by
  unfold tcEncoder at h
  split at h
  · cases h; rfl
  · split at h
    · rename_i hmem
      cases h
      simp only [tcEncoder]
      rw [if_pos hmem]
    · cases h

theorem intRangeCopy_fix {x o : Option Val} {lo hi : ℤ} {mR mT : String}
    (h : intRangeCopy x lo hi mR mT = .ok o) : intRangeCopy o lo hi mR mT = .ok o := by
  unfold intRangeCopy at h
  split at h
  · cases h; rfl
  · split at h
    · split at h
      · cases h
      · rename_i hint hr
        cases h
        simp only [intRangeCopy]
        rw [if_pos hint, if_neg hr]
    · cases h

/-! ### `validate_transcode_operation` (validators.py) -/

/-- `validate_transcode_operation` from validators.py: each optional field
is checked and written into `validated` in source order. -/
def validate_transcode_operation (op : Dict) : Except String Dict :=
  strMemField (dget op "video_codec") allowedVideoCodecs "Video codec must be a string" "Invalid video codec" >>= fun vc =>
  strMemField (dget op "audio_codec") allowedAudioCodecs "Audio codec must be a string" "Invalid audio codec" >>= fun ac =>
  strMemField (dget op "preset") allowedPresets "Preset must be a string" "Invalid preset" >>= fun pr =>
  strMemField (dget op "profile") allowedProfiles "Profile must be a string" "Invalid profile" >>= fun pf =>
  aliasMemField (dget op "pixel_format") (dget op "pix_fmt") allowedPixelFormats "Invalid pixel format" >>= fun px =>
  aliasMemField (dget op "hardware_acceleration") (dget op "hw_accel") allowedHwAccel "Invalid hardware acceleration" >>= fun hw =>
  optBitrate (dget op "video_bitrate") >>= fun vb =>
  optBitrate (dget op "audio_bitrate") >>= fun ab =>
  optBitrate (dget op "max_bitrate") >>= fun mb =>
  optBitrate (dget op "buffer_size") >>= fun bs =>
  tcResolution (dget op "width") (dget op "height") >>= fun wh =>
  tcFps (dget op "fps") >>= fun fp =>
  tcCrf (dget op "crf") >>= fun cf =>
  aliasIntRange (dget op "gop_size") (dget op "keyint") 1 600 "GOP size out of valid range (1-600)" "GOP size must be an integer" >>= fun gp =>
  aliasIntRange (dget op "b_frames") (dget op "bframes") 0 16 "B-frames out of valid range (0-16)" "B-frames must be an integer" >>= fun bf =>
  tcTwoPass (dget op "two_pass") >>= fun tp =>
  strMemField (dget op "tune") allowedTunes "Tune must be a string" "Invalid tune" >>= fun tn =>
  tcLevel (dget op "level") >>= fun lv =>
  tcEncoder (dget op "encoder") >>= fun en =>
  aliasIntRange (dget op "ref_frames") (dget op "refs") 1 16 "Reference frames out of valid range (1-16)" "Reference frames must be an integer" >>= fun rf =>
  intRangeCopy (dget op "rc_lookahead") 0 250 "RC lookahead out of valid range (0-250)" "RC lookahead must be an integer" >>= fun rc =>
  intRangeCopy (dget op "sc_threshold") 0 100 "Scene change threshold out of valid range (0-100)" "Scene change threshold must be an integer" >>= fun sc =>
  audioMemField (dget op "audio_sample_rate") [8000, 11025, 16000, 22050, 32000, 44100, 48000, 96000] "Invalid audio sample rate" >>= fun sr =>
  audioMemField (dget op "audio_channels") [1, 2, 6, 8] "Audio channels must be 1, 2, 6, or 8" >>= fun ch =>
  .ok (("type", vStr "transcode") :: dmk
    [("video_codec", vc), ("audio_codec", ac), ("preset", pr), ("profile", pf), ("pixel_format", px), ("hardware_acceleration", hw), ("video_bitrate", vb), ("audio_bitrate", ab), ("max_bitrate", mb), ("buffer_size", bs), ("width", wh.1), ("height", wh.2), ("fps", fp), ("crf", cf), ("gop_size", gp), ("b_frames", bf), ("two_pass", tp), ("tune", tn), ("level", lv), ("encoder", en), ("ref_frames", rf), ("rc_lookahead", rc), ("sc_threshold", sc), ("audio_sample_rate", sr), ("audio_channels", ch)])

set_option maxHeartbeats 4000000 in
/-- Idempotence of the transcode validator, conditional on the canonical
`b_frames` value being truthy (a falsy `b_frames` of `0` or `False` is
lost by the `op.get(..) or op.get(..)` alias read on the second run). -/
theorem validate_transcode_fix {op w : Dict}
    (h : validate_transcode_operation op = .ok w)
    (hbf : ∀ v, dget w "b_frames" = some v → truthy v = true) :
    validate_transcode_operation w = .ok w := by
  unfold validate_transcode_operation at h
  obtain ⟨vc, hvc, h⟩ := ebind_ok.mp h
  obtain ⟨ac, hac, h⟩ := ebind_ok.mp h
  obtain ⟨pr, hpr, h⟩ := ebind_ok.mp h
  obtain ⟨pf, hpf, h⟩ := ebind_ok.mp h
  obtain ⟨px, hpx, h⟩ := ebind_ok.mp h
  obtain ⟨hw, hhw, h⟩ := ebind_ok.mp h
  obtain ⟨vb, hvb, h⟩ := ebind_ok.mp h
  obtain ⟨ab, hab, h⟩ := ebind_ok.mp h
  obtain ⟨mb, hmb, h⟩ := ebind_ok.mp h
  obtain ⟨bs, hbs, h⟩ := ebind_ok.mp h
  obtain ⟨wh, hwh, h⟩ := ebind_ok.mp h
  obtain ⟨fp, hfp, h⟩ := ebind_ok.mp h
  obtain ⟨cf, hcf, h⟩ := ebind_ok.mp h
  obtain ⟨gp, hgp, h⟩ := ebind_ok.mp h
  obtain ⟨bf, hbff, h⟩ := ebind_ok.mp h
  obtain ⟨tp, htp, h⟩ := ebind_ok.mp h
  obtain ⟨tn, htn, h⟩ := ebind_ok.mp h
  obtain ⟨lv, hlv, h⟩ := ebind_ok.mp h
  obtain ⟨en, hen, h⟩ := ebind_ok.mp h
  obtain ⟨rf, hrf, h⟩ := ebind_ok.mp h
  obtain ⟨rc, hrc, h⟩ := ebind_ok.mp h
  obtain ⟨sc, hsc, h⟩ := ebind_ok.mp h
  obtain ⟨sr, hsr, h⟩ := ebind_ok.mp h
  obtain ⟨ch, hch, h⟩ := ebind_ok.mp h
  cases h
  have hg_video_codec : dget (("type", vStr "transcode") :: dmk
      [("video_codec", vc), ("audio_codec", ac), ("preset", pr), ("profile", pf), ("pixel_format", px), ("hardware_acceleration", hw), ("video_bitrate", vb), ("audio_bitrate", ab), ("max_bitrate", mb), ("buffer_size", bs), ("width", wh.1), ("height", wh.2), ("fps", fp), ("crf", cf), ("gop_size", gp), ("b_frames", bf), ("two_pass", tp), ("tune", tn), ("level", lv), ("encoder", en), ("ref_frames", rf), ("rc_lookahead", rc), ("sc_threshold", sc), ("audio_sample_rate", sr), ("audio_channels", ch)]) "video_codec" = vc := by
    rw [dget_cons, if_neg (by decide)]
    exact dget_dmk_at ([])
      ([("audio_codec", ac), ("preset", pr), ("profile", pf), ("pixel_format", px), ("hardware_acceleration", hw), ("video_bitrate", vb), ("audio_bitrate", ab), ("max_bitrate", mb), ("buffer_size", bs), ("width", wh.1), ("height", wh.2), ("fps", fp), ("crf", cf), ("gop_size", gp), ("b_frames", bf), ("two_pass", tp), ("tune", tn), ("level", lv), ("encoder", en), ("ref_frames", rf), ("rc_lookahead", rc), ("sc_threshold", sc), ("audio_sample_rate", sr), ("audio_channels", ch)]) (by simp) (by simp)
  have hg_audio_codec : dget (("type", vStr "transcode") :: dmk
      [("video_codec", vc), ("audio_codec", ac), ("preset", pr), ("profile", pf), ("pixel_format", px), ("hardware_acceleration", hw), ("video_bitrate", vb), ("audio_bitrate", ab), ("max_bitrate", mb), ("buffer_size", bs), ("width", wh.1), ("height", wh.2), ("fps", fp), ("crf", cf), ("gop_size", gp), ("b_frames", bf), ("two_pass", tp), ("tune", tn), ("level", lv), ("encoder", en), ("ref_frames", rf), ("rc_lookahead", rc), ("sc_threshold", sc), ("audio_sample_rate", sr), ("audio_channels", ch)]) "audio_codec" = ac := by
    rw [dget_cons, if_neg (by decide)]
    exact dget_dmk_at ([("video_codec", vc)])
      ([("preset", pr), ("profile", pf), ("pixel_format", px), ("hardware_acceleration", hw), ("video_bitrate", vb), ("audio_bitrate", ab), ("max_bitrate", mb), ("buffer_size", bs), ("width", wh.1), ("height", wh.2), ("fps", fp), ("crf", cf), ("gop_size", gp), ("b_frames", bf), ("two_pass", tp), ("tune", tn), ("level", lv), ("encoder", en), ("ref_frames", rf), ("rc_lookahead", rc), ("sc_threshold", sc), ("audio_sample_rate", sr), ("audio_channels", ch)]) (by simp) (by simp)
  have hg_preset : dget (("type", vStr "transcode") :: dmk
      [("video_codec", vc), ("audio_codec", ac), ("preset", pr), ("profile", pf), ("pixel_format", px), ("hardware_acceleration", hw), ("video_bitrate", vb), ("audio_bitrate", ab), ("max_bitrate", mb), ("buffer_size", bs), ("width", wh.1), ("height", wh.2), ("fps", fp), ("crf", cf), ("gop_size", gp), ("b_frames", bf), ("two_pass", tp), ("tune", tn), ("level", lv), ("encoder", en), ("ref_frames", rf), ("rc_lookahead", rc), ("sc_threshold", sc), ("audio_sample_rate", sr), ("audio_channels", ch)]) "preset" = pr := by
    rw [dget_cons, if_neg (by decide)]
    exact dget_dmk_at ([("video_codec", vc), ("audio_codec", ac)])
      ([("profile", pf), ("pixel_format", px), ("hardware_acceleration", hw), ("video_bitrate", vb), ("audio_bitrate", ab), ("max_bitrate", mb), ("buffer_size", bs), ("width", wh.1), ("height", wh.2), ("fps", fp), ("crf", cf), ("gop_size", gp), ("b_frames", bf), ("two_pass", tp), ("tune", tn), ("level", lv), ("encoder", en), ("ref_frames", rf), ("rc_lookahead", rc), ("sc_threshold", sc), ("audio_sample_rate", sr), ("audio_channels", ch)]) (by simp) (by simp)
  have hg_profile : dget (("type", vStr "transcode") :: dmk
      [("video_codec", vc), ("audio_codec", ac), ("preset", pr), ("profile", pf), ("pixel_format", px), ("hardware_acceleration", hw), ("video_bitrate", vb), ("audio_bitrate", ab), ("max_bitrate", mb), ("buffer_size", bs), ("width", wh.1), ("height", wh.2), ("fps", fp), ("crf", cf), ("gop_size", gp), ("b_frames", bf), ("two_pass", tp), ("tune", tn), ("level", lv), ("encoder", en), ("ref_frames", rf), ("rc_lookahead", rc), ("sc_threshold", sc), ("audio_sample_rate", sr), ("audio_channels", ch)]) "profile" = pf := by
    rw [dget_cons, if_neg (by decide)]
    exact dget_dmk_at ([("video_codec", vc), ("audio_codec", ac), ("preset", pr)])
      ([("pixel_format", px), ("hardware_acceleration", hw), ("video_bitrate", vb), ("audio_bitrate", ab), ("max_bitrate", mb), ("buffer_size", bs), ("width", wh.1), ("height", wh.2), ("fps", fp), ("crf", cf), ("gop_size", gp), ("b_frames", bf), ("two_pass", tp), ("tune", tn), ("level", lv), ("encoder", en), ("ref_frames", rf), ("rc_lookahead", rc), ("sc_threshold", sc), ("audio_sample_rate", sr), ("audio_channels", ch)]) (by simp) (by simp)
  have hg_pixel_format : dget (("type", vStr "transcode") :: dmk
      [("video_codec", vc), ("audio_codec", ac), ("preset", pr), ("profile", pf), ("pixel_format", px), ("hardware_acceleration", hw), ("video_bitrate", vb), ("audio_bitrate", ab), ("max_bitrate", mb), ("buffer_size", bs), ("width", wh.1), ("height", wh.2), ("fps", fp), ("crf", cf), ("gop_size", gp), ("b_frames", bf), ("two_pass", tp), ("tune", tn), ("level", lv), ("encoder", en), ("ref_frames", rf), ("rc_lookahead", rc), ("sc_threshold", sc), ("audio_sample_rate", sr), ("audio_channels", ch)]) "pixel_format" = px := by
    rw [dget_cons, if_neg (by decide)]
    exact dget_dmk_at ([("video_codec", vc), ("audio_codec", ac), ("preset", pr), ("profile", pf)])
      ([("hardware_acceleration", hw), ("video_bitrate", vb), ("audio_bitrate", ab), ("max_bitrate", mb), ("buffer_size", bs), ("width", wh.1), ("height", wh.2), ("fps", fp), ("crf", cf), ("gop_size", gp), ("b_frames", bf), ("two_pass", tp), ("tune", tn), ("level", lv), ("encoder", en), ("ref_frames", rf), ("rc_lookahead", rc), ("sc_threshold", sc), ("audio_sample_rate", sr), ("audio_channels", ch)]) (by simp) (by simp)
  have hg_hardware_acceleration : dget (("type", vStr "transcode") :: dmk
      [("video_codec", vc), ("audio_codec", ac), ("preset", pr), ("profile", pf), ("pixel_format", px), ("hardware_acceleration", hw), ("video_bitrate", vb), ("audio_bitrate", ab), ("max_bitrate", mb), ("buffer_size", bs), ("width", wh.1), ("height", wh.2), ("fps", fp), ("crf", cf), ("gop_size", gp), ("b_frames", bf), ("two_pass", tp), ("tune", tn), ("level", lv), ("encoder", en), ("ref_frames", rf), ("rc_lookahead", rc), ("sc_threshold", sc), ("audio_sample_rate", sr), ("audio_channels", ch)]) "hardware_acceleration" = hw := by
    rw [dget_cons, if_neg (by decide)]
    exact dget_dmk_at ([("video_codec", vc), ("audio_codec", ac), ("preset", pr), ("profile", pf), ("pixel_format", px)])
      ([("video_bitrate", vb), ("audio_bitrate", ab), ("max_bitrate", mb), ("buffer_size", bs), ("width", wh.1), ("height", wh.2), ("fps", fp), ("crf", cf), ("gop_size", gp), ("b_frames", bf), ("two_pass", tp), ("tune", tn), ("level", lv), ("encoder", en), ("ref_frames", rf), ("rc_lookahead", rc), ("sc_threshold", sc), ("audio_sample_rate", sr), ("audio_channels", ch)]) (by simp) (by simp)
  have hg_video_bitrate : dget (("type", vStr "transcode") :: dmk
      [("video_codec", vc), ("audio_codec", ac), ("preset", pr), ("profile", pf), ("pixel_format", px), ("hardware_acceleration", hw), ("video_bitrate", vb), ("audio_bitrate", ab), ("max_bitrate", mb), ("buffer_size", bs), ("width", wh.1), ("height", wh.2), ("fps", fp), ("crf", cf), ("gop_size", gp), ("b_frames", bf), ("two_pass", tp), ("tune", tn), ("level", lv), ("encoder", en), ("ref_frames", rf), ("rc_lookahead", rc), ("sc_threshold", sc), ("audio_sample_rate", sr), ("audio_channels", ch)]) "video_bitrate" = vb := by
    rw [dget_cons, if_neg (by decide)]
    exact dget_dmk_at ([("video_codec", vc), ("audio_codec", ac), ("preset", pr), ("profile", pf), ("pixel_format", px), ("hardware_acceleration", hw)])
      ([("audio_bitrate", ab), ("max_bitrate", mb), ("buffer_size", bs), ("width", wh.1), ("height", wh.2), ("fps", fp), ("crf", cf), ("gop_size", gp), ("b_frames", bf), ("two_pass", tp), ("tune", tn), ("level", lv), ("encoder", en), ("ref_frames", rf), ("rc_lookahead", rc), ("sc_threshold", sc), ("audio_sample_rate", sr), ("audio_channels", ch)]) (by simp) (by simp)
  have hg_audio_bitrate : dget (("type", vStr "transcode") :: dmk
      [("video_codec", vc), ("audio_codec", ac), ("preset", pr), ("profile", pf), ("pixel_format", px), ("hardware_acceleration", hw), ("video_bitrate", vb), ("audio_bitrate", ab), ("max_bitrate", mb), ("buffer_size", bs), ("width", wh.1), ("height", wh.2), ("fps", fp), ("crf", cf), ("gop_size", gp), ("b_frames", bf), ("two_pass", tp), ("tune", tn), ("level", lv), ("encoder", en), ("ref_frames", rf), ("rc_lookahead", rc), ("sc_threshold", sc), ("audio_sample_rate", sr), ("audio_channels", ch)]) "audio_bitrate" = ab := by
    rw [dget_cons, if_neg (by decide)]
    exact dget_dmk_at ([("video_codec", vc), ("audio_codec", ac), ("preset", pr), ("profile", pf), ("pixel_format", px), ("hardware_acceleration", hw), ("video_bitrate", vb)])
      ([("max_bitrate", mb), ("buffer_size", bs), ("width", wh.1), ("height", wh.2), ("fps", fp), ("crf", cf), ("gop_size", gp), ("b_frames", bf), ("two_pass", tp), ("tune", tn), ("level", lv), ("encoder", en), ("ref_frames", rf), ("rc_lookahead", rc), ("sc_threshold", sc), ("audio_sample_rate", sr), ("audio_channels", ch)]) (by simp) (by simp)
  have hg_max_bitrate : dget (("type", vStr "transcode") :: dmk
      [("video_codec", vc), ("audio_codec", ac), ("preset", pr), ("profile", pf), ("pixel_format", px), ("hardware_acceleration", hw), ("video_bitrate", vb), ("audio_bitrate", ab), ("max_bitrate", mb), ("buffer_size", bs), ("width", wh.1), ("height", wh.2), ("fps", fp), ("crf", cf), ("gop_size", gp), ("b_frames", bf), ("two_pass", tp), ("tune", tn), ("level", lv), ("encoder", en), ("ref_frames", rf), ("rc_lookahead", rc), ("sc_threshold", sc), ("audio_sample_rate", sr), ("audio_channels", ch)]) "max_bitrate" = mb := by
    rw [dget_cons, if_neg (by decide)]
    exact dget_dmk_at ([("video_codec", vc), ("audio_codec", ac), ("preset", pr), ("profile", pf), ("pixel_format", px), ("hardware_acceleration", hw), ("video_bitrate", vb), ("audio_bitrate", ab)])
      ([("buffer_size", bs), ("width", wh.1), ("height", wh.2), ("fps", fp), ("crf", cf), ("gop_size", gp), ("b_frames", bf), ("two_pass", tp), ("tune", tn), ("level", lv), ("encoder", en), ("ref_frames", rf), ("rc_lookahead", rc), ("sc_threshold", sc), ("audio_sample_rate", sr), ("audio_channels", ch)]) (by simp) (by simp)
  have hg_buffer_size : dget (("type", vStr "transcode") :: dmk
      [("video_codec", vc), ("audio_codec", ac), ("preset", pr), ("profile", pf), ("pixel_format", px), ("hardware_acceleration", hw), ("video_bitrate", vb), ("audio_bitrate", ab), ("max_bitrate", mb), ("buffer_size", bs), ("width", wh.1), ("height", wh.2), ("fps", fp), ("crf", cf), ("gop_size", gp), ("b_frames", bf), ("two_pass", tp), ("tune", tn), ("level", lv), ("encoder", en), ("ref_frames", rf), ("rc_lookahead", rc), ("sc_threshold", sc), ("audio_sample_rate", sr), ("audio_channels", ch)]) "buffer_size" = bs := by
    rw [dget_cons, if_neg (by decide)]
    exact dget_dmk_at ([("video_codec", vc), ("audio_codec", ac), ("preset", pr), ("profile", pf), ("pixel_format", px), ("hardware_acceleration", hw), ("video_bitrate", vb), ("audio_bitrate", ab), ("max_bitrate", mb)])
      ([("width", wh.1), ("height", wh.2), ("fps", fp), ("crf", cf), ("gop_size", gp), ("b_frames", bf), ("two_pass", tp), ("tune", tn), ("level", lv), ("encoder", en), ("ref_frames", rf), ("rc_lookahead", rc), ("sc_threshold", sc), ("audio_sample_rate", sr), ("audio_channels", ch)]) (by simp) (by simp)
  have hg_width : dget (("type", vStr "transcode") :: dmk
      [("video_codec", vc), ("audio_codec", ac), ("preset", pr), ("profile", pf), ("pixel_format", px), ("hardware_acceleration", hw), ("video_bitrate", vb), ("audio_bitrate", ab), ("max_bitrate", mb), ("buffer_size", bs), ("width", wh.1), ("height", wh.2), ("fps", fp), ("crf", cf), ("gop_size", gp), ("b_frames", bf), ("two_pass", tp), ("tune", tn), ("level", lv), ("encoder", en), ("ref_frames", rf), ("rc_lookahead", rc), ("sc_threshold", sc), ("audio_sample_rate", sr), ("audio_channels", ch)]) "width" = wh.1 := by
    rw [dget_cons, if_neg (by decide)]
    exact dget_dmk_at ([("video_codec", vc), ("audio_codec", ac), ("preset", pr), ("profile", pf), ("pixel_format", px), ("hardware_acceleration", hw), ("video_bitrate", vb), ("audio_bitrate", ab), ("max_bitrate", mb), ("buffer_size", bs)])
      ([("height", wh.2), ("fps", fp), ("crf", cf), ("gop_size", gp), ("b_frames", bf), ("two_pass", tp), ("tune", tn), ("level", lv), ("encoder", en), ("ref_frames", rf), ("rc_lookahead", rc), ("sc_threshold", sc), ("audio_sample_rate", sr), ("audio_channels", ch)]) (by simp) (by simp)
  have hg_height : dget (("type", vStr "transcode") :: dmk
      [("video_codec", vc), ("audio_codec", ac), ("preset", pr), ("profile", pf), ("pixel_format", px), ("hardware_acceleration", hw), ("video_bitrate", vb), ("audio_bitrate", ab), ("max_bitrate", mb), ("buffer_size", bs), ("width", wh.1), ("height", wh.2), ("fps", fp), ("crf", cf), ("gop_size", gp), ("b_frames", bf), ("two_pass", tp), ("tune", tn), ("level", lv), ("encoder", en), ("ref_frames", rf), ("rc_lookahead", rc), ("sc_threshold", sc), ("audio_sample_rate", sr), ("audio_channels", ch)]) "height" = wh.2 := by
    rw [dget_cons, if_neg (by decide)]
    exact dget_dmk_at ([("video_codec", vc), ("audio_codec", ac), ("preset", pr), ("profile", pf), ("pixel_format", px), ("hardware_acceleration", hw), ("video_bitrate", vb), ("audio_bitrate", ab), ("max_bitrate", mb), ("buffer_size", bs), ("width", wh.1)])
      ([("fps", fp), ("crf", cf), ("gop_size", gp), ("b_frames", bf), ("two_pass", tp), ("tune", tn), ("level", lv), ("encoder", en), ("ref_frames", rf), ("rc_lookahead", rc), ("sc_threshold", sc), ("audio_sample_rate", sr), ("audio_channels", ch)]) (by simp) (by simp)
  have hg_fps : dget (("type", vStr "transcode") :: dmk
      [("video_codec", vc), ("audio_codec", ac), ("preset", pr), ("profile", pf), ("pixel_format", px), ("hardware_acceleration", hw), ("video_bitrate", vb), ("audio_bitrate", ab), ("max_bitrate", mb), ("buffer_size", bs), ("width", wh.1), ("height", wh.2), ("fps", fp), ("crf", cf), ("gop_size", gp), ("b_frames", bf), ("two_pass", tp), ("tune", tn), ("level", lv), ("encoder", en), ("ref_frames", rf), ("rc_lookahead", rc), ("sc_threshold", sc), ("audio_sample_rate", sr), ("audio_channels", ch)]) "fps" = fp := by
    rw [dget_cons, if_neg (by decide)]
    exact dget_dmk_at ([("video_codec", vc), ("audio_codec", ac), ("preset", pr), ("profile", pf), ("pixel_format", px), ("hardware_acceleration", hw), ("video_bitrate", vb), ("audio_bitrate", ab), ("max_bitrate", mb), ("buffer_size", bs), ("width", wh.1), ("height", wh.2)])
      ([("crf", cf), ("gop_size", gp), ("b_frames", bf), ("two_pass", tp), ("tune", tn), ("level", lv), ("encoder", en), ("ref_frames", rf), ("rc_lookahead", rc), ("sc_threshold", sc), ("audio_sample_rate", sr), ("audio_channels", ch)]) (by simp) (by simp)
  have hg_crf : dget (("type", vStr "transcode") :: dmk
      [("video_codec", vc), ("audio_codec", ac), ("preset", pr), ("profile", pf), ("pixel_format", px), ("hardware_acceleration", hw), ("video_bitrate", vb), ("audio_bitrate", ab), ("max_bitrate", mb), ("buffer_size", bs), ("width", wh.1), ("height", wh.2), ("fps", fp), ("crf", cf), ("gop_size", gp), ("b_frames", bf), ("two_pass", tp), ("tune", tn), ("level", lv), ("encoder", en), ("ref_frames", rf), ("rc_lookahead", rc), ("sc_threshold", sc), ("audio_sample_rate", sr), ("audio_channels", ch)]) "crf" = cf := by
    rw [dget_cons, if_neg (by decide)]
    exact dget_dmk_at ([("video_codec", vc), ("audio_codec", ac), ("preset", pr), ("profile", pf), ("pixel_format", px), ("hardware_acceleration", hw), ("video_bitrate", vb), ("audio_bitrate", ab), ("max_bitrate", mb), ("buffer_size", bs), ("width", wh.1), ("height", wh.2), ("fps", fp)])
      ([("gop_size", gp), ("b_frames", bf), ("two_pass", tp), ("tune", tn), ("level", lv), ("encoder", en), ("ref_frames", rf), ("rc_lookahead", rc), ("sc_threshold", sc), ("audio_sample_rate", sr), ("audio_channels", ch)]) (by simp) (by simp)
  have hg_gop_size : dget (("type", vStr "transcode") :: dmk
      [("video_codec", vc), ("audio_codec", ac), ("preset", pr), ("profile", pf), ("pixel_format", px), ("hardware_acceleration", hw), ("video_bitrate", vb), ("audio_bitrate", ab), ("max_bitrate", mb), ("buffer_size", bs), ("width", wh.1), ("height", wh.2), ("fps", fp), ("crf", cf), ("gop_size", gp), ("b_frames", bf), ("two_pass", tp), ("tune", tn), ("level", lv), ("encoder", en), ("ref_frames", rf), ("rc_lookahead", rc), ("sc_threshold", sc), ("audio_sample_rate", sr), ("audio_channels", ch)]) "gop_size" = gp := by
    rw [dget_cons, if_neg (by decide)]
    exact dget_dmk_at ([("video_codec", vc), ("audio_codec", ac), ("preset", pr), ("profile", pf), ("pixel_format", px), ("hardware_acceleration", hw), ("video_bitrate", vb), ("audio_bitrate", ab), ("max_bitrate", mb), ("buffer_size", bs), ("width", wh.1), ("height", wh.2), ("fps", fp), ("crf", cf)])
      ([("b_frames", bf), ("two_pass", tp), ("tune", tn), ("level", lv), ("encoder", en), ("ref_frames", rf), ("rc_lookahead", rc), ("sc_threshold", sc), ("audio_sample_rate", sr), ("audio_channels", ch)]) (by simp) (by simp)
  have hg_b_frames : dget (("type", vStr "transcode") :: dmk
      [("video_codec", vc), ("audio_codec", ac), ("preset", pr), ("profile", pf), ("pixel_format", px), ("hardware_acceleration", hw), ("video_bitrate", vb), ("audio_bitrate", ab), ("max_bitrate", mb), ("buffer_size", bs), ("width", wh.1), ("height", wh.2), ("fps", fp), ("crf", cf), ("gop_size", gp), ("b_frames", bf), ("two_pass", tp), ("tune", tn), ("level", lv), ("encoder", en), ("ref_frames", rf), ("rc_lookahead", rc), ("sc_threshold", sc), ("audio_sample_rate", sr), ("audio_channels", ch)]) "b_frames" = bf := by
    rw [dget_cons, if_neg (by decide)]
    exact dget_dmk_at ([("video_codec", vc), ("audio_codec", ac), ("preset", pr), ("profile", pf), ("pixel_format", px), ("hardware_acceleration", hw), ("video_bitrate", vb), ("audio_bitrate", ab), ("max_bitrate", mb), ("buffer_size", bs), ("width", wh.1), ("height", wh.2), ("fps", fp), ("crf", cf), ("gop_size", gp)])
      ([("two_pass", tp), ("tune", tn), ("level", lv), ("encoder", en), ("ref_frames", rf), ("rc_lookahead", rc), ("sc_threshold", sc), ("audio_sample_rate", sr), ("audio_channels", ch)]) (by simp) (by simp)
  have hg_two_pass : dget (("type", vStr "transcode") :: dmk
      [("video_codec", vc), ("audio_codec", ac), ("preset", pr), ("profile", pf), ("pixel_format", px), ("hardware_acceleration", hw), ("video_bitrate", vb), ("audio_bitrate", ab), ("max_bitrate", mb), ("buffer_size", bs), ("width", wh.1), ("height", wh.2), ("fps", fp), ("crf", cf), ("gop_size", gp), ("b_frames", bf), ("two_pass", tp), ("tune", tn), ("level", lv), ("encoder", en), ("ref_frames", rf), ("rc_lookahead", rc), ("sc_threshold", sc), ("audio_sample_rate", sr), ("audio_channels", ch)]) "two_pass" = tp := by
    rw [dget_cons, if_neg (by decide)]
    exact dget_dmk_at ([("video_codec", vc), ("audio_codec", ac), ("preset", pr), ("profile", pf), ("pixel_format", px), ("hardware_acceleration", hw), ("video_bitrate", vb), ("audio_bitrate", ab), ("max_bitrate", mb), ("buffer_size", bs), ("width", wh.1), ("height", wh.2), ("fps", fp), ("crf", cf), ("gop_size", gp), ("b_frames", bf)])
      ([("tune", tn), ("level", lv), ("encoder", en), ("ref_frames", rf), ("rc_lookahead", rc), ("sc_threshold", sc), ("audio_sample_rate", sr), ("audio_channels", ch)]) (by simp) (by simp)
  have hg_tune : dget (("type", vStr "transcode") :: dmk
      [("video_codec", vc), ("audio_codec", ac), ("preset", pr), ("profile", pf), ("pixel_format", px), ("hardware_acceleration", hw), ("video_bitrate", vb), ("audio_bitrate", ab), ("max_bitrate", mb), ("buffer_size", bs), ("width", wh.1), ("height", wh.2), ("fps", fp), ("crf", cf), ("gop_size", gp), ("b_frames", bf), ("two_pass", tp), ("tune", tn), ("level", lv), ("encoder", en), ("ref_frames", rf), ("rc_lookahead", rc), ("sc_threshold", sc), ("audio_sample_rate", sr), ("audio_channels", ch)]) "tune" = tn := by
    rw [dget_cons, if_neg (by decide)]
    exact dget_dmk_at ([("video_codec", vc), ("audio_codec", ac), ("preset", pr), ("profile", pf), ("pixel_format", px), ("hardware_acceleration", hw), ("video_bitrate", vb), ("audio_bitrate", ab), ("max_bitrate", mb), ("buffer_size", bs), ("width", wh.1), ("height", wh.2), ("fps", fp), ("crf", cf), ("gop_size", gp), ("b_frames", bf), ("two_pass", tp)])
      ([("level", lv), ("encoder", en), ("ref_frames", rf), ("rc_lookahead", rc), ("sc_threshold", sc), ("audio_sample_rate", sr), ("audio_channels", ch)]) (by simp) (by simp)
  have hg_level : dget (("type", vStr "transcode") :: dmk
      [("video_codec", vc), ("audio_codec", ac), ("preset", pr), ("profile", pf), ("pixel_format", px), ("hardware_acceleration", hw), ("video_bitrate", vb), ("audio_bitrate", ab), ("max_bitrate", mb), ("buffer_size", bs), ("width", wh.1), ("height", wh.2), ("fps", fp), ("crf", cf), ("gop_size", gp), ("b_frames", bf), ("two_pass", tp), ("tune", tn), ("level", lv), ("encoder", en), ("ref_frames", rf), ("rc_lookahead", rc), ("sc_threshold", sc), ("audio_sample_rate", sr), ("audio_channels", ch)]) "level" = lv := by
    rw [dget_cons, if_neg (by decide)]
    exact dget_dmk_at ([("video_codec", vc), ("audio_codec", ac), ("preset", pr), ("profile", pf), ("pixel_format", px), ("hardware_acceleration", hw), ("video_bitrate", vb), ("audio_bitrate", ab), ("max_bitrate", mb), ("buffer_size", bs), ("width", wh.1), ("height", wh.2), ("fps", fp), ("crf", cf), ("gop_size", gp), ("b_frames", bf), ("two_pass", tp), ("tune", tn)])
      ([("encoder", en), ("ref_frames", rf), ("rc_lookahead", rc), ("sc_threshold", sc), ("audio_sample_rate", sr), ("audio_channels", ch)]) (by simp) (by simp)
  have hg_encoder : dget (("type", vStr "transcode") :: dmk
      [("video_codec", vc), ("audio_codec", ac), ("preset", pr), ("profile", pf), ("pixel_format", px), ("hardware_acceleration", hw), ("video_bitrate", vb), ("audio_bitrate", ab), ("max_bitrate", mb), ("buffer_size", bs), ("width", wh.1), ("height", wh.2), ("fps", fp), ("crf", cf), ("gop_size", gp), ("b_frames", bf), ("two_pass", tp), ("tune", tn), ("level", lv), ("encoder", en), ("ref_frames", rf), ("rc_lookahead", rc), ("sc_threshold", sc), ("audio_sample_rate", sr), ("audio_channels", ch)]) "encoder" = en := by
    rw [dget_cons, if_neg (by decide)]
    exact dget_dmk_at ([("video_codec", vc), ("audio_codec", ac), ("preset", pr), ("profile", pf), ("pixel_format", px), ("hardware_acceleration", hw), ("video_bitrate", vb), ("audio_bitrate", ab), ("max_bitrate", mb), ("buffer_size", bs), ("width", wh.1), ("height", wh.2), ("fps", fp), ("crf", cf), ("gop_size", gp), ("b_frames", bf), ("two_pass", tp), ("tune", tn), ("level", lv)])
      ([("ref_frames", rf), ("rc_lookahead", rc), ("sc_threshold", sc), ("audio_sample_rate", sr), ("audio_channels", ch)]) (by simp) (by simp)
  have hg_ref_frames : dget (("type", vStr "transcode") :: dmk
      [("video_codec", vc), ("audio_codec", ac), ("preset", pr), ("profile", pf), ("pixel_format", px), ("hardware_acceleration", hw), ("video_bitrate", vb), ("audio_bitrate", ab), ("max_bitrate", mb), ("buffer_size", bs), ("width", wh.1), ("height", wh.2), ("fps", fp), ("crf", cf), ("gop_size", gp), ("b_frames", bf), ("two_pass", tp), ("tune", tn), ("level", lv), ("encoder", en), ("ref_frames", rf), ("rc_lookahead", rc), ("sc_threshold", sc), ("audio_sample_rate", sr), ("audio_channels", ch)]) "ref_frames" = rf := by
    rw [dget_cons, if_neg (by decide)]
    exact dget_dmk_at ([("video_codec", vc), ("audio_codec", ac), ("preset", pr), ("profile", pf), ("pixel_format", px), ("hardware_acceleration", hw), ("video_bitrate", vb), ("audio_bitrate", ab), ("max_bitrate", mb), ("buffer_size", bs), ("width", wh.1), ("height", wh.2), ("fps", fp), ("crf", cf), ("gop_size", gp), ("b_frames", bf), ("two_pass", tp), ("tune", tn), ("level", lv), ("encoder", en)])
      ([("rc_lookahead", rc), ("sc_threshold", sc), ("audio_sample_rate", sr), ("audio_channels", ch)]) (by simp) (by simp)
  have hg_rc_lookahead : dget (("type", vStr "transcode") :: dmk
      [("video_codec", vc), ("audio_codec", ac), ("preset", pr), ("profile", pf), ("pixel_format", px), ("hardware_acceleration", hw), ("video_bitrate", vb), ("audio_bitrate", ab), ("max_bitrate", mb), ("buffer_size", bs), ("width", wh.1), ("height", wh.2), ("fps", fp), ("crf", cf), ("gop_size", gp), ("b_frames", bf), ("two_pass", tp), ("tune", tn), ("level", lv), ("encoder", en), ("ref_frames", rf), ("rc_lookahead", rc), ("sc_threshold", sc), ("audio_sample_rate", sr), ("audio_channels", ch)]) "rc_lookahead" = rc := by
    rw [dget_cons, if_neg (by decide)]
    exact dget_dmk_at ([("video_codec", vc), ("audio_codec", ac), ("preset", pr), ("profile", pf), ("pixel_format", px), ("hardware_acceleration", hw), ("video_bitrate", vb), ("audio_bitrate", ab), ("max_bitrate", mb), ("buffer_size", bs), ("width", wh.1), ("height", wh.2), ("fps", fp), ("crf", cf), ("gop_size", gp), ("b_frames", bf), ("two_pass", tp), ("tune", tn), ("level", lv), ("encoder", en), ("ref_frames", rf)])
      ([("sc_threshold", sc), ("audio_sample_rate", sr), ("audio_channels", ch)]) (by simp) (by simp)
  have hg_sc_threshold : dget (("type", vStr "transcode") :: dmk
      [("video_codec", vc), ("audio_codec", ac), ("preset", pr), ("profile", pf), ("pixel_format", px), ("hardware_acceleration", hw), ("video_bitrate", vb), ("audio_bitrate", ab), ("max_bitrate", mb), ("buffer_size", bs), ("width", wh.1), ("height", wh.2), ("fps", fp), ("crf", cf), ("gop_size", gp), ("b_frames", bf), ("two_pass", tp), ("tune", tn), ("level", lv), ("encoder", en), ("ref_frames", rf), ("rc_lookahead", rc), ("sc_threshold", sc), ("audio_sample_rate", sr), ("audio_channels", ch)]) "sc_threshold" = sc := by
    rw [dget_cons, if_neg (by decide)]
    exact dget_dmk_at ([("video_codec", vc), ("audio_codec", ac), ("preset", pr), ("profile", pf), ("pixel_format", px), ("hardware_acceleration", hw), ("video_bitrate", vb), ("audio_bitrate", ab), ("max_bitrate", mb), ("buffer_size", bs), ("width", wh.1), ("height", wh.2), ("fps", fp), ("crf", cf), ("gop_size", gp), ("b_frames", bf), ("two_pass", tp), ("tune", tn), ("level", lv), ("encoder", en), ("ref_frames", rf), ("rc_lookahead", rc)])
      ([("audio_sample_rate", sr), ("audio_channels", ch)]) (by simp) (by simp)
  have hg_audio_sample_rate : dget (("type", vStr "transcode") :: dmk
      [("video_codec", vc), ("audio_codec", ac), ("preset", pr), ("profile", pf), ("pixel_format", px), ("hardware_acceleration", hw), ("video_bitrate", vb), ("audio_bitrate", ab), ("max_bitrate", mb), ("buffer_size", bs), ("width", wh.1), ("height", wh.2), ("fps", fp), ("crf", cf), ("gop_size", gp), ("b_frames", bf), ("two_pass", tp), ("tune", tn), ("level", lv), ("encoder", en), ("ref_frames", rf), ("rc_lookahead", rc), ("sc_threshold", sc), ("audio_sample_rate", sr), ("audio_channels", ch)]) "audio_sample_rate" = sr := by
    rw [dget_cons, if_neg (by decide)]
    exact dget_dmk_at ([("video_codec", vc), ("audio_codec", ac), ("preset", pr), ("profile", pf), ("pixel_format", px), ("hardware_acceleration", hw), ("video_bitrate", vb), ("audio_bitrate", ab), ("max_bitrate", mb), ("buffer_size", bs), ("width", wh.1), ("height", wh.2), ("fps", fp), ("crf", cf), ("gop_size", gp), ("b_frames", bf), ("two_pass", tp), ("tune", tn), ("level", lv), ("encoder", en), ("ref_frames", rf), ("rc_lookahead", rc), ("sc_threshold", sc)])
      ([("audio_channels", ch)]) (by simp) (by simp)
  have hg_audio_channels : dget (("type", vStr "transcode") :: dmk
      [("video_codec", vc), ("audio_codec", ac), ("preset", pr), ("profile", pf), ("pixel_format", px), ("hardware_acceleration", hw), ("video_bitrate", vb), ("audio_bitrate", ab), ("max_bitrate", mb), ("buffer_size", bs), ("width", wh.1), ("height", wh.2), ("fps", fp), ("crf", cf), ("gop_size", gp), ("b_frames", bf), ("two_pass", tp), ("tune", tn), ("level", lv), ("encoder", en), ("ref_frames", rf), ("rc_lookahead", rc), ("sc_threshold", sc), ("audio_sample_rate", sr), ("audio_channels", ch)]) "audio_channels" = ch := by
    rw [dget_cons, if_neg (by decide)]
    exact dget_dmk_at ([("video_codec", vc), ("audio_codec", ac), ("preset", pr), ("profile", pf), ("pixel_format", px), ("hardware_acceleration", hw), ("video_bitrate", vb), ("audio_bitrate", ab), ("max_bitrate", mb), ("buffer_size", bs), ("width", wh.1), ("height", wh.2), ("fps", fp), ("crf", cf), ("gop_size", gp), ("b_frames", bf), ("two_pass", tp), ("tune", tn), ("level", lv), ("encoder", en), ("ref_frames", rf), ("rc_lookahead", rc), ("sc_threshold", sc), ("audio_sample_rate", sr)])
      ([]) (by simp) (by simp)
  have hg_pix_fmt : dget (("type", vStr "transcode") :: dmk
      [("video_codec", vc), ("audio_codec", ac), ("preset", pr), ("profile", pf), ("pixel_format", px), ("hardware_acceleration", hw), ("video_bitrate", vb), ("audio_bitrate", ab), ("max_bitrate", mb), ("buffer_size", bs), ("width", wh.1), ("height", wh.2), ("fps", fp), ("crf", cf), ("gop_size", gp), ("b_frames", bf), ("two_pass", tp), ("tune", tn), ("level", lv), ("encoder", en), ("ref_frames", rf), ("rc_lookahead", rc), ("sc_threshold", sc), ("audio_sample_rate", sr), ("audio_channels", ch)]) "pix_fmt" = none := by
    rw [dget_cons, if_neg (by decide)]
    exact dget_dmk_none (by simp)
  have hg_hw_accel : dget (("type", vStr "transcode") :: dmk
      [("video_codec", vc), ("audio_codec", ac), ("preset", pr), ("profile", pf), ("pixel_format", px), ("hardware_acceleration", hw), ("video_bitrate", vb), ("audio_bitrate", ab), ("max_bitrate", mb), ("buffer_size", bs), ("width", wh.1), ("height", wh.2), ("fps", fp), ("crf", cf), ("gop_size", gp), ("b_frames", bf), ("two_pass", tp), ("tune", tn), ("level", lv), ("encoder", en), ("ref_frames", rf), ("rc_lookahead", rc), ("sc_threshold", sc), ("audio_sample_rate", sr), ("audio_channels", ch)]) "hw_accel" = none := by
    rw [dget_cons, if_neg (by decide)]
    exact dget_dmk_none (by simp)
  have hg_keyint : dget (("type", vStr "transcode") :: dmk
      [("video_codec", vc), ("audio_codec", ac), ("preset", pr), ("profile", pf), ("pixel_format", px), ("hardware_acceleration", hw), ("video_bitrate", vb), ("audio_bitrate", ab), ("max_bitrate", mb), ("buffer_size", bs), ("width", wh.1), ("height", wh.2), ("fps", fp), ("crf", cf), ("gop_size", gp), ("b_frames", bf), ("two_pass", tp), ("tune", tn), ("level", lv), ("encoder", en), ("ref_frames", rf), ("rc_lookahead", rc), ("sc_threshold", sc), ("audio_sample_rate", sr), ("audio_channels", ch)]) "keyint" = none := by
    rw [dget_cons, if_neg (by decide)]
    exact dget_dmk_none (by simp)
  have hg_bframes : dget (("type", vStr "transcode") :: dmk
      [("video_codec", vc), ("audio_codec", ac), ("preset", pr), ("profile", pf), ("pixel_format", px), ("hardware_acceleration", hw), ("video_bitrate", vb), ("audio_bitrate", ab), ("max_bitrate", mb), ("buffer_size", bs), ("width", wh.1), ("height", wh.2), ("fps", fp), ("crf", cf), ("gop_size", gp), ("b_frames", bf), ("two_pass", tp), ("tune", tn), ("level", lv), ("encoder", en), ("ref_frames", rf), ("rc_lookahead", rc), ("sc_threshold", sc), ("audio_sample_rate", sr), ("audio_channels", ch)]) "bframes" = none := by
    rw [dget_cons, if_neg (by decide)]
    exact dget_dmk_none (by simp)
  have hg_refs : dget (("type", vStr "transcode") :: dmk
      [("video_codec", vc), ("audio_codec", ac), ("preset", pr), ("profile", pf), ("pixel_format", px), ("hardware_acceleration", hw), ("video_bitrate", vb), ("audio_bitrate", ab), ("max_bitrate", mb), ("buffer_size", bs), ("width", wh.1), ("height", wh.2), ("fps", fp), ("crf", cf), ("gop_size", gp), ("b_frames", bf), ("two_pass", tp), ("tune", tn), ("level", lv), ("encoder", en), ("ref_frames", rf), ("rc_lookahead", rc), ("sc_threshold", sc), ("audio_sample_rate", sr), ("audio_channels", ch)]) "refs" = none := by
    rw [dget_cons, if_neg (by decide)]
    exact dget_dmk_none (by simp)
  have htr : ∀ v, bf = some v → truthy v = true :=
    fun v hv => hbf v (hg_b_frames.trans hv)
  unfold validate_transcode_operation
  rw [hg_video_codec, hg_audio_codec, hg_preset, hg_profile, hg_pixel_format, hg_hardware_acceleration, hg_video_bitrate, hg_audio_bitrate, hg_max_bitrate, hg_buffer_size, hg_width, hg_height, hg_fps, hg_crf, hg_gop_size, hg_b_frames, hg_two_pass, hg_tune, hg_level, hg_encoder, hg_ref_frames, hg_rc_lookahead, hg_sc_threshold, hg_audio_sample_rate, hg_audio_channels, hg_pix_fmt, hg_hw_accel, hg_keyint, hg_bframes, hg_refs]
  rw [ebind_ok]
  refine ⟨vc, strMemField_fix hvc, ?_⟩
  rw [ebind_ok]
  refine ⟨ac, strMemField_fix hac, ?_⟩
  rw [ebind_ok]
  refine ⟨pr, strMemField_fix hpr, ?_⟩
  rw [ebind_ok]
  refine ⟨pf, strMemField_fix hpf, ?_⟩
  rw [ebind_ok]
  refine ⟨px, aliasMemField_fix (by decide) hpx, ?_⟩
  rw [ebind_ok]
  refine ⟨hw, aliasMemField_fix (by decide) hhw, ?_⟩
  rw [ebind_ok]
  refine ⟨vb, optBitrate_fix hvb, ?_⟩
  rw [ebind_ok]
  refine ⟨ab, optBitrate_fix hab, ?_⟩
  rw [ebind_ok]
  refine ⟨mb, optBitrate_fix hmb, ?_⟩
  rw [ebind_ok]
  refine ⟨bs, optBitrate_fix hbs, ?_⟩
  rw [ebind_ok]
  refine ⟨wh, tcResolution_fix hwh, ?_⟩
  rw [ebind_ok]
  refine ⟨fp, tcFps_fix hfp, ?_⟩
  rw [ebind_ok]
  refine ⟨cf, tcCrf_fix hcf, ?_⟩
  rw [ebind_ok]
  refine ⟨gp, aliasIntRange_fix hgp (fun v hv => aliasIntRange_truthy_of_pos (by norm_num) (hv ▸ hgp)), ?_⟩
  rw [ebind_ok]
  refine ⟨bf, aliasIntRange_fix hbff htr, ?_⟩
  rw [ebind_ok]
  refine ⟨tp, tcTwoPass_fix htp, ?_⟩
  rw [ebind_ok]
  refine ⟨tn, strMemField_fix htn, ?_⟩
  rw [ebind_ok]
  refine ⟨lv, tcLevel_fix hlv, ?_⟩
  rw [ebind_ok]
  refine ⟨en, tcEncoder_fix hen, ?_⟩
  rw [ebind_ok]
  refine ⟨rf, aliasIntRange_fix hrf (fun v hv => aliasIntRange_truthy_of_pos (by norm_num) (hv ▸ hrf)), ?_⟩
  rw [ebind_ok]
  refine ⟨rc, intRangeCopy_fix hrc, ?_⟩
  rw [ebind_ok]
  refine ⟨sc, intRangeCopy_fix hsc, ?_⟩
  rw [ebind_ok]
  refine ⟨sr, audioMemField_fix hsr, ?_⟩
  rw [ebind_ok]
  refine ⟨ch, audioMemField_fix hch, ?_⟩
  rfl


/-! ### Operation `type` of each validator output -/

theorem validate_trim_type {op w : Dict} (h : validate_trim_operation op = .ok w) :
    dget w "type" = some (vStr "trim") := by
  unfold validate_trim_operation at h
  obtain ⟨s, hs, h⟩ := ebind_ok.mp h
  obtain ⟨de, hde, h⟩ := ebind_ok.mp h
  split at h
  · cases h
  · cases h; rfl

theorem validate_watermark_type {op w : Dict}
    (h : validate_watermark_operation op = .ok w) :
    dget w "type" = some (vStr "watermark") := by
  unfold validate_watermark_operation at h
  split at h
  · cases h
  · obtain ⟨o1, h1, h⟩ := ebind_ok.mp h
    obtain ⟨o2, h2, h⟩ := ebind_ok.mp h
    cases h; rfl

theorem validate_filter_type {op w : Dict}
    (h : validate_filter_operation op = .ok w) :
    dget w "type" = some (vStr "filter") := by
  unfold validate_filter_operation at h
  obtain ⟨val, hval, h⟩ := ebind_ok.mp h
  obtain ⟨u1, hu1, h⟩ := ebind_ok.mp h
  obtain ⟨u2, hu2, h⟩ := ebind_ok.mp h
  obtain ⟨u3, hu3, h⟩ := ebind_ok.mp h
  obtain ⟨u4, hu4, h⟩ := ebind_ok.mp h
  cases h
  split at hval
  · split at hval
    · cases hval; rfl
    · cases hval
  · cases hval; rfl

theorem validate_stream_type {op w : Dict}
    (h : validate_stream_operation op = .ok w) :
    dget w "type" = some (vStr "stream") := by
  unfold validate_stream_operation at h
  obtain ⟨fmt, hf, h⟩ := ebind_ok.mp h
  split at h
  · cases h
  · obtain ⟨sd, hsd, h⟩ := ebind_ok.mp h
    cases h; rfl

theorem validate_scale_type {op w : Dict}
    (h : validate_scale_operation op = .ok w) :
    dget w "type" = some (vStr "scale") := by
  unfold validate_scale_operation at h
  obtain ⟨a, h1, h⟩ := ebind_ok.mp h
  obtain ⟨b, h2, h⟩ := ebind_ok.mp h
  obtain ⟨c, h3, h⟩ := ebind_ok.mp h
  cases h; rfl

theorem validate_crop_type {op w : Dict}
    (h : validate_crop_operation op = .ok w) :
    dget w "type" = some (vStr "crop") := by
  unfold validate_crop_operation at h
  obtain ⟨a, h1, h⟩ := ebind_ok.mp h
  obtain ⟨b, h2, h⟩ := ebind_ok.mp h
  obtain ⟨c, h3, h⟩ := ebind_ok.mp h
  obtain ⟨d, h4, h⟩ := ebind_ok.mp h
  cases h; rfl

theorem validate_rotate_type {op w : Dict}
    (h : validate_rotate_operation op = .ok w) :
    dget w "type" = some (vStr "rotate") := by
  unfold validate_rotate_operation at h
  obtain ⟨a, h1, h⟩ := ebind_ok.mp h
  cases h; rfl

theorem validate_flip_type {op w : Dict}
    (h : validate_flip_operation op = .ok w) :
    dget w "type" = some (vStr "flip") := by
  unfold validate_flip_operation at h
  split at h
  · cases h
  · cases h; rfl

theorem validate_audio_type {op w : Dict}
    (h : validate_audio_operation op = .ok w) :
    dget w "type" = some (vStr "audio") := by
  unfold validate_audio_operation at h
  obtain ⟨a, h1, h⟩ := ebind_ok.mp h
  obtain ⟨b, h2, h⟩ := ebind_ok.mp h
  obtain ⟨c, h3, h⟩ := ebind_ok.mp h
  obtain ⟨d, h4, h⟩ := ebind_ok.mp h
  cases h; rfl

theorem validate_subtitle_type {op w : Dict}
    (h : validate_subtitle_operation op = .ok w) :
    dget w "type" = some (vStr "subtitle") := by
  unfold validate_subtitle_operation at h
  split at h
  · cases h
  · split at h
    · split at h
      · cases h; rfl
      · cases h
    · cases h

theorem validate_concat_type {op w : Dict}
    (h : validate_concat_operation op = .ok w) :
    dget w "type" = some (vStr "concat") := by
  unfold validate_concat_operation at h
  split at h
  · cases h
  · split at h
    · split at h
      · cases h
      · split at h
        · cases h
        · split at h
          · cases h
          · cases h; rfl
    · cases h

theorem validate_thumbnail_type {op w : Dict}
    (h : validate_thumbnail_operation op = .ok w) :
    dget w "type" = some (vStr "thumbnail") := by
  unfold validate_thumbnail_operation at h
  split at h
  · cases h
  · obtain ⟨tm, h1, h⟩ := ebind_ok.mp h
    obtain ⟨cnt, h2, h⟩ := ebind_ok.mp h
    obtain ⟨itv, h3, h⟩ := ebind_ok.mp h
    obtain ⟨wd, h4, h⟩ := ebind_ok.mp h
    obtain ⟨ht, h5, h⟩ := ebind_ok.mp h
    obtain ⟨ql, h6, h⟩ := ebind_ok.mp h
    obtain ⟨sp, h7, h⟩ := ebind_ok.mp h
    obtain ⟨sf, h8, h⟩ := ebind_ok.mp h
    cases h; rfl

theorem validate_transcode_type {op w : Dict}
    (h : validate_transcode_operation op = .ok w) :
    dget w "type" = some (vStr "transcode") := by
  unfold validate_transcode_operation at h
  obtain ⟨vc, hvc, h⟩ := ebind_ok.mp h
  obtain ⟨ac, hac, h⟩ := ebind_ok.mp h
  obtain ⟨pr, hpr, h⟩ := ebind_ok.mp h
  obtain ⟨pf, hpf, h⟩ := ebind_ok.mp h
  obtain ⟨px, hpx, h⟩ := ebind_ok.mp h
  obtain ⟨hw, hhw, h⟩ := ebind_ok.mp h
  obtain ⟨vb, hvb, h⟩ := ebind_ok.mp h
  obtain ⟨ab, hab, h⟩ := ebind_ok.mp h
  obtain ⟨mb, hmb, h⟩ := ebind_ok.mp h
  obtain ⟨bs, hbs, h⟩ := ebind_ok.mp h
  obtain ⟨wh, hwh, h⟩ := ebind_ok.mp h
  obtain ⟨fp, hfp, h⟩ := ebind_ok.mp h
  obtain ⟨cf, hcf, h⟩ := ebind_ok.mp h
  obtain ⟨gp, hgp, h⟩ := ebind_ok.mp h
  obtain ⟨bf, hbf, h⟩ := ebind_ok.mp h
  obtain ⟨tp, htp, h⟩ := ebind_ok.mp h
  obtain ⟨tn, htn, h⟩ := ebind_ok.mp h
  obtain ⟨lv, hlv, h⟩ := ebind_ok.mp h
  obtain ⟨en, hen, h⟩ := ebind_ok.mp h
  obtain ⟨rf, hrf, h⟩ := ebind_ok.mp h
  obtain ⟨rc, hrc, h⟩ := ebind_ok.mp h
  obtain ⟨sc, hsc, h⟩ := ebind_ok.mp h
  obtain ⟨sr, hsr, h⟩ := ebind_ok.mp h
  obtain ⟨ch, hch, h⟩ := ebind_ok.mp h
  cases h; rfl


/-! ### `validate_operations` (validators.py): dispatch loop, codec/container
compatibility and resource limits -/

/-- The operation-type regex `^[a-zA-Z_]+$` of `validate_operations`. -/
def opTypeOk (s : String) : Bool :=
  !s.data.isEmpty && s.data.all (fun c =>
    ('a' ≤ c && c ≤ 'z') || ('A' ≤ c && c ≤ 'Z') || c = '_')

/-- One iteration of the dispatch loop of `validate_operations` (`i` is the
loop index, used only in error messages). -/
def validate_one_op (i : ℕ) (v : Val) : Except String Dict :=
  match v with
  | vDict op =>
      match dget op "type" with
      | none => .error ("Operation " ++ natDec i ++ " missing type field")
      | some t =>
          match t with
          | vStr ty =>
              if ¬ opTypeOk ty then .error ("Invalid operation type format: " ++ ty)
              else if ty = "trim" then validate_trim_operation op
              else if ty = "watermark" then validate_watermark_operation op
              else if ty = "filter" then validate_filter_operation op
              else if ty = "stream" ∨ ty = "streaming" then validate_stream_operation op
              else if ty = "transcode" then validate_transcode_operation op
              else if ty = "scale" then validate_scale_operation op
              else if ty = "crop" then validate_crop_operation op
              else if ty = "rotate" then validate_rotate_operation op
              else if ty = "flip" then validate_flip_operation op
              else if ty = "audio" then validate_audio_operation op
              else if ty = "subtitle" then validate_subtitle_operation op
              else if ty = "concat" then validate_concat_operation op
              else if ty = "thumbnail" then validate_thumbnail_operation op
              else .error ("Unknown operation type: " ++ ty)
          | _ => .error ("Operation " ++ natDec i ++ " type must be a string")
  | _ => .error ("Operation " ++ natDec i ++ " must be a dictionary")

/-- The `for i, op in enumerate(operations)` loop of `validate_operations`. -/
def validate_ops_from (i : ℕ) : List Val → Except String (List Dict)
  | [] => .ok []
  | v :: rest =>
      validate_one_op i v >>= fun d =>
      validate_ops_from (i + 1) rest >>= fun ds =>
      .ok (d :: ds)

/-- `CODEC_CONTAINER_COMPATIBILITY`: container to (video codecs, audio
codecs). -/
def compatTable : List (String × List String × List String) :=
  [("mp4", (["h264", "h265", "hevc", "libx264", "libx265"], ["aac", "mp3"])),
   ("mkv", (["h264", "h265", "hevc", "vp8", "vp9", "av1"],
            ["aac", "ac3", "opus", "flac"])),
   ("webm", (["vp8", "vp9"], ["opus", "vorbis"])),
   ("avi", (["h264", "libx264"], ["mp3", "ac3"])),
   ("mov", (["h264", "h265", "libx264"], ["aac"]))]

/-- Container lookup in the compatibility table. -/
def compatFind (fmt : String) : Option (List String × List String) :=
  (compatTable.find? (fun e => e.1 == fmt)).map (fun e => e.2)

/-- Is the dict an operation of the given `type` (`op.get("type") == s`)? -/
def typeIs (op : Dict) (s : String) : Bool :=
  match dget op "type" with
  | some t => strEq t s
  | none => false

/-- The per-operation body of `validate_codec_container_compatibility`:
only transcode operations carrying a `format` key are checked. -/
def compatCheckOp (op : Dict) : Except String Unit :=
  if typeIs op "transcode" then
    match dget op "format" with
    | none => .ok ()
    | some f =>
        pyLower f >>= fun fmt =>
        match compatFind fmt with
        | none => .ok ()
        | some compat =>
            if (match dget op "video_codec" with
                | some vc => truthy vc && !(memStr vc compat.1)
                | none => false) then
              .error "Video codec incompatible with container"
            else if (match dget op "audio_codec" with
                | some ac => truthy ac && !(memStr ac compat.2)
                | none => false) then
              .error "Audio codec incompatible with container"
            else .ok ()
  else .ok ()

/-- `validate_codec_container_compatibility` from validators.py. -/
def validate_codec_container_compatibility : List Dict → Except String Unit
  | [] => .ok ()
  | op :: rest =>
      compatCheckOp op >>= fun _ => validate_codec_container_compatibility rest

/-- Last character test (`s.endswith(c)` for a one-character suffix). -/
def endsWithChar (s : String) (c : Char) : Bool :=
  match s.data.getLast? with
  | some d => d = c
  | none => false

/-- Python `int(s)` on a string (optional sign, decimal digits). -/
def strInt (s : String) : Except String ℤ :=
  match s.data with
  | '-' :: rest =>
      if isDigitStr (String.mk rest) then .ok (-(natOfDigits (String.mk rest) : ℤ))
      else .error ("invalid literal for int: " ++ s)
  | _ =>
      if isDigitStr s then .ok ((natOfDigits s : ℕ) : ℤ)
      else .error ("invalid literal for int: " ++ s)

/-- The `video_bitrate` block of `validate_resource_limits` (`int(...)` and
`>` on non-numbers raise, modelled as errors). -/
def rlVideoBitrate (x : Option Val) : Except String Unit :=
  match x with
  | none => .ok ()
  | some v =>
      if ¬ truthy v then .ok ()
      else match v with
        | vStr s =>
            if endsWithChar (strLower s) 'm' then
              strInt (String.mk s.data.dropLast) >>= fun n =>
              if n > 100 then .error "Video bitrate too high" else .ok ()
            else .ok ()
        | _ =>
            match asNum v with
            | some q => if q > 100000000 then .error "Video bitrate too high" else .ok ()
            | none => .ok ()

/-- The `fps` block of `validate_resource_limits`. -/
def rlFps (x : Option Val) : Except String Unit :=
  match x with
  | none => .ok ()
  | some v =>
      if ¬ truthy v then .ok ()
      else match asNum v with
        | some q => if q > 120 then .error "Frame rate too high" else .ok ()
        | none => .error "unsupported comparison"

/-- The `crf` block of `validate_resource_limits` (`crf < 5` only logs a
warning, so only negativity is an error). -/
def rlCrf (x : Option Val) : Except String Unit :=
  match x with
  | none => .ok ()
  | some vNone => .ok ()
  | some v =>
      match asNum v with
      | some q => if q < 0 then .error "CRF cannot be negative" else .ok ()
      | none => .error "unsupported comparison"

/-- One streaming variant of the `stream` block (`"bitrate" in variant` and
the subsequent indexing raise on non-dict variants). -/
def rlVariant (v : Val) : Except String Unit :=
  match v with
  | vDict d =>
      match dget d "bitrate" with
      | none => .ok ()
      | some bv =>
          match bv with
          | vStr s =>
              if endsWithChar (strLower s) 'm' then
                strInt (String.mk s.data.dropLast) >>= fun n =>
                if n > 50 then .error "Variant bitrate too high" else .ok ()
              else .ok ()
          | _ => .ok ()
  | vStr s =>
      if ("bitrate".data <:+: s.data) then .error "string indices must be integers"
      else .ok ()
  | vList l =>
      if l.any (fun e => strEq e "bitrate") then .error "list indices must be integers"
      else .ok ()
  | _ => .error "argument is not iterable"

/-- The variant loop of the `stream` block. -/
def rlVariants : List Val → Except String Unit
  | [] => .ok ()
  | v :: rest => rlVariant v >>= fun _ => rlVariants rest

/-- The `stream` block of `validate_resource_limits`. -/
def rlStream (op : Dict) : Except String Unit :=
  match (dget op "variants").getD (vList []) with
  | vList vs =>
      if vs.length > 10 then .error "Too many streaming variants"
      else rlVariants vs
  | _ => .error "object has no length"

/-- The per-operation body of `validate_resource_limits` (the `filter`
branch only logs a warning). -/
def rlOp (op : Dict) : Except String Unit :=
  if typeIs op "transcode" then
    rlVideoBitrate (dget op "video_bitrate") >>= fun _ =>
    rlFps (dget op "fps") >>= fun _ =>
    rlCrf (dget op "crf")
  else if typeIs op "stream" then rlStream op
  else .ok ()

/-- `validate_resource_limits` from validators.py. -/
def validate_resource_limits : List Dict → Except String Unit
  | [] => .ok ()
  | op :: rest => rlOp op >>= fun _ => validate_resource_limits rest

/-- `validate_operations` from validators.py
(`settings.MAX_OPERATIONS_PER_JOB = 50` from api/config.py). -/
def validate_operations (ops : List Val) : Except String (List Dict) :=
  if ops.isEmpty then .ok []
  else if ops.length > 50 then .error "Too many operations specified (maximum 50)"
  else
    validate_ops_from 0 ops >>= fun validated =>
    validate_codec_container_compatibility validated >>= fun _ =>
    validate_resource_limits validated >>= fun _ =>
    .ok validated


/-- Re-dispatching a canonical operation dict lands on the same validator
and is stable, provided its canonical `b_frames` value (if any) is
truthy. -/
theorem validate_one_op_fix {i j : ℕ} {v : Val} {w : Dict}
    (h : validate_one_op i v = .ok w)
    (hbf : ∀ u, dget w "b_frames" = some u → truthy u = true) :
    validate_one_op j (vDict w) = .ok w := by
  unfold validate_one_op at h
  split at h
  · split at h
    · cases h
    · split at h
      · rename_i ty hteq
        by_cases hok : ¬ opTypeOk ty
        · rw [if_pos hok] at h; cases h
        · rw [if_neg hok] at h
          by_cases hc1 : ty = "trim"
          · rw [if_pos hc1] at h
            have hty := validate_trim_type h
            simp only [validate_one_op, hty]
            rw [if_neg (by decide)]
            rw [if_pos (by decide)]
            exact validate_trim_fix h
          · rw [if_neg hc1] at h
            by_cases hc2 : ty = "watermark"
            · rw [if_pos hc2] at h
              have hty := validate_watermark_type h
              simp only [validate_one_op, hty]
              rw [if_neg (by decide)]
              rw [if_neg (by decide)]
              rw [if_pos (by decide)]
              exact validate_watermark_fix h
            · rw [if_neg hc2] at h
              by_cases hc3 : ty = "filter"
              · rw [if_pos hc3] at h
                have hty := validate_filter_type h
                simp only [validate_one_op, hty]
                rw [if_neg (by decide)]
                rw [if_neg (by decide)]
                rw [if_neg (by decide)]
                rw [if_pos (by decide)]
                exact validate_filter_fix h
              · rw [if_neg hc3] at h
                by_cases hc4 : ty = "stream" ∨ ty = "streaming"
                · rw [if_pos hc4] at h
                  have hty := validate_stream_type h
                  simp only [validate_one_op, hty]
                  rw [if_neg (by decide)]
                  rw [if_neg (by decide)]
                  rw [if_neg (by decide)]
                  rw [if_neg (by decide)]
                  rw [if_pos (by decide)]
                  exact validate_stream_fix h
                · rw [if_neg hc4] at h
                  by_cases hc5 : ty = "transcode"
                  · rw [if_pos hc5] at h
                    have hty := validate_transcode_type h
                    simp only [validate_one_op, hty]
                    rw [if_neg (by decide)]
                    rw [if_neg (by decide)]
                    rw [if_neg (by decide)]
                    rw [if_neg (by decide)]
                    rw [if_neg (by decide)]
                    rw [if_pos (by decide)]
                    exact validate_transcode_fix h hbf
                  · rw [if_neg hc5] at h
                    by_cases hc6 : ty = "scale"
                    · rw [if_pos hc6] at h
                      have hty := validate_scale_type h
                      simp only [validate_one_op, hty]
                      rw [if_neg (by decide)]
                      rw [if_neg (by decide)]
                      rw [if_neg (by decide)]
                      rw [if_neg (by decide)]
                      rw [if_neg (by decide)]
                      rw [if_neg (by decide)]
                      rw [if_pos (by decide)]
                      exact validate_scale_fix h
                    · rw [if_neg hc6] at h
                      by_cases hc7 : ty = "crop"
                      · rw [if_pos hc7] at h
                        have hty := validate_crop_type h
                        simp only [validate_one_op, hty]
                        rw [if_neg (by decide)]
                        rw [if_neg (by decide)]
                        rw [if_neg (by decide)]
                        rw [if_neg (by decide)]
                        rw [if_neg (by decide)]
                        rw [if_neg (by decide)]
                        rw [if_neg (by decide)]
                        rw [if_pos (by decide)]
                        exact validate_crop_fix h
                      · rw [if_neg hc7] at h
                        by_cases hc8 : ty = "rotate"
                        · rw [if_pos hc8] at h
                          have hty := validate_rotate_type h
                          simp only [validate_one_op, hty]
                          rw [if_neg (by decide)]
                          rw [if_neg (by decide)]
                          rw [if_neg (by decide)]
                          rw [if_neg (by decide)]
                          rw [if_neg (by decide)]
                          rw [if_neg (by decide)]
                          rw [if_neg (by decide)]
                          rw [if_neg (by decide)]
                          rw [if_pos (by decide)]
                          exact validate_rotate_fix h
                        · rw [if_neg hc8] at h
                          by_cases hc9 : ty = "flip"
                          · rw [if_pos hc9] at h
                            have hty := validate_flip_type h
                            simp only [validate_one_op, hty]
                            rw [if_neg (by decide)]
                            rw [if_neg (by decide)]
                            rw [if_neg (by decide)]
                            rw [if_neg (by decide)]
                            rw [if_neg (by decide)]
                            rw [if_neg (by decide)]
                            rw [if_neg (by decide)]
                            rw [if_neg (by decide)]
                            rw [if_neg (by decide)]
                            rw [if_pos (by decide)]
                            exact validate_flip_fix h
                          · rw [if_neg hc9] at h
                            by_cases hc10 : ty = "audio"
                            · rw [if_pos hc10] at h
                              have hty := validate_audio_type h
                              simp only [validate_one_op, hty]
                              rw [if_neg (by decide)]
                              rw [if_neg (by decide)]
                              rw [if_neg (by decide)]
                              rw [if_neg (by decide)]
                              rw [if_neg (by decide)]
                              rw [if_neg (by decide)]
                              rw [if_neg (by decide)]
                              rw [if_neg (by decide)]
                              rw [if_neg (by decide)]
                              rw [if_neg (by decide)]
                              rw [if_pos (by decide)]
                              exact validate_audio_fix h
                            · rw [if_neg hc10] at h
                              by_cases hc11 : ty = "subtitle"
                              · rw [if_pos hc11] at h
                                have hty := validate_subtitle_type h
                                simp only [validate_one_op, hty]
                                rw [if_neg (by decide)]
                                rw [if_neg (by decide)]
                                rw [if_neg (by decide)]
                                rw [if_neg (by decide)]
                                rw [if_neg (by decide)]
                                rw [if_neg (by decide)]
                                rw [if_neg (by decide)]
                                rw [if_neg (by decide)]
                                rw [if_neg (by decide)]
                                rw [if_neg (by decide)]
                                rw [if_neg (by decide)]
                                rw [if_pos (by decide)]
                                exact validate_subtitle_fix h
                              · rw [if_neg hc11] at h
                                by_cases hc12 : ty = "concat"
                                · rw [if_pos hc12] at h
                                  have hty := validate_concat_type h
                                  simp only [validate_one_op, hty]
                                  rw [if_neg (by decide)]
                                  rw [if_neg (by decide)]
                                  rw [if_neg (by decide)]
                                  rw [if_neg (by decide)]
                                  rw [if_neg (by decide)]
                                  rw [if_neg (by decide)]
                                  rw [if_neg (by decide)]
                                  rw [if_neg (by decide)]
                                  rw [if_neg (by decide)]
                                  rw [if_neg (by decide)]
                                  rw [if_neg (by decide)]
                                  rw [if_neg (by decide)]
                                  rw [if_pos (by decide)]
                                  exact validate_concat_fix h
                                · rw [if_neg hc12] at h
                                  by_cases hc13 : ty = "thumbnail"
                                  · rw [if_pos hc13] at h
                                    have hty := validate_thumbnail_type h
                                    simp only [validate_one_op, hty]
                                    rw [if_neg (by decide)]
                                    rw [if_neg (by decide)]
                                    rw [if_neg (by decide)]
                                    rw [if_neg (by decide)]
                                    rw [if_neg (by decide)]
                                    rw [if_neg (by decide)]
                                    rw [if_neg (by decide)]
                                    rw [if_neg (by decide)]
                                    rw [if_neg (by decide)]
                                    rw [if_neg (by decide)]
                                    rw [if_neg (by decide)]
                                    rw [if_neg (by decide)]
                                    rw [if_neg (by decide)]
                                    rw [if_pos (by decide)]
                                    exact validate_thumbnail_fix h
                                  · rw [if_neg hc13] at h; cases h
      · cases h
  · cases h

/-- The dispatch loop preserves the number of operations. -/
theorem validate_ops_from_length {i : ℕ} {l : List Val} {ws : List Dict}
    (h : validate_ops_from i l = .ok ws) : ws.length = l.length := by
  induction l generalizing i ws with
  | nil => cases h; rfl
  | cons v rest ih =>
      unfold validate_ops_from at h
      obtain ⟨d, hd, h⟩ := ebind_ok.mp h
      obtain ⟨ds, hds, h⟩ := ebind_ok.mp h
      cases h
      simp [ih hds]

/-- Re-running the dispatch loop on its own output is stable (any start
index), provided every canonical `b_frames` value is truthy. -/
theorem validate_ops_from_fix {i j : ℕ} {l : List Val} {ws : List Dict}
    (h : validate_ops_from i l = .ok ws)
    (hbf : ∀ w ∈ ws, ∀ u, dget w "b_frames" = some u → truthy u = true) :
    validate_ops_from j (ws.map vDict) = .ok ws := by
  induction l generalizing i j ws with
  | nil => cases h; rfl
  | cons v rest ih =>
      unfold validate_ops_from at h
      obtain ⟨d, hd, h⟩ := ebind_ok.mp h
      obtain ⟨ds, hds, h⟩ := ebind_ok.mp h
      cases h
      show validate_ops_from j (vDict d :: ds.map vDict) = .ok (d :: ds)
      unfold validate_ops_from
      rw [ebind_ok]
      refine ⟨d, validate_one_op_fix hd (fun u hu => hbf d (by simp) u hu), ?_⟩
      rw [ebind_ok]
      exact ⟨ds, ih hds (fun x hx => hbf x (by simp [hx])), rfl⟩

/-- Idempotence of the whole `validate_operations` pipeline, conditional on
every canonical `b_frames` value being truthy. -/
theorem validate_operations_fix {ops : List Val} {ws : List Dict}
    (h : validate_operations ops = .ok ws)
    (hbf : ∀ w ∈ ws, ∀ u, dget w "b_frames" = some u → truthy u = true) :
    validate_operations (ws.map vDict) = .ok ws := by
  unfold validate_operations at h
  split at h
  · cases h; rfl
  · rename_i hne
    split at h
    · cases h
    · rename_i hlen
      obtain ⟨validated, hval, h⟩ := ebind_ok.mp h
      obtain ⟨u1, hcompat, h⟩ := ebind_ok.mp h
      obtain ⟨u2, hres, h⟩ := ebind_ok.mp h
      cases h
      have hl := validate_ops_from_length hval
      cases hws : ws.isEmpty
      · have hwne : ws ≠ [] := by
          intro hc
          rw [hc] at hws
          cases hws
        unfold validate_operations
        rw [if_neg (by intro hc; simp at hc; exact hwne hc), if_neg (by
          simp only [List.length_map, gt_iff_lt, not_lt]
          omega)]
        rw [ebind_ok]
        refine ⟨ws, validate_ops_from_fix hval hbf, ?_⟩
        rw [ebind_ok]
        refine ⟨u1, hcompat, ?_⟩
        rw [ebind_ok]
        exact ⟨u2, hres, rfl⟩
      · have hnil : ws = [] := List.isEmpty_iff.mp hws
        subst hnil
        simp [validate_operations]

/-- Destructuring a bind that ends in an error. -/
theorem ebind_err {α β : Type} {x : Except String α} {f : α → Except String β}
    {m : String} :
    (x >>= f) = .error m ↔ x = .error m ∨ ∃ a, x = .ok a ∧ f a = .error m := by
  cases x with
  | error e =>
      constructor
      · intro h
        cases h
        exact Or.inl rfl
      · rintro (h | ⟨a, ha, _⟩)
        · cases h; rfl
        · cases ha
  | ok a =>
      constructor
      · intro h
        exact Or.inr ⟨a, rfl, h⟩
      · rintro (h | ⟨b, hb, hf⟩)
        · cases h
        · cases hb
          exact hf

/-- The canonical `type` name of a submitted operation type (only the
`streaming` alias is renamed, to `stream`). -/
def canonType (ty : String) : String :=
  if ty = "streaming" then "stream" else ty

/-- A successfully dispatched operation keeps its submitted type up to the
`streaming` alias. -/
theorem validate_one_op_type {i : ℕ} {v : Val} {w : Dict}
    (h : validate_one_op i v = .ok w) :
    ∀ d ty, v = vDict d → dget d "type" = some (vStr ty) →
      dget w "type" = some (vStr (canonType ty)) := by
  intro d ty hv hdt
  subst hv
  unfold validate_one_op at h
  simp only [hdt] at h
  by_cases hok : ¬ opTypeOk ty
  · rw [if_pos hok] at h; cases h
  · rw [if_neg hok] at h
    by_cases hc1 : ty = "trim"
    · rw [if_pos hc1] at h
      subst hc1
      exact validate_trim_type h
    · rw [if_neg hc1] at h
      by_cases hc2 : ty = "watermark"
      · rw [if_pos hc2] at h
        subst hc2
        exact validate_watermark_type h
      · rw [if_neg hc2] at h
        by_cases hc3 : ty = "filter"
        · rw [if_pos hc3] at h
          subst hc3
          exact validate_filter_type h
        · rw [if_neg hc3] at h
          by_cases hc4 : ty = "stream" ∨ ty = "streaming"
          · rw [if_pos hc4] at h
            rcases hc4 with rfl | rfl <;> exact validate_stream_type h
          · rw [if_neg hc4] at h
            by_cases hc5 : ty = "transcode"
            · rw [if_pos hc5] at h
              subst hc5
              exact validate_transcode_type h
            · rw [if_neg hc5] at h
              by_cases hc6 : ty = "scale"
              · rw [if_pos hc6] at h
                subst hc6
                exact validate_scale_type h
              · rw [if_neg hc6] at h
                by_cases hc7 : ty = "crop"
                · rw [if_pos hc7] at h
                  subst hc7
                  exact validate_crop_type h
                · rw [if_neg hc7] at h
                  by_cases hc8 : ty = "rotate"
                  · rw [if_pos hc8] at h
                    subst hc8
                    exact validate_rotate_type h
                  · rw [if_neg hc8] at h
                    by_cases hc9 : ty = "flip"
                    · rw [if_pos hc9] at h
                      subst hc9
                      exact validate_flip_type h
                    · rw [if_neg hc9] at h
                      by_cases hc10 : ty = "audio"
                      · rw [if_pos hc10] at h
                        subst hc10
                        exact validate_audio_type h
                      · rw [if_neg hc10] at h
                        by_cases hc11 : ty = "subtitle"
                        · rw [if_pos hc11] at h
                          subst hc11
                          exact validate_subtitle_type h
                        · rw [if_neg hc11] at h
                          by_cases hc12 : ty = "concat"
                          · rw [if_pos hc12] at h
                            subst hc12
                            exact validate_concat_type h
                          · rw [if_neg hc12] at h
                            by_cases hc13 : ty = "thumbnail"
                            · rw [if_pos hc13] at h
                              subst hc13
                              exact validate_thumbnail_type h
                            · rw [if_neg hc13] at h; cases h

/-- Order and type preservation of the dispatch loop. -/
theorem validate_ops_from_types {i : ℕ} {l : List Val} {ws : List Dict}
    (h : validate_ops_from i l = .ok ws) :
    ∀ k d ty, l.get? k = some (vDict d) → dget d "type" = some (vStr ty) →
      ∃ w, ws.get? k = some w ∧ dget w "type" = some (vStr (canonType ty)) := by
  induction l generalizing i ws with
  | nil =>
      cases h
      intro k d ty hk
      simp at hk
  | cons v rest ih =>
      unfold validate_ops_from at h
      obtain ⟨d0, hd0, h⟩ := ebind_ok.mp h
      obtain ⟨ds, hds, h⟩ := ebind_ok.mp h
      cases h
      intro k d ty hk hty
      cases k with
      | zero =>
          simp only [List.get?] at hk
          cases hk
          exact ⟨d0, rfl, validate_one_op_type hd0 d ty rfl hty⟩
      | succ k =>
          obtain ⟨w, hw, hwt⟩ := ih hds k d ty (by simpa using hk) hty
          exact ⟨w, by simpa using hw, hwt⟩


/-! ### Claims C7, C10 and C3 -/

/-- C7: as stated, idempotence of `validate_operations` fails; it holds
under the amendment that no canonical operation carries a falsy
`b_frames` value (`0` or `False`), which the alias read
`op.get("b_frames") or op.get("bframes")` would drop on re-validation. -/
theorem c7_validator_idempotent_unless_falsy_bframes {ops : List Val}
    {ws : List Dict} (h : validate_operations ops = .ok ws)
    (hbf : ∀ w ∈ ws, ∀ u, dget w "b_frames" = some u → truthy u = true) :
    validate_operations (ws.map vDict) = .ok ws :=
  validate_operations_fix h hbf

/-- C7 counterexample: `{"type": "transcode", "bframes": 0}` validates to a
canonical operation with `b_frames = 0`, and re-validating that canonical
output is rejected, so `validate_operations` is not idempotent. -/
theorem c7_idempotence_counterexample :
    validate_operations [vDict [("type", vStr "transcode"), ("bframes", vInt 0)]]
      = .ok [[("type", vStr "transcode"), ("b_frames", vInt 0)]] ∧
    validate_operations
        (([[("type", vStr "transcode"), ("b_frames", vInt 0)]] : List Dict).map vDict)
      = .error "B-frames must be an integer" :=
  ⟨rfl, rfl⟩

/-- C7 witness: a flip operation re-validates to itself. -/
theorem c7_idempotence_witness :
    validate_operations
        (([[("type", vStr "flip"), ("direction", vStr "horizontal")]] : List Dict).map vDict)
      = .ok [[("type", vStr "flip"), ("direction", vStr "horizontal")]] :=
  c7_validator_idempotent_unless_falsy_bframes
    (show validate_operations [vDict [("type", vStr "flip")]]
        = Except.ok [[("type", vStr "flip"), ("direction", vStr "horizontal")]] from rfl)
    (by
      intro w hw u hu
      rw [List.mem_singleton] at hw
      subst hw
      cases hu)

/-- C10: `validate_operations` preserves the shape of an accepted
submission: the canonical list has the same length, and the operation at
each index keeps its submitted type up to the `streaming` to `stream`
alias. -/
theorem c10_shape_preserved {ops : List Val} {ws : List Dict}
    (h : validate_operations ops = .ok ws) :
    ws.length = ops.length ∧
    ∀ k d ty, ops.get? k = some (vDict d) → dget d "type" = some (vStr ty) →
      ∃ w, ws.get? k = some w ∧ dget w "type" = some (vStr (canonType ty)) := by
  unfold validate_operations at h
  split at h
  · rename_i hemp
    cases h
    have hnil : ops = [] := List.isEmpty_iff.mp hemp
    subst hnil
    refine ⟨rfl, ?_⟩
    intro k d ty hk
    simp at hk
  · split at h
    · cases h
    · obtain ⟨validated, hval, h⟩ := ebind_ok.mp h
      obtain ⟨u1, hc1, h⟩ := ebind_ok.mp h
      obtain ⟨u2, hc2, h⟩ := ebind_ok.mp h
      cases h
      exact ⟨validate_ops_from_length hval, validate_ops_from_types hval⟩

/-- C10 witness: a `streaming` operation canonicalizes to type `stream` at
index 0. -/
theorem c10_shape_witness :
    ∃ w, ([[("type", vStr "stream"), ("format", vStr "hls"), ("variants", vList []),
          ("segment_duration", vInt 6)]] : List Dict).get? 0 = some w ∧
      dget w "type" = some (vStr (canonType "streaming")) :=
  (c10_shape_preserved
    (show validate_operations [vDict [("type", vStr "streaming")]]
        = Except.ok [[("type", vStr "stream"), ("format", vStr "hls"),
            ("variants", vList []), ("segment_duration", vInt 6)]] from rfl)).2
    0 [("type", vStr "streaming")] "streaming" rfl rfl

/-- C3: a transcode operation with integer `crf` is accepted exactly when
`0 ≤ crf ≤ 51`; in particular `crf` below 5 without `allow_lossless` is
accepted (the resource-limit check only logs a warning), amending the
claim's first part. -/
theorem c3_crf_acceptance (c : ℤ) :
    (0 ≤ c → c ≤ 51 →
      validate_operations [vDict [("type", vStr "transcode"), ("crf", vInt c)]]
        = .ok [[("type", vStr "transcode"), ("crf", vInt c)]]) ∧
    (c < 0 ∨ 51 < c →
      validate_operations [vDict [("type", vStr "transcode"), ("crf", vInt c)]]
        = .error "CRF out of valid range (0-51)") := by
  constructor
  · intro h0 h51
    have hcrf : tcCrf (some (vInt c)) = .ok (some (vInt c)) := by
      have hq : ¬((c : ℚ) < 0 ∨ (c : ℚ) > 51) := by
        push_neg
        exact ⟨by exact_mod_cast h0, by exact_mod_cast h51⟩
      simp only [tcCrf, asNum]
      rw [if_neg hq, ratTrunc_intCast]
    have htc : validate_transcode_operation
        [("type", vStr "transcode"), ("crf", vInt c)]
        = .ok [("type", vStr "transcode"), ("crf", vInt c)] := by
      unfold validate_transcode_operation
      rw [ebind_ok]; refine ⟨none, rfl, ?_⟩
      rw [ebind_ok]; refine ⟨none, rfl, ?_⟩
      rw [ebind_ok]; refine ⟨none, rfl, ?_⟩
      rw [ebind_ok]; refine ⟨none, rfl, ?_⟩
      rw [ebind_ok]; refine ⟨none, rfl, ?_⟩
      rw [ebind_ok]; refine ⟨none, rfl, ?_⟩
      rw [ebind_ok]; refine ⟨none, rfl, ?_⟩
      rw [ebind_ok]; refine ⟨none, rfl, ?_⟩
      rw [ebind_ok]; refine ⟨none, rfl, ?_⟩
      rw [ebind_ok]; refine ⟨none, rfl, ?_⟩
      rw [ebind_ok]; refine ⟨(none, none), rfl, ?_⟩
      rw [ebind_ok]; refine ⟨none, rfl, ?_⟩
      rw [ebind_ok]; refine ⟨some (vInt c), hcrf, ?_⟩
      rw [ebind_ok]; refine ⟨none, rfl, ?_⟩
      rw [ebind_ok]; refine ⟨none, rfl, ?_⟩
      rw [ebind_ok]; refine ⟨none, rfl, ?_⟩
      rw [ebind_ok]; refine ⟨none, rfl, ?_⟩
      rw [ebind_ok]; refine ⟨none, rfl, ?_⟩
      rw [ebind_ok]; refine ⟨none, rfl, ?_⟩
      rw [ebind_ok]; refine ⟨none, rfl, ?_⟩
      rw [ebind_ok]; refine ⟨none, rfl, ?_⟩
      rw [ebind_ok]; refine ⟨none, rfl, ?_⟩
      rw [ebind_ok]; refine ⟨none, rfl, ?_⟩
      rw [ebind_ok]; refine ⟨none, rfl, ?_⟩
      rfl
    unfold validate_operations
    rw [if_neg (by simp), if_neg (by simp)]
    rw [ebind_ok]
    refine ⟨[[("type", vStr "transcode"), ("crf", vInt c)]], ?_, ?_⟩
    · unfold validate_ops_from
      rw [ebind_ok]
      refine ⟨[("type", vStr "transcode"), ("crf", vInt c)], ?_, ?_⟩
      · have hdt : dget [("type", vStr "transcode"), ("crf", vInt c)] "type"
            = some (vStr "transcode") := rfl
        simp only [validate_one_op, hdt]
        rw [if_neg (by decide), if_neg (by decide), if_neg (by decide),
          if_neg (by decide), if_neg (by decide), if_pos trivial]
        exact htc
      · rw [ebind_ok]
        exact ⟨[], rfl, rfl⟩
    · rw [ebind_ok]
      refine ⟨(), rfl, ?_⟩
      rw [ebind_ok]
      refine ⟨(), ?_, rfl⟩
      unfold validate_resource_limits
      rw [ebind_ok]
      refine ⟨(), ?_, rfl⟩
      unfold rlOp
      rw [if_pos (show typeIs [("type", vStr "transcode"), ("crf", vInt c)]
        "transcode" = true from rfl)]
      rw [ebind_ok]
      refine ⟨(), rfl, ?_⟩
      rw [ebind_ok]
      refine ⟨(), rfl, ?_⟩
      have hrl : rlCrf (some (vInt c)) = .ok () := by
        simp only [rlCrf, asNum]
        rw [if_neg (not_lt.mpr (by exact_mod_cast h0))]
      exact hrl
  · intro hout
    have hcrf : tcCrf (some (vInt c))
        = .error "CRF out of valid range (0-51)" := by
      have hq : (c : ℚ) < 0 ∨ (c : ℚ) > 51 := by
        rcases hout with h | h
        · exact Or.inl (by exact_mod_cast h)
        · exact Or.inr (by exact_mod_cast h)
      simp only [tcCrf, asNum]
      rw [if_pos hq]
    have htc : validate_transcode_operation
        [("type", vStr "transcode"), ("crf", vInt c)]
        = .error "CRF out of valid range (0-51)" := by
      unfold validate_transcode_operation
      rw [ebind_err]; refine Or.inr ⟨none, rfl, ?_⟩
      rw [ebind_err]; refine Or.inr ⟨none, rfl, ?_⟩
      rw [ebind_err]; refine Or.inr ⟨none, rfl, ?_⟩
      rw [ebind_err]; refine Or.inr ⟨none, rfl, ?_⟩
      rw [ebind_err]; refine Or.inr ⟨none, rfl, ?_⟩
      rw [ebind_err]; refine Or.inr ⟨none, rfl, ?_⟩
      rw [ebind_err]; refine Or.inr ⟨none, rfl, ?_⟩
      rw [ebind_err]; refine Or.inr ⟨none, rfl, ?_⟩
      rw [ebind_err]; refine Or.inr ⟨none, rfl, ?_⟩
      rw [ebind_err]; refine Or.inr ⟨none, rfl, ?_⟩
      rw [ebind_err]; refine Or.inr ⟨(none, none), rfl, ?_⟩
      rw [ebind_err]; refine Or.inr ⟨none, rfl, ?_⟩
      rw [ebind_err]
      exact Or.inl hcrf
    unfold validate_operations
    rw [if_neg (by simp), if_neg (by simp)]
    rw [ebind_err]
    refine Or.inl ?_
    unfold validate_ops_from
    rw [ebind_err]
    refine Or.inl ?_
    have hdt : dget [("type", vStr "transcode"), ("crf", vInt c)] "type"
        = some (vStr "transcode") := rfl
    simp only [validate_one_op, hdt]
    rw [if_neg (by decide), if_neg (by decide), if_neg (by decide),
      if_neg (by decide), if_neg (by decide), if_pos trivial]
    exact htc

/-- C3 counterexample to the first part of the claim: `crf = 0` without
`allow_lossless` is accepted (with only a logged warning). -/
theorem c3_crf_counterexample :
    validate_operations [vDict [("type", vStr "transcode"), ("crf", vInt 0)]]
      = .ok [[("type", vStr "transcode"), ("crf", vInt 0)]] :=
  rfl

/-- C3 witness: `crf = 51` is accepted and `crf = 52` is rejected. -/
theorem c3_crf_witness :
    validate_operations [vDict [("type", vStr "transcode"), ("crf", vInt 51)]]
      = .ok [[("type", vStr "transcode"), ("crf", vInt 51)]] ∧
    validate_operations [vDict [("type", vStr "transcode"), ("crf", vInt 52)]]
      = .error "CRF out of valid range (0-51)" :=
  ⟨(c3_crf_acceptance 51).1 (by norm_num) (by norm_num),
   (c3_crf_acceptance 52).2 (by norm_num)⟩


/-! ### `_build_atempo_chain` (worker/utils/ffmpeg.py) -/

/-- Ceiling strictly shrinks under halving above 2 (termination measure of
the atempo loops). -/
theorem ceil_half_lt {x : ℚ} (h : 2 < x) : ⌈x / 2⌉₊ < ⌈x⌉₊ := by
  have h1 : x / 2 + 1 ≤ x := by linarith
  calc ⌈x / 2⌉₊ < ⌈x / 2⌉₊ + 1 := Nat.lt_succ_self _
    _ = ⌈x / 2 + 1⌉₊ := (Nat.ceil_add_one (by linarith)).symm
    _ ≤ ⌈x⌉₊ := Nat.ceil_le_ceil h1

/-- The `while remaining > 2.0` loop of `_build_atempo_chain`: how many
`atempo=2.0` factors are emitted, and the remaining value. -/
def atempoUp (r : ℚ) : ℕ × ℚ :=
  if h : 2 < r then
    let p := atempoUp (r / 2)
    (p.1 + 1, p.2)
  else (0, r)
termination_by ⌈r⌉₊
decreasing_by exact ceil_half_lt h

/-- The `while remaining < 0.5` loop of `_build_atempo_chain` (it only runs
for positive `remaining`, the function having returned already for
`speed <= 0`). -/
def atempoDown (r : ℚ) : ℕ × ℚ :=
  if h : 0 < r ∧ r < 1/2 then
    let p := atempoDown (r / (1/2))
    (p.1 + 1, p.2)
  else (0, r)
termination_by ⌈r⁻¹⌉₊
decreasing_by
  have hx : (r / (1/2))⁻¹ = r⁻¹ / 2 := by
    rw [show r / (1/2) = 2 * r from by ring, mul_inv]
    ring
  rw [hx]
  refine ceil_half_lt ?_
  rw [show (2 : ℚ) = (1/2)⁻¹ from by norm_num]
  exact inv_strictAnti₀ h.1 h.2

/-- The decimal value rendered by `f"atempo={remaining:.4f}"`: the remaining
factor rounded to four decimal places. -/
def round4 (q : ℚ) : ℚ := (⌊q * 10000 + 1/2⌋ : ℚ) / 10000

/-- `_build_atempo_chain` from worker/utils/ffmpeg.py, with each emitted
`atempo=` filter represented by its numeric factor (`2.0`, `0.5`, or the
4-decimal rendering of the final remaining factor). -/
def build_atempo_factors (speed : ℚ) : List ℚ :=
  if speed ≤ 0 then []
  else
    List.replicate (atempoUp speed).1 2 ++
      List.replicate (atempoDown (atempoUp speed).2).1 (1/2) ++
      (if 1/2 ≤ (atempoDown (atempoUp speed).2).2 ∧ (atempoDown (atempoUp speed).2).2 ≤ 2
       then [round4 (atempoDown (atempoUp speed).2).2] else [])

theorem round4_close (q : ℚ) : |round4 q - q| ≤ 1/20000 := by
  unfold round4
  rw [abs_le]
  have h1 : (⌊q * 10000 + 1/2⌋ : ℚ) ≤ q * 10000 + 1/2 := Int.floor_le _
  have h2 : q * 10000 + 1/2 - 1 < (⌊q * 10000 + 1/2⌋ : ℚ) := Int.sub_one_lt_floor _
  constructor <;> linarith

theorem round4_mem {q : ℚ} (h1 : 1/2 ≤ q) (h2 : q ≤ 2) :
    1/2 ≤ round4 q ∧ round4 q ≤ 2 := by
  unfold round4
  have hlo : (5000 : ℤ) ≤ ⌊q * 10000 + 1/2⌋ := by
    refine Int.le_floor.mpr ?_
    push_cast
    linarith
  have hhi : ⌊q * 10000 + 1/2⌋ < (20001 : ℤ) := by
    refine Int.floor_lt.mpr ?_
    push_cast
    linarith
  constructor
  · rw [le_div_iff₀ (by norm_num : (0:ℚ) < 10000)]
    calc (1/2 : ℚ) * 10000 = 5000 := by norm_num
      _ ≤ _ := by exact_mod_cast hlo
  · rw [div_le_iff₀ (by norm_num : (0:ℚ) < 10000)]
    calc ((⌊q * 10000 + 1/2⌋ : ℤ) : ℚ) ≤ 20000 := by exact_mod_cast (by omega : ⌊q * 10000 + 1/2⌋ ≤ 20000)
      _ = 2 * 10000 := by norm_num

theorem atempoUp_le {r : ℚ} (h : r ≤ 2) : atempoUp r = (0, r) := by
  rw [atempoUp, dif_neg (not_lt.mpr h)]

theorem atempoUp_mid {r : ℚ} (h1 : 2 < r) (h2 : r ≤ 4) :
    atempoUp r = (1, r / 2) := by
  rw [atempoUp, dif_pos h1]
  show ((atempoUp (r / 2)).1 + 1, (atempoUp (r / 2)).2) = (1, r / 2)
  rw [atempoUp_le (by linarith)]

theorem atempoDown_ge {r : ℚ} (h : ¬ (0 < r ∧ r < 1/2)) : atempoDown r = (0, r) := by
  rw [atempoDown, dif_neg h]

theorem atempoDown_mid {r : ℚ} (h1 : 1/4 ≤ r) (h2 : r < 1/2) :
    atempoDown r = (1, r / (1/2)) := by
  rw [atempoDown, dif_pos ⟨by linarith, h2⟩]
  show ((atempoDown (r / (1/2))).1 + 1, (atempoDown (r / (1/2))).2) = (1, r / (1/2))
  rw [atempoDown_ge (by
    rintro ⟨h0, hlt⟩
    rw [show r / (1/2) = 2 * r from by ring] at hlt
    linarith)]

/-- C8: for every speed in the validated range `[0.25, 4]`, the atempo chain
emitted by the builder consists only of factors in `[0.5, 2]`, and the
product of the factors equals the requested speed up to the 4-decimal
rounding of the final factor. -/
theorem c8_atempo_chain (speed : ℚ) (h1 : 1/4 ≤ speed) (h2 : speed ≤ 4) :
    (∀ f ∈ build_atempo_factors speed, 1/2 ≤ f ∧ f ≤ 2) ∧
    ∃ r, (build_atempo_factors speed).dropLast.prod * r = speed ∧
      (build_atempo_factors speed).getLast? = some (round4 r) ∧
      |round4 r - r| ≤ 1/20000 := by
  have hpos : ¬ speed ≤ 0 := by linarith
  by_cases hA : 2 < speed
  · have hchain : build_atempo_factors speed = [2, round4 (speed / 2)] := by
      unfold build_atempo_factors
      rw [if_neg hpos, atempoUp_mid hA h2,
        atempoDown_ge (by rintro ⟨h0, hlt⟩; linarith)]
      rw [if_pos ⟨by linarith, by linarith⟩]
      rfl
    rw [hchain]
    constructor
    · intro f hf
      rcases List.mem_cons.mp hf with rfl | hf
      · norm_num
      · rcases List.mem_cons.mp hf with rfl | hf
        · exact round4_mem (by linarith) (by linarith)
        · cases hf
    · exact ⟨speed / 2, by simp; ring, rfl, round4_close _⟩
  · by_cases hB : 1/2 ≤ speed
    · have hchain : build_atempo_factors speed = [round4 speed] := by
        unfold build_atempo_factors
        rw [if_neg hpos, atempoUp_le (by linarith),
          atempoDown_ge (by rintro ⟨h0, hlt⟩; linarith)]
        rw [if_pos ⟨hB, by linarith⟩]
        rfl
      rw [hchain]
      constructor
      · intro f hf
        rcases List.mem_cons.mp hf with rfl | hf
        · exact round4_mem hB (by linarith)
        · cases hf
      · exact ⟨speed, by simp, rfl, round4_close _⟩
    · push_neg at hB
      have hchain : build_atempo_factors speed
          = [1/2, round4 (speed / (1/2))] := by
        unfold build_atempo_factors
        rw [if_neg hpos]
        simp only [atempoUp_le (by linarith : speed ≤ 2)]
        simp only [atempoDown_mid h1 hB]
        rw [if_pos ⟨by rw [show speed / (1/2) = 2 * speed from by ring]; linarith,
          by rw [show speed / (1/2) = 2 * speed from by ring]; linarith⟩]
        rfl
      rw [hchain]
      constructor
      · intro f hf
        rcases List.mem_cons.mp hf with rfl | hf
        · norm_num
        · rcases List.mem_cons.mp hf with rfl | hf
          · refine round4_mem ?_ ?_ <;>
              rw [show speed / (1/2) = 2 * speed from by ring] <;> linarith
          · cases hf
      · refine ⟨speed / (1/2), by simp; ring, rfl, round4_close _⟩

/-- C8 witness: speed 3 gives the chain `[2.0, round4 1.5]`. -/
theorem c8_atempo_witness :
    (∀ f ∈ build_atempo_factors 3, 1/2 ≤ f ∧ f ≤ 2) ∧
    ∃ r, (build_atempo_factors 3).dropLast.prod * r = 3 ∧
      (build_atempo_factors 3).getLast? = some (round4 r) ∧
      |round4 r - r| ≤ 1/20000 :=
  c8_atempo_chain 3 (by norm_num) (by norm_num)


/-! ### `FFmpegProgressParser.parse_progress` (worker/utils/ffmpeg.py),
the `time=` field and the derived `percentage` -/

/-- Two ASCII digits as a number. -/
def twoDigits (a b : Char) : ℕ := 10 * (a.toNat - 48) + (b.toNat - 48)

/-- Match the groups of `time=(\d{2}):(\d{2}):(\d{2})\.(\d{2})` at the head
of the character list (the part after a literal `time=`). -/
def parseTimeAt : List Char → Option (ℕ × ℕ × ℕ × ℕ)
  | h1 :: h2 :: ':' :: m1 :: m2 :: ':' :: s1 :: s2 :: '.' :: c1 :: c2 :: _ =>
      if h1.isDigit && h2.isDigit && m1.isDigit && m2.isDigit &&
         s1.isDigit && s2.isDigit && c1.isDigit && c2.isDigit then
        some (twoDigits h1 h2, twoDigits m1 m2, twoDigits s1 s2, twoDigits c1 c2)
      else none
  | _ => none

/-- `re.search` of the time pattern: leftmost occurrence of `time=` followed
by a full match. -/
def searchTime : List Char → Option (ℕ × ℕ × ℕ × ℕ)
  | [] => none
  | c :: rest =>
      match c :: rest with
      | 't' :: 'i' :: 'm' :: 'e' :: '=' :: tail =>
          match parseTimeAt tail with
          | some g => some g
          | none => searchTime rest
      | _ => searchTime rest

/-- The `percentage` entry computed by the `time` branch of
`parse_progress` (ffmpeg.py:1166-1174).
`if self.total_duration and self.total_duration > 0` takes the first branch
exactly when the duration is known, nonzero and positive; `elif
self.total_duration == 0` matches a known zero duration (`None == 0` is
false in Python). -/
def progress_pct (total_duration : Option ℚ) (t : ℚ) : Option ℚ :=
  match total_duration with
  | none => none
  | some d =>
      if d ≠ 0 ∧ 0 < d then some (min 100 (t / d * 100))
      else if d = 0 then some (if 0 < t then 100 else 0)
      else none

/-- The `time` branch of `parse_progress` (ffmpeg.py:1160-1174): the parsed
`time` in seconds and the `percentage` entry it stores, if any. -/
def parse_progress_time (total_duration : Option ℚ) (line : String) :
    Option (ℚ × Option ℚ) :=
  match searchTime line.data with
  | none => none
  | some (h, m, s, c) =>
      some ((h : ℚ) * 3600 + (m : ℚ) * 60 + (s : ℚ) + (c : ℚ) / 100,
        progress_pct total_duration
          ((h : ℚ) * 3600 + (m : ℚ) * 60 + (s : ℚ) + (c : ℚ) / 100))

theorem progress_pct_pos {d : ℚ} (t : ℚ) (hd : 0 < d) :
    progress_pct (some d) t = some (min 100 (t / d * 100)) := by
  simp only [progress_pct]
  rw [if_pos ⟨fun h0 => absurd hd (by rw [h0]; exact lt_irrefl 0), hd⟩]

theorem progress_pct_zero (t : ℚ) :
    progress_pct (some 0) t = some (if 0 < t then 100 else 0) := by
  simp only [progress_pct]
  rw [if_neg (by rintro ⟨hne, _⟩; exact hne rfl), if_pos trivial]

/-- C6: on a line with a time field, the percentage is
`min 100 (t / d * 100)` for a known positive duration and omitted for an
unknown duration; but for a known zero duration the parser emits a
percentage in every case: `100` when `t > 0` and `0` (not omitted) when
`t = 0`, amending the last part of the claim. -/
theorem c6_progress_percentage {dur : Option ℚ} {line : String} {t : ℚ}
    {pct : Option ℚ} (h : parse_progress_time dur line = some (t, pct)) :
    (∀ d, dur = some d → 0 < d → pct = some (min 100 (t / d * 100))) ∧
    (dur = none → pct = none) ∧
    (dur = some 0 → pct = some (if 0 < t then (100 : ℚ) else 0)) := by
  unfold parse_progress_time at h
  split at h
  · cases h
  · rw [Option.some.injEq, Prod.mk.injEq] at h
    obtain ⟨ht, hp⟩ := h
    refine ⟨?_, ?_, ?_⟩
    · intro d hd hdpos
      subst hd
      rw [← hp, progress_pct_pos _ hdpos, ht]
    · intro hd
      subst hd
      rw [← hp]
      rfl
    · intro hd
      subst hd
      rw [← hp, progress_pct_zero, ht]

/-- C6 counterexample to the claim's zero-duration clause: with a known
duration of 0 and `time=00:00:00.00`, the parser emits `percentage = 0.0`
instead of omitting the field. -/
theorem c6_progress_counterexample :
    parse_progress_time (some 0) "time=00:00:00.00"
      = some (0, some 0) := by
  have hsearch : searchTime ("time=00:00:00.00").data = some (0, 0, 0, 0) := by
    decide
  unfold parse_progress_time
  rw [hsearch]
  simp only []
  norm_num
  rw [progress_pct_zero]
  norm_num

/-- C6 witness: a 5-second time against a 10-second duration gives 50%. -/
theorem c6_progress_witness :
    (some (min 100 ((5 : ℚ) / 10 * 100)) : Option ℚ) = some 50 := by
  have hrun : parse_progress_time (some 10) "time=00:00:05.00"
      = some (5, some (min 100 ((5 : ℚ) / 10 * 100))) := by
    have hsearch : searchTime ("time=00:00:05.00").data = some (0, 0, 5, 0) := by
      decide
    unfold parse_progress_time
    rw [hsearch]
    simp only []
    norm_num
    rw [progress_pct_pos _ (by norm_num : (0:ℚ) < 10)]
    norm_num
  have h := c6_progress_percentage hrun
  rw [← h.1 10 rfl (by norm_num), h.1 10 rfl (by norm_num)]
  norm_num


/-! ### `LocalStorageBackend._resolve_path` (storage/local.py) -/

/-- Split a character list on a separator character. -/
def splitOnChar (sep : Char) : List Char → List (List Char)
  | [] => [[]]
  | c :: rest =>
      match splitOnChar sep rest with
      | [] => [[c]]
      | grp :: more =>
          if c = sep then [] :: grp :: more
          else (c :: grp) :: more

/-- Split a path string into components (`pathlib` drops empty segments
from repeated or trailing separators). -/
def pathComps (s : String) : List String :=
  ((splitOnChar '/' s.data).map String.mk).filter (fun c => c ≠ "")

/-- Is the path string absolute? -/
def pathAbs (s : String) : Bool :=
  match s.data with
  | '/' :: _ => true
  | _ => false

/-- Lexical resolution of `Path.resolve()` over components rooted at `/`:
`.` is dropped and `..` pops the last component (a no-op at the root),
exactly as resolution of an absolute path behaves. -/
def resolveAux (acc : List String) : List String → List String
  | [] => acc
  | c :: rest =>
      if c = "." then resolveAux acc rest
      else if c = ".." then resolveAux acc.dropLast rest
      else resolveAux (acc ++ [c]) rest

/-- `LocalStorageBackend._resolve_path`: the base directory is an absolute
resolved path given by its components; `base / path` keeps `path` alone when
it is absolute, then the joined path is resolved and checked to lie under
the base with `relative_to`. -/
def resolve_path (base : List String) (s : String) : Except String (List String) :=
  if s = "" then .ok base
  else
    if base.isPrefixOf
        (resolveAux [] (if pathAbs s then pathComps s else base ++ pathComps s)) then
      .ok (resolveAux [] (if pathAbs s then pathComps s else base ++ pathComps s))
    else .error ("Path " ++ s ++ " would escape storage directory")

/-- `resolveAux` only emits components of its accumulator or non-dot
components of its input. -/
theorem resolveAux_no_dots (l : List String) :
    ∀ acc, "." ∉ acc → ".." ∉ acc →
      "." ∉ resolveAux acc l ∧ ".." ∉ resolveAux acc l := by
  induction l with
  | nil => intro acc h1 h2; exact ⟨h1, h2⟩
  | cons c rest ih =>
      intro acc h1 h2
      unfold resolveAux
      split
      · exact ih acc h1 h2
      · split
        · exact ih acc.dropLast
            (fun hc => h1 (List.dropLast_subset  _ hc))
            (fun hc => h2 (List.dropLast_subset _ hc))
        · rename_i hdot hdotdot
          refine ih (acc ++ [c]) ?_ ?_
          · intro hc
            rcases List.mem_append.mp hc with hc | hc
            · exact h1 hc
            · rw [List.mem_singleton] at hc
              exact hdot hc.symm
          · intro hc
            rcases List.mem_append.mp hc with hc | hc
            · exact h2 hc
            · rw [List.mem_singleton] at hc
              exact hdotdot hc.symm

/-- C4: every path the local backend resolves successfully lies under the
base directory (as a component prefix) and is fully normalized (no `.` or
`..` components); the traversal path `../etc/passwd` is rejected for a
base of `/storage`. -/
theorem c4_local_path_containment :
    (∀ (base : List String) (s : String) (p : List String),
        "." ∉ base → ".." ∉ base →
        resolve_path base s = .ok p →
        base.IsPrefix p ∧ "." ∉ p ∧ ".." ∉ p) ∧
    resolve_path ["storage"] "../etc/passwd"
      = .error "Path ../etc/passwd would escape storage directory" := by
  constructor
  · intro base s p h1 h2 h
    unfold resolve_path at h
    split at h
    · cases h
      exact ⟨List.prefix_refl _, h1, h2⟩
    · split at h
      · split at h
        · rename_i hpre
          cases h
          have hnd := resolveAux_no_dots (pathComps s) ([] : List String)
            (by simp) (by simp)
          exact ⟨List.isPrefixOf_iff_prefix.mp hpre, hnd.1, hnd.2⟩
        · cases h
      · split at h
        · rename_i hpre
          cases h
          have hnd := resolveAux_no_dots (base ++ pathComps s) ([] : List String)
            (by simp) (by simp)
          exact ⟨List.isPrefixOf_iff_prefix.mp hpre, hnd.1, hnd.2⟩
        · cases h
  · rfl

/-- C4 witness: a relative file path resolves under the base. -/
theorem c4_local_path_witness :
    (["storage"] : List String).IsPrefix ["storage", "videos", "a.mp4"] ∧
    "." ∉ (["storage", "videos", "a.mp4"] : List String) ∧
    ".." ∉ (["storage", "videos", "a.mp4"] : List String) :=
  c4_local_path_containment.1 ["storage"] "videos/a.mp4"
    ["storage", "videos", "a.mp4"] (by decide) (by decide) rfl


/-! ### Worker failure messages (worker/tasks.py, worker/utils/ffmpeg.py)
and the submit flow (api/routers/convert.py) -/

/-- `l[-n:]`: the last `n` elements. -/
def lastN (n : ℕ) (l : List String) : List String :=
  if l.length ≤ n then l else l.drop (l.length - n)

/-- Substring test (`t in s` for Python strings). -/
def containsSub (s t : String) : Bool := decide (t.data <:+: s.data)

/-- The `FFmpegExecutionError` message of `execute_command`
(ffmpeg.py:1414-1416): the last 10 stderr lines joined into the message. -/
def ffmpeg_execution_error_message (returncode : ℤ)
    (stderr_lines : List String) : String :=
  "FFmpeg failed with code " ++ intDec returncode ++ ": " ++
    String.intercalate "\n" (lastN 10 stderr_lines)

/-- `job.error_message = str(e)` in the `process_job` exception handler
(tasks.py:167): the stored message is the raw exception text. -/
def job_error_message (e : String) : String := e

/-- The sanitized webhook error of the same handler (tasks.py:172-181). -/
def webhook_error_message (e : String) : String :=
  if containsSub (strLower e) "not found" then "Input file not found"
  else if containsSub (strLower e) "permission" then "Permission denied"
  else if containsSub (strLower e) "timeout" then "Processing timeout"
  else "Processing failed"

/-- C2: when FFmpeg fails, the message stored in the job's `error_message`
column is the raw `FFmpegExecutionError` text, which ends with the tool's
stderr (its last 10 lines) — the claim holds only for the webhook payload,
whose error is always one of four fixed sanitized strings. -/
theorem c2_error_message_contains_stderr (rc : ℤ) (lines : List String)
    (hlen : lines.length ≤ 10) :
    job_error_message (ffmpeg_execution_error_message rc lines)
      = ("FFmpeg failed with code " ++ intDec rc ++ ": ") ++
          String.intercalate "\n" lines ∧
    ∀ e, webhook_error_message e ∈
      ["Input file not found", "Permission denied", "Processing timeout",
       "Processing failed"] := by
  constructor
  · unfold job_error_message ffmpeg_execution_error_message lastN
    rw [if_pos hlen, String.append_assoc, String.append_assoc]
  · intro e
    unfold webhook_error_message
    split
    · simp
    · split
      · simp
      · split
        · simp
        · simp

/-- C2 witness: a two-line stderr tail is stored verbatim in the error
message. -/
theorem c2_error_message_witness :
    job_error_message
        (ffmpeg_execution_error_message 1 ["Error opening input", "No such file"])
      = ("FFmpeg failed with code " ++ intDec 1 ++ ": ") ++
          String.intercalate "\n" ["Error opening input", "No such file"] ∧
    ∀ e, webhook_error_message e ∈
      ["Input file not found", "Permission denied", "Processing timeout",
       "Processing failed"] :=
  c2_error_message_contains_stderr 1 ["Error opening input", "No such file"]
    (by norm_num)

/-- A Python exception as it flows through the handlers of `create_job`:
FastAPI's `HTTPException` (status and detail), a `ValueError`, or any
other exception. -/
inductive PyExc where
  | httpExc (status : ℕ) (detail : String)
  | valueError (msg : String)
  | otherExc (msg : String)

/-- The `try: await queue_service.enqueue_job(...) except Exception: await
db.rollback(); raise HTTPException(503, "Failed to queue job")` block of
`create_job` (convert.py:157-167): the result and whether the insert was
rolled back. -/
def enqueue_guard (enqueue_result : Except PyExc Unit) :
    Except PyExc Unit × Bool :=
  match enqueue_result with
  | .ok () => (.ok (), false)
  | .error _ => (.error (.httpExc 503 "Failed to queue job"), true)

/-- The trailing handlers of `create_job` (convert.py:210-214):
`except ValueError` maps to a 400, and the final `except Exception`
catches everything else — `HTTPException` included — as a 500. -/
def create_job_except (e : PyExc) : PyExc :=
  match e with
  | .valueError m => .httpExc 400 m
  | _ => .httpExc 500 "Failed to create job"

/-- The enqueue/commit section of `create_job`: after `db.add` and
`db.flush`, the job is enqueued (rolling back on failure) and only then
committed; any escaping exception passes through the trailing handlers.
Returns (response, committed, rolledBack). -/
def create_job_flow (enqueue_result : Except PyExc Unit) :
    Except PyExc Unit × Bool × Bool :=
  match enqueue_guard enqueue_result with
  | (.ok (), rb) => (.ok (), true, rb)
  | (.error e, rb) => (.error (create_job_except e), false, rb)

/-- C9: when enqueue fails the insert is rolled back and never committed —
but the client does not receive the specified 503: the handler's own
`HTTPException(503, "Failed to queue job")` is caught by the outer
`except Exception` and replaced by a 500 `"Failed to create job"`. On
enqueue success the job is committed and no rollback happens. -/
theorem c9_enqueue_failure_response (err : PyExc) :
    create_job_flow (.error err)
      = (.error (.httpExc 500 "Failed to create job"), false, true) ∧
    create_job_flow (.ok ()) = (.ok (), true, false) :=
  ⟨rfl, rfl⟩


/-! ### `FFmpegCommandBuilder` (worker/utils/ffmpeg.py): whitelists and
validation helpers -/

/-- Builder `ALLOWED_CODECS['video']`. -/
def fbVideoCodecs : List String :=
  ["h264", "h265", "hevc", "vp8", "vp9", "av1",
   "libx264", "libx265", "libvpx", "libvpx-vp9", "libaom-av1", "libsvtav1",
   "prores", "prores_ks", "dnxhd", "dnxhr", "copy"]

/-- Builder `ALLOWED_CODECS['audio']`. -/
def fbAudioCodecs : List String :=
  ["aac", "mp3", "opus", "vorbis", "ac3", "eac3",
   "libfdk_aac", "libopus", "libvorbis", "libmp3lame",
   "flac", "pcm_s16le", "pcm_s24le", "pcm_s32le", "pcm_f32le", "copy"]

/-- Builder `ALLOWED_FILTERS`. -/
def fbFilters : List String :=
  ["scale", "crop", "overlay", "pad", "setsar", "setdar", "transpose",
   "hflip", "vflip", "rotate",
   "eq", "hqdn3d", "unsharp", "format", "colorchannelmixer", "lut3d",
   "curves", "lutyuv", "lutrgb",
   "yadif", "bwdif", "w3fdif", "nnedi",
   "fps", "framerate", "trim", "atrim", "setpts", "asetpts",
   "concat", "split", "asplit",
   "volume", "loudnorm", "dynaudnorm", "aresample", "channelmap", "pan",
   "amerge", "amix", "atempo",
   "fade", "afade", "drawtext", "subtitles", "ass", "boxblur", "gblur",
   "smartblur",
   "vidstabdetect", "vidstabtransform", "deshake",
   "thumbnail", "select", "tile", "palettegen", "paletteuse", "zoompan",
   "zscale", "tonemap", "colorspace", "colormatrix"]

/-- Builder `ALLOWED_PRESETS`. -/
def fbPresets : List String :=
  ["ultrafast", "superfast", "veryfast", "faster", "fast", "medium",
   "slow", "slower", "veryslow", "placebo"]

/-- Builder `ALLOWED_TUNES`. -/
def fbTunes : List String :=
  ["film", "animation", "grain", "stillimage", "fastdecode", "zerolatency",
   "psnr", "ssim"]

/-- Builder `ALLOWED_LEVELS`. -/
def fbLevels : List String :=
  ["1", "1.1", "1.2", "1.3", "2", "2.1", "2.2", "3", "3.1", "3.2",
   "4", "4.1", "4.2", "5", "5.1", "5.2", "6", "6.1", "6.2"]

/-- The operation types `_validate_operations` accepts. -/
def fbOperationTypes : List String :=
  ["transcode", "trim", "watermark", "filter", "stream_map", "streaming",
   "stream", "scale", "crop", "rotate", "flip", "audio", "subtitle",
   "concat", "thumbnail"]

/-- `os.path.normpath` over components: `.` is dropped, `..` pops a real
component, stays at the root of an absolute path, and accumulates at the
head of a relative path. -/
def npAux (ab : Bool) (acc : List String) : List String → List String
  | [] => acc
  | c :: rest =>
      if c = "." then npAux ab acc rest
      else if c = ".." then
        if acc ≠ [] ∧ acc.getLast? ≠ some ".." then npAux ab acc.dropLast rest
        else if ab then npAux ab acc rest
        else npAux ab (acc ++ [".."]) rest
      else npAux ab (acc ++ [c]) rest

/-- `os.path.normpath` (POSIX flavour). -/
def normpath (s : String) : String :=
  if pathAbs s then "/" ++ String.intercalate "/" (npAux true [] (pathComps s))
  else
    match npAux false [] (pathComps s) with
    | [] => "."
    | comps => String.intercalate "/" comps

/-- `_validate_paths`: dangerous characters, length limit, and a
directory-traversal check on the normalized paths. -/
def fb_validate_paths (input_path output_path : String) : Except String Unit :=
  (match ["\x00", "|", ";", "&", "$", "`", "(", ")", "<", ">", "\"", "\x27"].find?
      (fun c => containsSub input_path c || containsSub output_path c) with
   | some c => .error ("Dangerous character detected in path: " ++ c)
   | none => .ok ()) >>= fun _ =>
  if input_path.length > 4096 ∨ output_path.length > 4096 then
    .error "Path length exceeds maximum allowed"
  else if containsSub (normpath input_path) ".." ∨
      containsSub (normpath output_path) ".." then
    .error "Directory traversal attempt detected"
  else .ok ()

/-- `_validate_string_parameter`: command-injection patterns and length. -/
def fb_validate_string_parameter (value : String) : Except String Unit :=
  (match [";", "|", "&", "$", "`", "$(", "$\x7b", "<(", ">(", "\n", "\r"].find?
      (fun p => containsSub value p) with
   | some p => .error ("Dangerous pattern in parameter: " ++ p)
   | none => .ok ()) >>= fun _ =>
  if value.length > 1024 then .error "Parameter too long" else .ok ()

/-- `_validate_options`: every string-valued option is checked for
injection patterns (keys of the embedded dict are strings by
construction, as `isinstance(key, str)` requires). -/
def fb_validate_options : Dict → Except String Unit
  | [] => .ok ()
  | (_, v) :: rest =>
      (match v with
       | vStr s => fb_validate_string_parameter s
       | _ => .ok ()) >>= fun _ => fb_validate_options rest

/-- `_validate_numeric_param` (a present `None` returns early). -/
def fb_validate_numeric_param (x : Option Val) (lo hi : ℚ) (nm : String) :
    Except String Unit :=
  match x with
  | none => .ok ()
  | some vNone => .ok ()
  | some v =>
      match asNum v with
      | none => .error ("Parameter " ++ nm ++ " must be numeric")
      | some q =>
          if q < lo ∨ q > hi then
            .error ("Parameter " ++ nm ++ " out of range")
          else .ok ()

/-- `FFmpegCommandBuilder._validate_bitrate`: the same `^(\d+)([kKmM]?)$`
regex as the validator, but the scaled value (bits per second) is compared
against `SAFE_RANGES` of 100..50000, which are kbps figures. -/
def builder_validate_bitrate (x : Option Val) : Except String Unit :=
  match x with
  | none => .ok ()
  | some v =>
      match v with
      | vStr s =>
          match bitrateMatch s with
          | none => .error ("Invalid bitrate format: " ++ s)
          | some (n, suf) =>
              if bitrateValue n suf < 100 ∨ bitrateValue n suf > 50000 then
                .error ("Bitrate out of safe range: " ++ s)
              else .ok ()
      | _ =>
          match asNum v with
          | some q =>
              if q < 100 ∨ q > 50000 then .error "Bitrate out of safe range"
              else .ok ()
          | none => .ok ()

/-- `_validate_resolution` of the builder. -/
def fb_validate_resolution (w h : Option Val) : Except String Unit :=
  fb_validate_numeric_param w 32 7680 "width" >>= fun _ =>
  fb_validate_numeric_param h 32 4320 "height"

/-- A `\d{1,2}` group. -/
def d12c (l : List Char) : Bool :=
  (l.length = 1 || l.length = 2) && l.all Char.isDigit

/-- The final group `\d{1,2}(\.\d{1,3})?` of `_validate_time_string`. -/
def lastPartOk (l : List Char) : Bool :=
  match splitOnChar '.' l with
  | [a] => d12c a
  | [a, b] =>
      d12c a && (b.length = 1 || b.length = 2 || b.length = 3) &&
        b.all Char.isDigit
  | _ => false

/-- `_validate_time_string`'s pattern
`^(\d{1,2}:)?(\d{1,2}:)?\d{1,2}(\.\d{1,3})?$`. -/
def fbTimeOk (s : String) : Bool :=
  match splitOnChar ':' s.data with
  | [x] => lastPartOk x
  | [x, y] => d12c x && lastPartOk y
  | [x, y, z] => d12c x && d12c y && lastPartOk z
  | _ => false

/-- One time field of `_validate_trim_params`. -/
def fbTrimChk (x : Option Val) (nm : String) : Except String Unit :=
  match x with
  | none => .ok ()
  | some v =>
      if isNumV v then
        match asNum v with
        | some q =>
            if q < 0 ∨ q > 86400 then .error ("Invalid " ++ nm) else .ok ()
        | none => .ok ()
      else
        match v with
        | vStr s =>
            if fbTimeOk s then .ok ()
            else .error ("Invalid time format for " ++ nm)
        | _ => .ok ()

/-- `_validate_trim_params`. -/
def fb_validate_trim_params (p : Dict) : Except String Unit :=
  fbTrimChk (dget p "start_time") "start_time" >>= fun _ =>
  fbTrimChk (dget p "duration") "duration" >>= fun _ =>
  fbTrimChk (dget p "end_time") "end_time"

/-- `_validate_filter_params`: strings are injection-checked, numbers
bounded by `abs(value) <= 1000`. -/
def fb_validate_filter_params : Dict → Except String Unit
  | [] => .ok ()
  | (k, v) :: rest =>
      (match v with
       | vStr s => fb_validate_string_parameter s
       | _ =>
           match asNum v with
           | some q =>
               if |q| > 1000 then
                 .error ("Filter parameter " ++ k ++ " out of range")
               else .ok ()
           | none => .ok ()) >>= fun _ => fb_validate_filter_params rest

/-- `_validate_watermark_params`. -/
def fb_validate_watermark_params (p : Dict) : Except String Unit :=
  (match dget p "x" with
   | some (vStr s) => fb_validate_string_parameter s
   | _ => .ok ()) >>= fun _ =>
  (match dget p "y" with
   | some (vStr s) => fb_validate_string_parameter s
   | _ => .ok ()) >>= fun _ =>
  match dget p "opacity" with
  | none => .ok ()
  | some v =>
      match asNum v with
      | none => .error "Invalid opacity"
      | some q => if q < 0 ∨ q > 1 then .error "Invalid opacity" else .ok ()

/-- The variant loop of `_validate_streaming_params`. -/
def fbStreamVariants : List Val → Except String Unit
  | [] => .ok ()
  | v :: rest =>
      (match v with
       | vDict d =>
           (match dget d "resolution" with
            | none => .ok ()
            | some r =>
                match r with
                | vStr s =>
                    if containsSub s "x" then .ok ()
                    else .error "Invalid resolution format in variant"
                | _ => .error "Invalid resolution format in variant") >>= fun _ =>
           builder_validate_bitrate (dget d "bitrate")
       | _ => .error "Variant must be a dictionary") >>= fun _ =>
      fbStreamVariants rest

/-- `_validate_streaming_params`. -/
def fb_validate_streaming_params (p : Dict) : Except String Unit :=
  (match dget p "format" with
   | none => .ok ()
   | some f =>
       if memStr f ["hls", "dash"] then .ok ()
       else .error "Invalid streaming format") >>= fun _ =>
  (match dget p "segment_time" with
   | none => .ok ()
   | some v =>
       match asNum v with
       | none => .error "Invalid segment time"
       | some q =>
           if q < 1 ∨ q > 60 then .error "Invalid segment time" else .ok ()) >>= fun _ =>
  match dget p "variants" with
  | none => .ok ()
  | some v =>
      match v with
      | vList l => fbStreamVariants l
      | _ => .error "Variants must be a list"

/-- `_validate_transcode_params`. -/
def fb_validate_transcode_params (p : Dict) : Except String Unit :=
  (match dget p "video_codec" with
   | none => .ok ()
   | some c =>
       if memStr c fbVideoCodecs then .ok ()
       else .error "Invalid video codec") >>= fun _ =>
  (match dget p "audio_codec" with
   | none => .ok ()
   | some c =>
       if memStr c fbAudioCodecs then .ok ()
       else .error "Invalid audio codec") >>= fun _ =>
  (match dget p "preset" with
   | none => .ok ()
   | some c =>
       if memStr c fbPresets then .ok ()
       else .error "Invalid preset") >>= fun _ =>
  fb_validate_numeric_param (dget p "crf") 0 51 "crf" >>= fun _ =>
  builder_validate_bitrate (dget p "video_bitrate") >>= fun _ =>
  builder_validate_bitrate (dget p "audio_bitrate") >>= fun _ =>
  fb_validate_numeric_param (dget p "fps") 1 120 "fps" >>= fun _ =>
  fb_validate_resolution (dget p "width") (dget p "height")

/-- `_validate_operation_params`: only five operation types carry
parameter checks. -/
def fb_validate_operation_params (op_type : String) (p : Dict) :
    Except String Unit :=
  if op_type = "transcode" then fb_validate_transcode_params p
  else if op_type = "trim" then fb_validate_trim_params p
  else if op_type = "filter" then fb_validate_filter_params p
  else if op_type = "watermark" then fb_validate_watermark_params p
  else if op_type = "streaming" then fb_validate_streaming_params p
  else .ok ()

/-- `params = operation.get('params', {}); if not params: params = {k: v
for k, v in operation.items() if k != 'type'}`. -/
def extract_params (op : Dict) : Val :=
  if truthy ((dget op "params").getD (vDict [])) then
    (dget op "params").getD (vDict [])
  else vDict (op.filter (fun kv => kv.1 ≠ "type"))

/-- One iteration of the `_validate_operations` loop. -/
def fb_validate_one (v : Val) : Except String Unit :=
  match v with
  | vDict op =>
      (match dget op "type" with
       | some t =>
           if memStr t fbOperationTypes then
             match t with
             | vStr ty =>
                 match extract_params op with
                 | vDict p => fb_validate_operation_params ty p
                 | _ => .error "Operation params must be a dictionary"
             | _ => .error "Unknown operation type"
           else .error "Unknown operation type"
       | none => .error "Unknown operation type")
  | _ => .error "Operation must be a dictionary"

/-- `_validate_operations` of the builder (an empty list is valid). -/
def fb_validate_operations : List Val → Except String Unit
  | [] => .ok ()
  | v :: rest => fb_validate_one v >>= fun _ => fb_validate_operations rest

/-- C1: every bitrate the validator accepts is rejected by the builder's
defense-in-depth re-validation: the validator admits 100000..50000000 bits
per second while the builder compares the same scaled bits-per-second
value against 100..50000 (kbps figures), two disjoint ranges. -/
theorem c1_builder_rejects_validator_bitrate {v w : Val}
    (h : validate_bitrate v = .ok w) :
    ∃ m, builder_validate_bitrate (some w) = .error m := by
  rcases validate_bitrate_canon h with
    ⟨s, n, suf, rfl, rfl, hm, hlo, hhi⟩ | ⟨m, hlo, hhi, rfl⟩
  · refine ⟨"Bitrate out of safe range: " ++ s, ?_⟩
    simp only [builder_validate_bitrate, hm]
    rw [if_pos (Or.inr (by omega))]
  · have hm0 : (0 : ℤ) ≤ m := by linarith
    have habs : (m.natAbs : ℤ) = m := Int.natAbs_of_nonneg hm0
    have hid : intDec m = natDec m.natAbs := by
      unfold intDec
      rw [if_neg (by omega)]
    have hround := natDec_roundtrip m.natAbs
    have hne : (natDec m.natAbs).data ≠ [] := by
      have hd := hround.1
      unfold isDigitStr at hd
      rw [Bool.and_eq_true] at hd
      have hlen := hd.1
      simp only [decide_eq_true_eq] at hlen
      intro hc
      rw [String.length, hc] at hlen
      simp at hlen
    refine ⟨"Bitrate out of safe range: " ++ natDec m.natAbs, ?_⟩
    simp only [builder_validate_bitrate, hid,
      bitrateMatch_digits hne (natDec_all_digits m.natAbs), hround.2,
      bitrateValue]
    rw [if_pos (Or.inr (by omega))]

/-- C1 witness: `"100k"` (the smallest validator-accepted string bitrate)
is rejected by the builder. -/
theorem c1_builder_bitrate_witness :
    ∃ m, builder_validate_bitrate (some (vStr "100k")) = .error m :=
  c1_builder_rejects_validator_bitrate (v := vStr "100k") rfl


/-! ### `FFmpegCommandBuilder` handlers (worker/utils/ffmpeg.py) -/

/-- Suffix test on strings (`s.endswith(t)`). -/
def strEndsWith (s t : String) : Bool := decide (t.data <:+ s.data)

/-- `hardware_caps` as an ordered mapping (insertion order of
`detect_capabilities`), with `.get(k)` lookup. -/
def capGet (caps : List (String × Bool)) (k : String) : Bool :=
  ((caps.find? (fun p => p.1 == k)).map Prod.snd).getD false

/-- `_add_hardware_acceleration`. -/
def add_hardware_acceleration (caps : List (String × Bool)) : List String :=
  if capGet caps "nvenc" then
    ["-hwaccel", "cuda", "-hwaccel_output_format", "cuda"]
  else if capGet caps "qsv" then ["-hwaccel", "qsv"]
  else if capGet caps "vaapi" then
    ["-hwaccel", "vaapi", "-hwaccel_device", "/dev/dri/renderD128"]
  else if capGet caps "videotoolbox" then ["-hwaccel", "videotoolbox"]
  else []

/-- The per-codec encoder table of `HardwareAcceleration.get_best_encoder`
(without its `software` entry, handled by `softEnc`). -/
def encTable (codec : String) : Option (List (String × String)) :=
  if codec = "h264" then
    some [("nvenc", "h264_nvenc"), ("qsv", "h264_qsv"), ("vaapi", "h264_vaapi"),
          ("videotoolbox", "h264_videotoolbox"), ("amf", "h264_amf")]
  else if codec = "h265" then
    some [("nvenc", "hevc_nvenc"), ("qsv", "hevc_qsv"), ("vaapi", "hevc_vaapi"),
          ("videotoolbox", "hevc_videotoolbox"), ("amf", "hevc_amf")]
  else if codec = "av1" then
    some [("nvenc", "av1_nvenc"), ("vaapi", "av1_vaapi")]
  else none

/-- The `software` encoder of each supported codec. -/
def softEnc (codec : String) : String :=
  if codec = "h264" then "libx264"
  else if codec = "h265" then "libx265"
  else "libaom-av1"

/-- `HardwareAcceleration.get_best_encoder`: first available hardware
encoder in capability order, then the software fallback. -/
def get_best_encoder (codec : String) (caps : List (String × Bool)) : String :=
  match encTable codec with
  | none => "copy"
  | some tbl =>
      match caps.find? (fun p => p.2 && ((tbl.find? (fun e => e.1 == p.1)).isSome)) with
      | some p => ((tbl.find? (fun e => e.1 == p.1)).map Prod.snd).getD (softEnc codec)
      | none => softEnc codec

/-- An optional `['flag', str(value)]` pair keyed on dict presence. -/
def optFlag (flag : String) (x : Option Val) : List String :=
  match x with
  | some v => [flag, pyStr v]
  | none => []

/-- `_handle_transcode` (values are rendered with `str`; the
`params.get('format', '').lower()` call raises on a non-string format). -/
def handle_transcode (params : Dict) (caps : List (String × Bool)) :
    Except String (List String) :=
  pyLower ((dget params "format").getD (vStr "")) >>= fun output_format =>
  .ok (
    (match dget params "video_codec" with
     | some vc =>
         if truthy vc then
           ["-c:v",
            if strEq ((dget params "hardware_acceleration").getD (vStr "auto"))
                  "none" = true ∨ strEq vc "copy" = true then
              if strEq vc "copy" then "copy"
              else if memStr vc ["x264", "x265"] then "lib" ++ pyStr vc
              else if strEq vc "av1" = true ∧
                  strEq ((dget params "encoder").getD vNone) "svt" = true then
                "libsvtav1"
              else pyStr vc
            else get_best_encoder (pyStr vc) caps]
         else []
     | none => []) ++
    optFlag "-c:a" (dget params "audio_codec") ++
    optFlag "-b:v" (dget params "video_bitrate") ++
    optFlag "-maxrate" (dget params "max_bitrate") ++
    optFlag "-bufsize" (dget params "buffer_size") ++
    optFlag "-b:a" (dget params "audio_bitrate") ++
    (match dget params "width", dget params "height" with
     | some w, some h => ["-s", pyStr w ++ "x" ++ pyStr h]
     | _, _ => []) ++
    optFlag "-r" (dget params "fps") ++
    optFlag "-crf" (dget params "crf") ++
    optFlag "-preset" (dget params "preset") ++
    (match dget params "tune" with
     | some t => if memStr t fbTunes then ["-tune", pyStr t] else []
     | none => []) ++
    optFlag "-profile:v" (dget params "profile") ++
    (match dget params "level" with
     | some l => if pyStr l ∈ fbLevels then ["-level", pyStr l] else []
     | none => []) ++
    optFlag "-pix_fmt" (dget params "pixel_format") ++
    optFlag "-g" (dget params "gop_size") ++
    optFlag "-bf" (dget params "b_frames") ++
    optFlag "-refs" (dget params "ref_frames") ++
    optFlag "-rc-lookahead" (dget params "rc_lookahead") ++
    optFlag "-sc_threshold" (dget params "sc_threshold") ++
    optFlag "-ar" (dget params "audio_sample_rate") ++
    optFlag "-ac" (dget params "audio_channels") ++
    (if truthy ((dget params "faststart").getD (vBool true)) = true ∧
        output_format ∉ ["webm", "mkv", "avi", "ts", "flv"] then
       ["-movflags", "+faststart"]
     else []))

/-- `_handle_trim` (`params.get('start') or params.get('start_time')`, then
an `is not None` test). -/
def handle_trim (params : Dict) : List String :=
  (match denone (pyOr (dget params "start") (dget params "start_time")) with
   | some v => ["-ss", pyStr v]
   | none => []) ++
  (match dget params "duration" with
   | some d => ["-t", pyStr d]
   | none =>
       match denone (pyOr (dget params "end") (dget params "end_time")) with
       | some e => ["-to", pyStr e]
       | none => [])

/-- The named-position map of `_handle_watermark`. -/
def watermarkPos (position : Val) : String × String :=
  if strEq position "top-left" then ("10", "10")
  else if strEq position "top-right" then ("W-w-10", "10")
  else if strEq position "bottom-left" then ("10", "H-h-10")
  else if strEq position "bottom-right" then ("W-w-10", "H-h-10")
  else if strEq position "center" then ("(W-w)/2", "(H-h)/2")
  else ("W-w-10", "H-h-10")

/-- `_handle_watermark`; the `overlay_filter.split('[wm];')[-1]` step is
resolved by the case analysis on which branch built `overlay_filter`. -/
def handle_watermark (params : Dict) : String :=
  let xy :=
    match denone (dget params "x"), denone (dget params "y") with
    | some xv, some yv => (pyStr xv, pyStr yv)
    | _, _ => watermarkPos ((dget params "position").getD (vStr "bottom-right"))
  let base := "overlay=" ++ xy.1 ++ ":" ++ xy.2
  let opacityValid :=
    match dget params "opacity" with
    | some a => isNumV a && decide ((asNum a).getD 0 ≥ 0) && decide ((asNum a).getD 0 ≤ 1)
    | none => false
  let withWm :=
    match dget params "opacity" with
    | some a =>
        if opacityValid then
          "[1:v]format=rgba,colorchannelmixer=aa=" ++ pyStr a ++ "[wm];[0:v][wm]" ++ base
        else "[0:v][1:v]" ++ base
    | none => "[0:v][1:v]" ++ base
  match dget params "scale" with
  | some sc =>
      if truthy sc && isNumV sc then
        match dget params "opacity" with
        | some a =>
            "[1:v]scale=iw*" ++ pyStr sc ++ ":-1,format=rgba,colorchannelmixer=aa="
              ++ pyStr a ++ "[wm];[0:v][wm]"
              ++ (if opacityValid then "[0:v][wm]" ++ base else base)
        | none => "[1:v]scale=iw*" ++ pyStr sc ++ ":-1[wm];[0:v][wm]" ++ base
      else withWm
  | none => withWm

/-- Four-decimal zero-padded fraction rendering for `f"{x:.4f}"`. -/
def pad4 (m : ℕ) : String :=
  String.mk (List.replicate (4 - (natDec m).length) '0') ++ natDec m

/-- `f"{q:.4f}"` for the nonnegative remaining atempo factor. -/
def fmt4 (q : ℚ) : String :=
  intDec (⌊q * 10000 + 1/2⌋ / 10000) ++ "." ++ pad4 (⌊q * 10000 + 1/2⌋ % 10000).natAbs

/-- `_build_atempo_chain` as emitted filter strings (its numeric content is
`build_atempo_factors`). -/
def build_atempo_chain (speed : ℚ) : List String :=
  if speed ≤ 0 then []
  else
    List.replicate (atempoUp speed).1 "atempo=2.0" ++
      List.replicate (atempoDown (atempoUp speed).2).1 "atempo=0.5" ++
      (if 1/2 ≤ (atempoDown (atempoUp speed).2).2 ∧
          (atempoDown (atempoUp speed).2).2 ≤ 2 then
         ["atempo=" ++ fmt4 (atempoDown (atempoUp speed).2).2]
       else [])

/-- One optional `eq` component of `_handle_filters`. -/
def eqParam (nm : String) (x : Option Val) : List String :=
  match x with
  | some v => [nm ++ "=" ++ pyStr v]
  | none => []

/-- `_handle_filters`: returns (video_filters, audio_filters); the `speed`
branch divides by the speed value, raising on a non-number. -/
def handle_filters (params : Dict) :
    Except String (List String × List String) :=
  (if (dget params "brightness").isSome ∨ (dget params "contrast").isSome ∨
      (dget params "saturation").isSome ∨ (dget params "gamma").isSome then
     .ok ["eq=" ++ String.intercalate ":"
       (eqParam "brightness" (dget params "brightness") ++
        eqParam "contrast" (dget params "contrast") ++
        eqParam "saturation" (dget params "saturation") ++
        eqParam "gamma" (dget params "gamma"))]
   else .ok []) >>= fun vf0 =>
  let vf1 := vf0 ++
    (match dget params "denoise" with
     | some v =>
         if truthy v then
           match v with
           | vBool _ => ["hqdn3d"]
           | _ => ["hqdn3d=" ++ pyStr v]
         else []
     | none => []) ++
    (match dget params "sharpen" with
     | some v =>
         if truthy v then ["unsharp=5:5:" ++ pyStr v ++ ":5:5:" ++ pyStr v] else []
     | none => []) ++
    (match dget params "blur" with
     | some v => if truthy v then ["boxblur=" ++ pyStr v] else []
     | none => []) ++
    (match dget params "deinterlace" with
     | some v =>
         if truthy v then
           ["yadif=mode=" ++ pyStr ((dget params "deinterlace_mode").getD (vStr "send_frame"))]
         else []
     | none => []) ++
    (match dget params "stabilize" with
     | some v => if truthy v then ["vidstabtransform=smoothing=10"] else []
     | none => []) ++
    (match dget params "fade_in" with
     | some v => if truthy v then ["fade=t=in:st=0:d=" ++ pyStr v] else []
     | none => []) ++
    (match dget params "fade_out" with
     | some v => if truthy v then ["fade=t=out:d=" ++ pyStr v] else []
     | none => [])
  let af1 :=
    (match dget params "fade_in" with
     | some v => if truthy v then ["afade=t=in:st=0:d=" ++ pyStr v] else []
     | none => []) ++
    (match dget params "fade_out" with
     | some v => if truthy v then ["afade=t=out:d=" ++ pyStr v] else []
     | none => [])
  (match dget params "speed" with
   | some v =>
       if truthy v then
         match asNum v with
         | some q => .ok (["setpts=" ++ ratDec (1 / q) ++ "*PTS"], build_atempo_chain q)
         | none => .error "unsupported operand types for division"
       else .ok ([], [])
   | none => .ok ([], [])) >>= fun sp =>
  (match dget params "name" with
   | some fn =>
       if memStr fn fbFilters then
         match (dget params "params").getD (vDict []) with
         | vDict fps =>
             if !fps.isEmpty then
               .ok [pyStr fn ++ "=" ++ String.intercalate ":"
                 (fps.map (fun kv => kv.1 ++ "=" ++ pyStr kv.2))]
             else .ok [pyStr fn]
         | fpv =>
             if truthy fpv then .error "params items is not callable"
             else .ok [pyStr fn]
       else .ok []
   | none => .ok []) >>= fun named =>
  .ok (vf1 ++ sp.1 ++ named, af1 ++ sp.2)

/-- `_handle_scale`. -/
def handle_scale (params : Dict) : String :=
  let w0 := (dget params "width").getD (vInt (-1))
  let h0 := (dget params "height").getD (vInt (-1))
  let alg := (dget params "algorithm").getD (vStr "lanczos")
  let w := if strEq w0 "auto" || numEq w0 (-1) then vInt (-1) else w0
  let h := if strEq h0 "auto" || numEq h0 (-1) then vInt (-1) else h0
  "scale=" ++ pyStr w ++ ":" ++ pyStr h ++
    (if truthy alg then ":flags=" ++ pyStr alg else "")

/-- `_handle_crop`. -/
def handle_crop (params : Dict) : String :=
  "crop=" ++ pyStr ((dget params "width").getD (vStr "iw")) ++ ":" ++
    pyStr ((dget params "height").getD (vStr "ih")) ++ ":" ++
    pyStr ((dget params "x").getD (vInt 0)) ++ ":" ++
    pyStr ((dget params "y").getD (vInt 0))

/-- `_handle_rotate`. -/
def handle_rotate (params : Dict) : String :=
  let angle := (dget params "angle").getD (vInt 0)
  if numEq angle 90 then "transpose=1"
  else if numEq angle (-90) || numEq angle 270 then "transpose=2"
  else if numEq angle 180 then "transpose=1,transpose=1"
  else "rotate=" ++ pyStr angle ++ "*PI/180"

/-- `_handle_flip`. -/
def handle_flip (params : Dict) : String :=
  let dir := (dget params "direction").getD (vStr "horizontal")
  if strEq dir "horizontal" then "hflip"
  else if strEq dir "vertical" then "vflip"
  else if strEq dir "both" then "hflip,vflip"
  else "hflip"

/-- `_handle_audio`. -/
def handle_audio (params : Dict) : List String :=
  (match dget params "volume" with
   | some v => if isNumV v || isStrV v then ["volume=" ++ pyStr v] else []
   | none => []) ++
  (match dget params "normalize" with
   | some nv =>
       if truthy nv then
         if strEq ((dget params "normalize_type").getD (vStr "loudnorm")) "loudnorm" then
           ["loudnorm=I=" ++ pyStr ((dget params "target_loudness").getD (vInt (-24))) ++
            ":TP=" ++ pyStr ((dget params "true_peak").getD (vInt (-2))) ++
            ":LRA=" ++ pyStr ((dget params "loudness_range").getD (vInt 7))]
         else if strEq ((dget params "normalize_type").getD (vStr "loudnorm")) "dynaudnorm" then
           ["dynaudnorm"]
         else []
       else []
   | none => []) ++
  (match dget params "sample_rate" with
   | some v => ["aresample=" ++ pyStr v]
   | none => []) ++
  (match dget params "channels" with
   | some v =>
       if numEq v 1 then ["pan=mono|c0=0.5*c0+0.5*c1"]
       else if numEq v 2 then ["pan=stereo|c0=c0|c1=c1"]
       else []
   | none => [])

/-- `_handle_subtitle` (empty or missing path yields an empty filter;
`endswith` requires a string path). -/
def handle_subtitle (params : Dict) : Except String String :=
  match (dget params "path").getD (vStr "") with
  | vStr s =>
      if s = "" then .ok ""
      else
        fb_validate_paths s s >>= fun _ =>
        if strEndsWith s ".ass" || strEndsWith s ".ssa" then .ok ("ass=" ++ s)
        else .ok ("subtitles=" ++ s)
  | v => if truthy v then .error "endswith requires a string" else .ok ""

/-- Prepend a scale filter to the value after an existing `-vf` flag
(the list-index update of `_handle_thumbnail`). -/
def injectVf (sc : String) : List String → List String
  | [] => []
  | "-vf" :: v :: rest => "-vf" :: (sc ++ v) :: rest
  | x :: rest => x :: injectVf sc rest

/-- `_handle_thumbnail`. -/
def handle_thumbnail (params : Dict) : Except String (List String) :=
  let mode := (dget params "mode").getD (vStr "single")
  let time := (dget params "time").getD (vInt 0)
  let count := (dget params "count").getD (vInt 1)
  let interval := (dget params "interval").getD (vInt 1)
  let quality := (dget params "quality").getD (vInt 2)
  (if strEq mode "single" then
     .ok ["-ss", pyStr time, "-frames:v", "1"]
   else if strEq mode "multiple" then
     match asNum interval with
     | none => .error "unsupported comparison"
     | some qi =>
         (match asNum count with
          | none => .error "unsupported comparison"
          | some qc =>
              .ok (["-vf", "fps=" ++ ratDec (if 0 < qi then 1 / qi else 1)] ++
                (if 0 < qc then ["-frames:v", pyStr count] else [])))
   else if strEq mode "best" then
     .ok (["-vf", "thumbnail=n=" ++ pyStr ((dget params "sample_frames").getD (vInt 100)),
       "-frames:v", pyStr count])
   else if strEq mode "sprite" then
     .ok ["-vf", "fps=1/" ++ pyStr interval ++ ",scale=" ++
       pyStr ((dget params "tile_width").getD (vInt 160)) ++ ":" ++
       pyStr ((dget params "tile_height").getD (vInt 90)) ++ ",tile=" ++
       pyStr ((dget params "cols").getD (vInt 5)) ++ "x" ++
       pyStr ((dget params "rows").getD (vInt 5))]
   else .ok []) >>= fun parts =>
  let parts2 :=
    if (match dget params "width" with | some w => truthy w | none => false) &&
       (match dget params "height" with | some h => truthy h | none => false) then
      if parts.contains "-vf" then
        injectVf ("scale=" ++ pyStr ((dget params "width").getD vNone) ++ ":" ++
          pyStr ((dget params "height").getD vNone) ++ ",") parts
      else
        parts ++ ["-vf", "scale=" ++ pyStr ((dget params "width").getD vNone) ++ ":" ++
          pyStr ((dget params "height").getD vNone)]
    else parts
  .ok (parts2 ++ ["-q:v", pyStr quality])

/-- `_handle_stream_map`. -/
def handle_stream_map (params : Dict) : List String :=
  (match dget params "video_stream" with
   | some v => ["-map", "0:v:" ++ pyStr v]
   | none => []) ++
  (match dget params "audio_stream" with
   | some v => ["-map", "0:a:" ++ pyStr v]
   | none => [])

/-- The variant loop of `_handle_streaming` (`-var_stream_map` entries for
variants carrying both a resolution and a bitrate). -/
def streamingVariants (i : ℕ) : List Val → Except String (List String)
  | [] => .ok []
  | v :: rest =>
      (match v with
       | vDict d =>
           if (dget d "resolution").isSome ∧ (dget d "bitrate").isSome then
             .ok ["-var_stream_map", "v:" ++ natDec i ++ ",a:" ++ natDec i]
           else .ok []
       | vStr s =>
           if containsSub s "resolution" && containsSub s "bitrate" then
             .error "string indices must be integers"
           else .ok []
       | vList l =>
           if l.any (fun e => strEq e "resolution") &&
              l.any (fun e => strEq e "bitrate") then
             .error "list indices must be integers"
           else .ok []
       | _ => .error "argument is not iterable") >>= fun here =>
      streamingVariants (i + 1) rest >>= fun more =>
      .ok (here ++ more)

/-- `_handle_streaming`. -/
def handle_streaming (params : Dict) : Except String (List String) :=
  let fmt := (dget params "format").getD (vStr "hls")
  let st := (dget params "segment_time").getD (vInt 6)
  if strEq fmt "hls" then
    (match dget params "variants" with
     | none => .ok []
     | some v =>
         match v with
         | vList l =>
             streamingVariants 0 l >>= fun vs =>
             .ok (["-master_pl_name", "master.m3u8"] ++ vs)
         | _ => .error "variants is not iterable") >>= fun extra =>
    .ok (["-f", "hls", "-hls_time", pyStr st, "-hls_playlist_type", "vod",
      "-hls_segment_filename", "segment_%03d.ts"] ++ extra)
  else if strEq fmt "dash" then
    .ok ["-f", "dash", "-seg_duration", pyStr st, "-use_template", "1",
      "-use_timeline", "1"]
  else .ok []

/-- The `-i` arguments of `_handle_concat`'s filter mode, with per-input
path validation. -/
def concatInputs : List Val → Except String (List String)
  | [] => .ok []
  | v :: rest =>
      (match v with
       | vStr s => fb_validate_paths s s >>= fun _ => .ok ["-i", s]
       | _ => .error "argument should be a string") >>= fun here =>
      concatInputs rest >>= fun more =>
      .ok (here ++ more)

/-- The `[0:v][0:a][1:v][1:a]...` prefix of the concat filter graph. -/
def filterParts (n : ℕ) : String :=
  (List.range n).foldl
    (fun acc i => acc ++ "[" ++ natDec i ++ ":v][" ++ natDec i ++ ":a]") ""

/-- `_handle_concat`: a fresh `ffmpeg -y` vector in demuxer-list or
filter-graph form. -/
def handle_concat (params : Dict) (primary_input : String) :
    Except String (List String) :=
  let inputs := (dget params "inputs").getD (vList [])
  let mode := (dget params "mode").getD (vStr "demuxer")
  if strEq mode "demuxer" then
    .ok (["ffmpeg", "-y"] ++ ["-f", "concat", "-safe", "0"] ++
      ["-i", pyStr ((dget params "concat_list_file").getD (vStr primary_input))] ++
      ["-c", "copy"])
  else if strEq mode "filter" then
    match inputs with
    | vList l =>
        concatInputs l >>= fun ins =>
        .ok (["ffmpeg", "-y"] ++ ["-i", primary_input] ++ ins ++
          ["-filter_complex",
           filterParts (l.length + 1) ++ "concat=n=" ++ natDec (l.length + 1) ++
             ":v=1:a=1[outv][outa]"] ++
          ["-map", "[outv]", "-map", "[outa]"] ++
          (match dget params "video_codec" with
           | some vc => ["-c:v", pyStr vc]
           | none => []) ++
          (match dget params "audio_codec" with
           | some ac => ["-c:a", pyStr ac]
           | none => []))
    | _ => .error "inputs is not iterable"
  else .ok ["ffmpeg", "-y"]

/-- `_escape_metadata_field` on one character. -/
def escChar (c : Char) : Char :=
  if c ∈ ['|', ';', '&', '$', '`', '<', '>', '"', '\x27', '\\', '\n', '\r', '\t'] then '_'
  else c

/-- `_escape_metadata_field`. -/
def escape_metadata_field (s : String) : String :=
  String.mk ((s.data.map escChar).take 255)

/-- `_handle_global_options` (`options['metadata']` must be a dict for
`.items()`). -/
def handle_global_options (options : Dict) : Except String (List String) :=
  (match dget options "metadata" with
   | none => .ok []
   | some (vDict d) =>
       .ok ((d.map (fun kv =>
         ["-metadata", escape_metadata_field kv.1 ++ "=" ++
           escape_metadata_field (pyStr kv.2)])).flatten)
   | some _ => .error "object has no attribute items") >>= fun meta =>
  .ok (optFlag "-f" (dget options "format") ++ meta ++
    optFlag "-threads" (dget options "threads"))


/-- The operation loop of `build_command`: accumulates command parts, video
filters and audio filters, and returns the `_handle_concat` vector alone
(`.inl`) when a concat operation is reached, dropping everything built so
far, exactly as the early `return concat_parts` does. -/
def buildLoop (caps : List (String × Bool)) (input_path : String) :
    List Val → List String → List String → List String →
    Except String (List String ⊕ List String × List String × List String)
  | [], cmd, vf, af => .ok (.inr (cmd, vf, af))
  | opv :: rest, cmd, vf, af =>
      match opv with
      | vDict op =>
          match extract_params op with
          | vDict p =>
              let ty := (dget op "type").getD vNone
              if strEq ty "transcode" then
                handle_transcode p caps >>= fun parts =>
                buildLoop caps input_path rest (cmd ++ parts) vf af
              else if strEq ty "trim" then
                buildLoop caps input_path rest (cmd ++ handle_trim p) vf af
              else if strEq ty "watermark" then
                buildLoop caps input_path rest cmd (vf ++ [handle_watermark p]) af
              else if strEq ty "filter" then
                handle_filters p >>= fun fa =>
                buildLoop caps input_path rest cmd (vf ++ fa.1) (af ++ fa.2)
              else if strEq ty "stream_map" then
                buildLoop caps input_path rest (cmd ++ handle_stream_map p) vf af
              else if strEq ty "streaming" || strEq ty "stream" then
                handle_streaming p >>= fun parts =>
                buildLoop caps input_path rest (cmd ++ parts) vf af
              else if strEq ty "scale" then
                buildLoop caps input_path rest cmd (vf ++ [handle_scale p]) af
              else if strEq ty "crop" then
                buildLoop caps input_path rest cmd (vf ++ [handle_crop p]) af
              else if strEq ty "rotate" then
                buildLoop caps input_path rest cmd (vf ++ [handle_rotate p]) af
              else if strEq ty "flip" then
                buildLoop caps input_path rest cmd (vf ++ [handle_flip p]) af
              else if strEq ty "audio" then
                buildLoop caps input_path rest cmd vf (af ++ handle_audio p)
              else if strEq ty "subtitle" then
                handle_subtitle p >>= fun sf =>
                buildLoop caps input_path rest cmd
                  (if sf ≠ "" then vf ++ [sf] else vf) af
              else if strEq ty "thumbnail" then
                handle_thumbnail p >>= fun parts =>
                buildLoop caps input_path rest (cmd ++ parts) vf af
              else if strEq ty "concat" then
                handle_concat p input_path >>= fun parts =>
                .ok (.inl parts)
              else buildLoop caps input_path rest cmd vf af
          | _ => .error "operation params must be a dictionary"
      | _ => .error "operation is not a dictionary"

/-- `FFmpegCommandBuilder.build_command`. -/
def build_command (caps : List (String × Bool)) (input_path output_path : String)
    (options : Dict) (operations : List Val) : Except String (List String) :=
  fb_validate_paths input_path output_path >>= fun _ =>
  fb_validate_options options >>= fun _ =>
  fb_validate_operations operations >>= fun _ =>
  buildLoop caps input_path operations
    (["ffmpeg", "-y"] ++ add_hardware_acceleration caps ++ ["-i", input_path])
    [] [] >>= fun r =>
  match r with
  | .inl concatCmd => .ok concatCmd
  | .inr (cmd, vf, af) =>
      handle_global_options options >>= fun glob =>
      .ok (cmd ++
        (if ¬ vf.isEmpty then ["-vf", String.intercalate "," vf] else []) ++
        (if ¬ af.isEmpty then ["-af", String.intercalate "," af] else []) ++
        glob ++ [output_path])

/-- C5: whatever a concat-only operation list builds, the result is a fresh
`ffmpeg -y` argument vector: the demuxer-list form, the filter-graph form
(starting over from the primary input), or the bare prefix for an
unrecognized mode — never the incrementally built command. -/
theorem c5_concat_distinct_vector {caps : List (String × Bool)}
    {inp outp : String} {opts : Dict} {d : Dict} {cmd : List String}
    (hty : dget d "type" = some (vStr "concat"))
    (h : build_command caps inp outp opts [vDict d] = .ok cmd) :
    (∃ listf, cmd = ["ffmpeg", "-y", "-f", "concat", "-safe", "0", "-i",
        listf, "-c", "copy"]) ∨
    (∃ mid, cmd = ["ffmpeg", "-y", "-i", inp] ++ mid) ∨
    cmd = ["ffmpeg", "-y"] := by
  unfold build_command at h
  obtain ⟨u1, h1, h⟩ := ebind_ok.mp h
  obtain ⟨u2, h2, h⟩ := ebind_ok.mp h
  obtain ⟨u3, h3, h⟩ := ebind_ok.mp h
  obtain ⟨r, hr, h⟩ := ebind_ok.mp h
  unfold buildLoop at hr
  simp only [extract_params] at hr
  split at hr
  · rename_i p hp
    rw [hty] at hr
    simp only [Option.getD] at hr
    rw [if_neg (by decide), if_neg (by decide), if_neg (by decide),
      if_neg (by decide), if_neg (by decide), if_neg (by decide),
      if_neg (by decide), if_neg (by decide), if_neg (by decide),
      if_neg (by decide), if_neg (by decide), if_neg (by decide),
      if_neg (by decide), if_pos (by decide)] at hr
    obtain ⟨parts, hparts, hr⟩ := ebind_ok.mp hr
    cases hr
    simp only at h
    cases h
    unfold handle_concat at hparts
    by_cases hm1 : strEq ((dget p "mode").getD (vStr "demuxer")) "demuxer" = true
    · rw [if_pos hm1] at hparts
      cases hparts
      exact Or.inl ⟨_, rfl⟩
    · rw [if_neg hm1] at hparts
      by_cases hm2 : strEq ((dget p "mode").getD (vStr "demuxer")) "filter" = true
      · rw [if_pos hm2] at hparts
        split at hparts
        · rename_i iv l heq
          obtain ⟨ins, hins, hparts⟩ := ebind_ok.mp hparts
          cases hparts
          refine Or.inr (Or.inl ⟨ins ++
            ["-filter_complex", filterParts (l.length + 1) ++ "concat=n=" ++
              natDec (l.length + 1) ++ ":v=1:a=1[outv][outa]"] ++
            ["-map", "[outv]", "-map", "[outa]"] ++
            (match dget p "video_codec" with
             | some vc => ["-c:v", pyStr vc]
             | none => []) ++
            (match dget p "audio_codec" with
             | some ac => ["-c:a", pyStr ac]
             | none => []), ?_⟩)
          simp
        · cases hparts
      · rw [if_neg hm2] at hparts
        cases hparts
        exact Or.inr (Or.inr rfl)
  · cases hr

/-- C5 counterexample to the mutual-exclusion half of the claim: a list of
a scale operation followed by a concat operation is accepted end to end —
the API validator canonicalizes it and the builder builds from it without
error — and the built command is only the concat vector, the scale silently
discarded. -/
theorem c5_concat_not_exclusive :
    validate_operations
        [vDict [("type", vStr "scale"), ("width", vInt 1280), ("height", vInt 720)],
         vDict [("type", vStr "concat"),
                ("inputs", vList [vStr "/data/a.mp4", vStr "/data/b.mp4"]),
                ("mode", vStr "demuxer")]]
      = .ok [[("type", vStr "scale"), ("width", vInt 1280), ("height", vInt 720)],
             [("type", vStr "concat"),
              ("inputs", vList [vStr "/data/a.mp4", vStr "/data/b.mp4"]),
              ("mode", vStr "demuxer")]] ∧
    build_command [] "/data/in.mp4" "/data/out.mp4" []
        [vDict [("type", vStr "scale"), ("width", vInt 1280), ("height", vInt 720)],
         vDict [("type", vStr "concat"),
                ("inputs", vList [vStr "/data/a.mp4", vStr "/data/b.mp4"]),
                ("mode", vStr "demuxer")]]
      = .ok ["ffmpeg", "-y", "-f", "concat", "-safe", "0", "-i", "/data/in.mp4",
             "-c", "copy"] :=
  ⟨rfl, rfl⟩

/-- C5 witness: a concat-only demuxer operation builds the demuxer-list
vector. -/
theorem c5_concat_witness :
    (∃ listf, (["ffmpeg", "-y", "-f", "concat", "-safe", "0", "-i",
        "/data/in.mp4", "-c", "copy"] : List String)
      = ["ffmpeg", "-y", "-f", "concat", "-safe", "0", "-i", listf, "-c", "copy"]) ∨
    (∃ mid, (["ffmpeg", "-y", "-f", "concat", "-safe", "0", "-i",
        "/data/in.mp4", "-c", "copy"] : List String)
      = ["ffmpeg", "-y", "-i", "/data/in.mp4"] ++ mid) ∨
    (["ffmpeg", "-y", "-f", "concat", "-safe", "0", "-i", "/data/in.mp4",
      "-c", "copy"] : List String) = ["ffmpeg", "-y"] :=
  c5_concat_distinct_vector
    (show dget [("type", vStr "concat"),
           ("inputs", vList [vStr "/data/a.mp4", vStr "/data/b.mp4"]),
           ("mode", vStr "demuxer")] "type" = some (vStr "concat") from rfl)
    (show build_command [] "/data/in.mp4" "/data/out.mp4" []
        [vDict [("type", vStr "concat"),
           ("inputs", vList [vStr "/data/a.mp4", vStr "/data/b.mp4"]),
           ("mode", vStr "demuxer")]]
      = Except.ok ["ffmpeg", "-y", "-f", "concat", "-safe", "0", "-i",
          "/data/in.mp4", "-c", "copy"] from rfl)


end Rendiff
